import Mathlib

/-! Modbus scanner: discovery engine and status LED.

A shallow embedding of `src/main.cpp`.

* The status LED (`currentLEDStatus`, `ledAnimationStart`, `ledAnimationActive`,
  `leds[0]`) is a record `LedState`; `setLEDStatus` and `updateLEDAnimation` are
  functions on it that take the reading of `millis()` as an argument.
* The discovery functions run on a `World`: the millisecond clock, the LED, the
  settings of `Serial1`, the slave the `ModbusMaster` object is bound to, and a
  chronological trace of everything the program did to the outside.
* The Modbus library call is answered by an `Oracle`: an arbitrary function of
  the number of requests issued so far and of the request itself, so a device may
  answer differently at every attempt.
-/

namespace ModbusScanner

/-! ## Status LED -/

/-- The `LEDStatus` enumeration. -/
inductive LEDStatus
  | LED_OFF
  | LED_READY
  | LED_SCANNING
  | LED_SUCCESS
  | LED_ERROR
  | LED_WARNING
  | LED_WRITING
  | LED_CONNECTING
  deriving DecidableEq, Repr

/-- The value held by `leds[0]`: either red/green/blue bytes or a `CHSV` triple
(the library's hue conversion is not expanded). -/
inductive Pixel
  | rgb (r g b : Nat)
  | hsv (hue sat val : Nat)
  deriving DecidableEq, Repr

namespace CRGB

/-- FastLED colour code `CRGB::Black` (0x000000). -/
def Black : Pixel := .rgb 0 0 0
/-- FastLED colour code `CRGB::Blue` (0x0000FF). -/
def Blue : Pixel := .rgb 0 0 255
/-- FastLED colour code `CRGB::Green` (0x008000). -/
def Green : Pixel := .rgb 0 128 0
/-- FastLED colour code `CRGB::Red` (0xFF0000). -/
def Red : Pixel := .rgb 255 0 0
/-- FastLED colour code `CRGB::Orange` (0xFFA500). -/
def Orange : Pixel := .rgb 255 165 0
/-- FastLED colour code `CRGB::Yellow` (0xFFFF00). -/
def Yellow : Pixel := .rgb 255 255 0
/-- FastLED colour code `CRGB::Cyan` (0x00FFFF). -/
def Cyan : Pixel := .rgb 0 255 255
/-- FastLED colour code `CRGB::Purple` (0x800080). -/
def Purple : Pixel := .rgb 128 0 128

end CRGB

/-- Range of `unsigned long` on the target (32 bits): `millis()` wraps here. -/
def ulongRange : Nat := 4294967296

/-- The three LED globals, the pixel buffer `leds[0]`, and the pixel last pushed
to the strip by `FastLED.show()`. -/
structure LedState where
  currentLEDStatus : LEDStatus
  ledAnimationStart : Nat
  ledAnimationActive : Bool
  leds0 : Pixel
  shown : Pixel
  deriving DecidableEq, Repr

/-- The colour `setLEDStatus` stores in `leds[0]` for each status (its `switch`). -/
def statusColor : LEDStatus → Pixel
  | .LED_OFF => CRGB.Black
  | .LED_READY => CRGB.Blue
  | .LED_SUCCESS => CRGB.Green
  | .LED_ERROR => CRGB.Red
  | .LED_WARNING => CRGB.Orange
  | .LED_WRITING => CRGB.Yellow
  | .LED_CONNECTING => CRGB.Cyan
  | .LED_SCANNING => CRGB.Purple

/-- `setLEDStatus(status, animate)`, with `now` the value `millis()` returns. -/
def setLEDStatus (status : LEDStatus) (animate : Bool) (now : Nat) (_s : LedState) : LedState :=
  { currentLEDStatus := status
    ledAnimationActive := animate
    ledAnimationStart := now
    leds0 := statusColor status
    shown := statusColor status }

/-- `FastLED.show()`: push the buffer to the strip. -/
def FastLED_show (s : LedState) : LedState := { s with shown := s.leds0 }

/-- `millis() - ledAnimationStart` in `unsigned long` arithmetic. -/
def elapsedSince (now start : Nat) : Nat :=
  (((now : Int) - (start : Int)) % (ulongRange : Int)).toNat

/-- Arduino core `map(x, in_min, in_max, out_min, out_max)` on `long`: C division
truncates toward zero; an empty input range returns -1. -/
def map (x in_min in_max out_min out_max : Int) : Int :=
  let run := in_max - in_min
  if run = 0 then -1
  else
    let rise := out_max - out_min
    let delta := x - in_min
    (delta * rise).tdiv run + out_min

/-- Conversion of an `int` to the `uint8_t` colour channel of `CRGB(r, g, b)`. -/
def toByte (x : Int) : Nat := (x % 256).toNat

/-- `updateLEDAnimation()`, with `now` the value `millis()` returns.  The
floating-point expression `(sin(elapsed / d) + 1) * 127`, converted to the `CHSV`
value byte, is the parameter `breathe d elapsed`. -/
def updateLEDAnimation (breathe : Nat → Nat → Nat) (now : Nat) (s : LedState) : LedState :=
  if !s.ledAnimationActive then s
  else
    let elapsed := elapsedSince now s.ledAnimationStart
    match s.currentLEDStatus with
    | .LED_SCANNING =>
      FastLED_show { s with leds0 := .hsv 192 255 (breathe 200 elapsed) }
    | .LED_CONNECTING =>
      FastLED_show { s with leds0 := .hsv 128 255 (breathe 300 elapsed) }
    | .LED_ERROR =>
      let s1 := FastLED_show { s with leds0 := if (elapsed / 250) % 2 = 0 then CRGB.Red else CRGB.Black }
      if elapsed > 3000 then
        setLEDStatus .LED_READY false now { s1 with ledAnimationActive := false }
      else s1
    | .LED_SUCCESS =>
      if elapsed < 500 then
        FastLED_show { s with leds0 := CRGB.Green }
      else if elapsed < 1000 then
        let fade := map ((elapsed : Int) - 500) 0 500 255 0
        FastLED_show { s with leds0 := .rgb 0 (toByte fade) (toByte (255 - fade)) }
      else
        FastLED_show (setLEDStatus .LED_READY false now { s with ledAnimationActive := false })
    | .LED_WRITING =>
      FastLED_show { s with leds0 := .hsv 64 255 (breathe 150 elapsed) }
    | _ =>
      if elapsed > 2000 then { s with ledAnimationActive := false } else s

/-! ## Modbus library and serial port -/

/-- `ModbusMaster::ku8MBSuccess`. -/
def ku8MBSuccess : Nat := 0x00
/-- `ModbusMaster::ku8MBIllegalFunction`. -/
def ku8MBIllegalFunction : Nat := 0x01
/-- `ModbusMaster::ku8MBIllegalDataAddress`. -/
def ku8MBIllegalDataAddress : Nat := 0x02
/-- `ModbusMaster::ku8MBIllegalDataValue`. -/
def ku8MBIllegalDataValue : Nat := 0x03
/-- `ModbusMaster::ku8MBSlaveDeviceFailure`. -/
def ku8MBSlaveDeviceFailure : Nat := 0x04
/-- `ModbusMaster::ku8MBInvalidSlaveID`. -/
def ku8MBInvalidSlaveID : Nat := 0xE0
/-- `ModbusMaster::ku8MBInvalidFunction`. -/
def ku8MBInvalidFunction : Nat := 0xE1
/-- `ModbusMaster::ku8MBResponseTimedOut`. -/
def ku8MBResponseTimedOut : Nat := 0xE2
/-- `ModbusMaster::ku8MBInvalidCRC`. -/
def ku8MBInvalidCRC : Nat := 0xE3

/-- The serial framings the program passes to `Serial1.begin`. -/
inductive SerialConfig
  | SERIAL_8N1
  | SERIAL_8E1
  | SERIAL_8O1
  | SERIAL_8N2
  | SERIAL_7E1
  | SERIAL_7O1
  deriving DecidableEq, Repr

/-- The Modbus transactions the program issues. -/
inductive ModbusFn
  | readHoldingRegisters
  | readInputRegisters
  | readCoils
  | readDiscreteInputs
  | writeSingleRegister
  | writeSingleCoil
  deriving DecidableEq, Repr

/-- One transaction as it goes out on the wire: the function, the slave the
`ModbusMaster` object is bound to, the settings of `Serial1` at that moment
(`none`: the port is closed), and the two arguments of the call. -/
structure Request where
  fn : ModbusFn
  slave : Nat
  link : Option (Nat × SerialConfig)
  address : Nat
  arg : Nat
  deriving DecidableEq, Repr

/-- What comes back: the result code, the milliseconds the call blocked, and the
response buffer (`getResponseBuffer`). -/
structure Response where
  result : Nat
  took : Nat
  buffer : Nat → Nat

/-- The bus: the answer to the `n`-th transaction of the run. -/
abbrev Oracle := Nat → Request → Response

/-- The fixed text lines the discovery functions print, without their decoration;
a block of consecutive fixed lines (the tips, the troubleshooting list) is one
entry. -/
inductive Line
  | scanning
  | scanHeader
  | mayTakeAWhile
  | scanCompleteFound
  | scanCompleteNone
  | scanTips
  | detectingBaud
  | baudHeader
  | found
  | foundNoRegister
  | baudDetected
  | noResponse
  | baudFailed
  | noBaudDetected
  | configHeader
  | works
  | failed
  | noConfigDetected
  | detectStart
  | rule
  | detectHeader
  | phase1
  | noDevicesDefault
  | phase2
  | phase3
  | autoDetectionFailed
  | couldNotAutoDetect
  | troubleshooting
  | phase4
  | readingDeviceInfo
  | readingCommon
  | inputRegisters
  | detectionComplete
  | detectFooter
  | enterSlaveId
  | invalidSlaveId
  | couldNotDetectBaud
  | readingHolding
  | holdingReadOk
  | holdingReadFailed
  | readingInput
  | inputReadOk
  | inputReadFailed
  | readingCoils
  | coilsReadOk
  | coilsReadFailed
  | discreteReadOk
  | writingRegister
  | registerWritten
  | registerWriteFailed
  | writingCoil
  | coilWritten
  | coilWriteFailed
  | readingFirstFive
  | registerReadingSetup
  | enterSlaveIdShort
  | enterRegisterType
  | enterStartingAddress
  | enterQuantity
  | invalidRegisterType
  | registerWritingSetup
  | enterRegisterAddress
  | enterValue
  | currentConfiguration
  | changeSettingsHeader
  | changeSettingsNote
  | enterNewBaud
  | enterNewSlaveId
  | invalidSettings
  | settingsUpdated
  | help
  | mainMenu
  | startingAutoDetection
  | startingFullScan
  | invalidOption
  | singleDigitPlease
  | menuRule
  deriving DecidableEq, Repr

/-- The lines with numbers in them that the register commands print. -/
inductive Report
  | reading (fn : ModbusFn) (quantity startAddress slaveId : Nat)
  | register (address value : Nat)
  | bit (fn : ModbusFn) (address : Nat) (value : Bool)
  | writingRegister (value address slaveId : Nat)
  | writingCoil (value : Bool) (address slaveId : Nat)
  | testingSlaveId (slaveId : Nat)
  | deviceFoundAt (slaveId : Nat)
  | registerZero (value : Nat)
  | noResponseFrom (slaveId : Nat)
  | changingSettings (newBaud newSlaveId : Nat)
  deriving DecidableEq, Repr

/-- What the discovery functions print: a fixed line, or a line with numbers in
it. -/
inductive Msg
  | line (l : Line)
  | io (r : Report)
  | deviceFoundAtId (id : Nat)
  | respondedWithError (id : Nat)
  | modbusError (result : Nat)
  | progress (id : Nat)
  | scanSummary (devicesFound : Nat)
  | baudTesting (numBaudRates slaveId : Nat)
  | testingBaud (baud : Nat)
  | configTesting (baud slaveId : Nat)
  | testingConfig (config : SerialConfig)
  | detectedConfig (config : SerialConfig)
  | deviceFoundAtSlaveId (id : Nat)
  | tryingSlaveId (id : Nat)
  | deviceInformation (slaveId : Nat)
  | holdingRegister (reg value : Nat)
  | inputRegister (reg value : Nat)
  | detectSummary (foundCount : Nat)
  | communicatesAt (baud : Nat)
  deriving DecidableEq, Repr

/-- The two detection routines whose calls are recorded in the trace. -/
inductive Routine
  | autoDetectBaudRate (slaveId : Nat)
  | autoDetectSerialConfig (slaveId baudRate : Nat)
  deriving DecidableEq, Repr

/-- What the program does to the outside, in order.  `call` and `ret` mark the
entry and the return value of the two detection routines, `tick` a call of
`updateLEDAnimation`. -/
inductive Event
  | serialEnd
  | serialBegin (baud : Nat) (config : SerialConfig)
  | modbusBegin (slaveId : Nat)
  | transaction (req : Request) (result : Nat)
  | led (status : LEDStatus) (animate : Bool)
  | delay (ms : Nat)
  | print (m : Msg)
  | call (r : Routine)
  | ret (r : Routine) (value : Bool)
  | tick
  deriving DecidableEq, Repr

/-- The machine state the discovery functions act on. -/
structure World where
  millis : Nat
  led : LedState
  serial1 : Option (Nat × SerialConfig)
  slave : Nat
  issued : Nat
  buffer : Nat → Nat
  trace : List Event

namespace World

/-- Append one event to the trace. -/
def emit (e : Event) (w : World) : World := { w with trace := w.trace ++ [e] }

end World

/-- `delay(ms)`. -/
def delay (ms : Nat) (w : World) : World :=
  { w with millis := (w.millis + ms) % ulongRange, trace := w.trace ++ [.delay ms] }

/-- `Serial.print*` of one line. -/
def println (m : Msg) (w : World) : World := w.emit (.print m)

/-- `Serial1.end()`. -/
def serial1End (w : World) : World :=
  { w with serial1 := none, trace := w.trace ++ [.serialEnd] }

/-- `Serial1.begin(baud, config, MODBUS_RX_PIN, MODBUS_TX_PIN)`. -/
def serial1Begin (baud : Nat) (config : SerialConfig) (w : World) : World :=
  { w with serial1 := some (baud, config), trace := w.trace ++ [.serialBegin baud config] }

/-- `modbus.begin(slaveId, Serial1)`. -/
def modbusBegin (slaveId : Nat) (w : World) : World :=
  { w with slave := slaveId, trace := w.trace ++ [.modbusBegin slaveId] }

/-- The request a library call sends in the world `w`. -/
def requestOf (fn : ModbusFn) (address arg : Nat) (w : World) : Request :=
  { fn := fn, slave := w.slave, link := w.serial1, address := address, arg := arg }

/-- One blocking library call `modbus.<fn>(address, arg)`: returns the result code. -/
def transact (o : Oracle) (fn : ModbusFn) (address arg : Nat) (w : World) : Nat × World :=
  let req := requestOf fn address arg w
  let resp := o w.issued req
  (resp.result,
    { w with
      millis := (w.millis + resp.took) % ulongRange
      issued := w.issued + 1
      buffer := resp.buffer
      trace := w.trace ++ [.transaction req resp.result] })

/-- `setLEDStatus` called from a discovery function: reads the clock of the world. -/
def setLED (status : LEDStatus) (animate : Bool) (w : World) : World :=
  { w with led := setLEDStatus status animate w.millis w.led, trace := w.trace ++ [.led status animate] }

/-- `ledStatusMessage(status, message)`: `setLEDStatus(status)` with the default
`animate = true`, then the line. -/
def ledStatusMessage (status : LEDStatus) (message : Msg) (w : World) : World :=
  println message (setLED status true w)

/-! ## Discovery engine -/

/-- The result codes that the detection routines take as a sign of life:
`ku8MBSuccess` or `ku8MBIllegalDataAddress`. -/
def present (result : Nat) : Bool :=
  result = ku8MBSuccess || result = ku8MBIllegalDataAddress

/-- `printModbusError(result)`: one line naming the result code. -/
def printModbusError (result : Nat) (w : World) : World := println (.modbusError result) w

/-- One round of the `for` loop of `scanModbusDevices`, for slave id `id`:
returns the new value of `devicesFound`. -/
def scanStep (o : Oracle) (id devicesFound : Nat) (w : World) : Nat × World :=
  let w := modbusBegin id w
  let t := transact o .readHoldingRegisters 0 1 w
  let result := t.1
  let w := t.2
  let r : Nat × World :=
    if result = ku8MBSuccess then
      let w := setLED .LED_SUCCESS false w
      let w := println (.deviceFoundAtId id) w
      let w := delay 100 w
      let w := setLED .LED_SCANNING true w
      (devicesFound + 1, w)
    else if result ≠ ku8MBResponseTimedOut ∧ result ≠ ku8MBInvalidSlaveID then
      let w := setLED .LED_WARNING false w
      let w := println (.respondedWithError id) w
      let w := printModbusError result w
      let w := delay 100 w
      let w := setLED .LED_SCANNING true w
      (devicesFound, w)
    else (devicesFound, w)
  let w := delay 50 r.2
  let w := if id % 50 = 0 then println (.progress id) w else w
  (r.1, w)

/-- The `for` loop of `scanModbusDevices` over the slave ids still to visit,
threading `devicesFound`. -/
def scanLoop (o : Oracle) : List Nat → Nat → World → Nat × World
  | [], devicesFound, w => (devicesFound, w)
  | id :: rest, devicesFound, w =>
    let r := scanStep o id devicesFound w
    scanLoop o rest r.1 r.2

/-- `scanModbusDevices()`: returns `devicesFound`, the count it prints. -/
def scanModbusDevices (o : Oracle) (w : World) : Nat × World :=
  let w := ledStatusMessage .LED_SCANNING (.line .scanning) w
  let w := println (.line .scanHeader) w
  let w := println (.line .mayTakeAWhile) w
  let r := scanLoop o (List.range' 1 247) 0 w
  let devicesFound := r.1
  let w := r.2
  let w :=
    if devicesFound > 0 then ledStatusMessage .LED_SUCCESS (.line .scanCompleteFound) w
    else ledStatusMessage .LED_WARNING (.line .scanCompleteNone) w
  let w := println (.scanSummary devicesFound) w
  let w := if devicesFound = 0 then println (.line .scanTips) w else w
  (devicesFound, w)

/-- The `baudRates` table of `autoDetectBaudRate`. -/
def baudRates : List Nat := [9600, 19200, 38400, 57600, 115200, 4800, 2400, 1200]

/-- The `for` loop of `autoDetectBaudRate` over the table entries still to test,
followed by the code after the loop.  Returns the return value, the content of
`*detectedBaud` (initially `detectedBaud`) and the world. -/
def autoDetectBaudRateLoop (o : Oracle) (slaveId detectedBaud : Nat) :
    List Nat → World → Bool × Nat × World
  | [], w =>
    let w := ledStatusMessage .LED_ERROR (.line .baudFailed) w
    let w := println (.line .noBaudDetected) w
    (false, detectedBaud, w)
  | testBaud :: rest, w =>
    let w := println (.testingBaud testBaud) w
    let w := serial1End w
    let w := delay 100 w
    let w := serial1Begin testBaud .SERIAL_8N1 w
    let w := modbusBegin slaveId w
    let t := transact o .readHoldingRegisters 0 1 w
    let result := t.1
    let w := t.2
    if result = ku8MBSuccess then
      let w := println (.line .found) w
      let w := ledStatusMessage .LED_SUCCESS (.line .baudDetected) w
      (true, testBaud, w)
    else if result = ku8MBIllegalDataAddress then
      let w := println (.line .foundNoRegister) w
      let w := ledStatusMessage .LED_SUCCESS (.line .baudDetected) w
      (true, testBaud, w)
    else
      let w := println (.line .noResponse) w
      let w := delay 100 w
      autoDetectBaudRateLoop o slaveId detectedBaud rest w

/-- `autoDetectBaudRate(slaveId, &detectedBaud)`: `detectedBaud` is the content
of the out-parameter on entry; the result is the return value, the content of the
out-parameter on return, and the world. -/
def autoDetectBaudRate (o : Oracle) (slaveId detectedBaud : Nat) (w : World) :
    Bool × Nat × World :=
  let w := w.emit (.call (.autoDetectBaudRate slaveId))
  let w := ledStatusMessage .LED_SCANNING (.line .detectingBaud) w
  let w := println (.line .baudHeader) w
  let w := println (.baudTesting baudRates.length slaveId) w
  let r := autoDetectBaudRateLoop o slaveId detectedBaud baudRates w
  (r.1, r.2.1, r.2.2.emit (.ret (.autoDetectBaudRate slaveId) r.1))

/-- The `configs` table of `autoDetectSerialConfig`. -/
def configs : List SerialConfig :=
  [.SERIAL_8N1, .SERIAL_8E1, .SERIAL_8O1, .SERIAL_8N2, .SERIAL_7E1, .SERIAL_7O1]

/-- The `for` loop of `autoDetectSerialConfig` over the table entries still to
test, followed by the code after the loop. -/
def autoDetectSerialConfigLoop (o : Oracle) (slaveId baudRate : Nat) :
    List SerialConfig → World → Bool × World
  | [], w =>
    let w := println (.line .noConfigDetected) w
    let w := serial1End w
    let w := delay 100 w
    let w := serial1Begin baudRate .SERIAL_8N1 w
    let w := modbusBegin slaveId w
    (false, w)
  | config :: rest, w =>
    let w := println (.testingConfig config) w
    let w := serial1End w
    let w := delay 100 w
    let w := serial1Begin baudRate config w
    let w := modbusBegin slaveId w
    let t := transact o .readHoldingRegisters 0 1 w
    let result := t.1
    let w := t.2
    if result = ku8MBSuccess ∨ result = ku8MBIllegalDataAddress then
      let w := println (.line .works) w
      let w := println (.detectedConfig config) w
      (true, w)
    else
      let w := println (.line .failed) w
      let w := delay 100 w
      autoDetectSerialConfigLoop o slaveId baudRate rest w

/-- `autoDetectSerialConfig(slaveId, baudRate)`. -/
def autoDetectSerialConfig (o : Oracle) (slaveId baudRate : Nat) (w : World) : Bool × World :=
  let w := w.emit (.call (.autoDetectSerialConfig slaveId baudRate))
  let w := println (.line .configHeader) w
  let w := println (.configTesting baudRate slaveId) w
  let r := autoDetectSerialConfigLoop o slaveId baudRate configs w
  (r.1, r.2.emit (.ret (.autoDetectSerialConfig slaveId baudRate) r.1))

/-- One round of the quick scan loop of `detectModbusDevice` (Phase 1), for slave
id `id`; `found` is `foundSlaveIds[0 .. foundCount)`. -/
def phase1Step (o : Oracle) (id : Nat) (found : List Nat) (w : World) : List Nat × World :=
  let w := modbusBegin id w
  let t := transact o .readHoldingRegisters 0 1 w
  let result := t.1
  let w := t.2
  let r : List Nat × World :=
    if result = ku8MBSuccess ∨ result = ku8MBIllegalDataAddress then
      let w := println (.deviceFoundAtSlaveId id) w
      let w := setLED .LED_SUCCESS false w
      let w := delay 100 w
      let w := setLED .LED_SCANNING true w
      (found ++ [id], w)
    else (found, w)
  (r.1, delay 50 r.2)

/-- The quick scan loop of `detectModbusDevice` over the slave ids still to
visit: it goes on while `foundCount < 10`. -/
def phase1Loop (o : Oracle) : List Nat → List Nat → World → List Nat × World
  | [], found, w => (found, w)
  | id :: rest, found, w =>
    if found.length < 10 then
      let r := phase1Step o id found w
      phase1Loop o rest r.1 r.2
    else (found, w)

/-- The `commonIds` table of `detectModbusDevice`. -/
def commonIds : List Nat := [1, 2, 3, 247]

/-- The Phase 2 loop of `detectModbusDevice` over the common ids still to try,
with the Phase 3 call in its body.  Returns `detected`, the found list and the
world; `detectedBaud` is the content of the local of that name. -/
def phase2Loop (o : Oracle) : List Nat → Nat → List Nat → World → Bool × List Nat × World
  | [], _, found, w => (false, found, w)
  | id :: rest, detectedBaud, found, w =>
    let w := println (.tryingSlaveId id) w
    let r := autoDetectBaudRate o id detectedBaud w
    if r.1 then
      let w := println (.line .phase3) r.2.2
      let c := autoDetectSerialConfig o id r.2.1 w
      (true, [id], c.2)
    else phase2Loop o rest r.2.1 found r.2.2

/-- The ten holding-register reads of Phase 4 for one device. -/
def holdingLoop (o : Oracle) : List Nat → World → World
  | [], w => w
  | reg :: rest, w =>
    let t := transact o .readHoldingRegisters reg 1 w
    let w := if t.1 = ku8MBSuccess then println (.holdingRegister reg (t.2.buffer 0)) t.2 else t.2
    holdingLoop o rest (delay 50 w)

/-- The five input-register reads of Phase 4 for one device. -/
def inputLoop (o : Oracle) : List Nat → World → World
  | [], w => w
  | reg :: rest, w =>
    let t := transact o .readInputRegisters reg 1 w
    let w := if t.1 = ku8MBSuccess then println (.inputRegister reg (t.2.buffer 0)) t.2 else t.2
    inputLoop o rest (delay 50 w)

/-- The Phase 4 loop of `detectModbusDevice` over the found slave ids. -/
def phase4Loop (o : Oracle) : List Nat → World → World
  | [], w => w
  | slaveId :: rest, w =>
    let w := println (.deviceInformation slaveId) w
    let w := modbusBegin slaveId w
    let w := println (.line .readingCommon) w
    let w := holdingLoop o (List.range 10) w
    let w := println (.line .inputRegisters) w
    let w := inputLoop o (List.range 5) w
    phase4Loop o rest w

/-- Phase 4 of `detectModbusDevice` and the closing report, for the found list
`found`. -/
def phase4 (o : Oracle) (found : List Nat) (w : World) : List Nat × World :=
  let w := println (.line .phase4) w
  let w := ledStatusMessage .LED_CONNECTING (.line .readingDeviceInfo) w
  let w := phase4Loop o found w
  let w := ledStatusMessage .LED_SUCCESS (.line .detectionComplete) w
  let w := println (.line .rule) w
  let w := println (.line .detectFooter) w
  let w := println (.detectSummary found.length) w
  let w := println (.line .rule) w
  (found, w)

/-- `detectModbusDevice()`: returns `foundSlaveIds[0 .. foundCount)` as it stands
when the function returns.  `uninit` is the indeterminate initial content of the
local `detectedBaud`. -/
def detectModbusDevice (o : Oracle) (uninit : Nat) (w : World) : List Nat × World :=
  let w := ledStatusMessage .LED_SCANNING (.line .detectStart) w
  let w := println (.line .rule) w
  let w := println (.line .detectHeader) w
  let w := println (.line .rule) w
  let w := println (.line .phase1) w
  let w := serial1Begin 9600 .SERIAL_8N1 w
  let p1 := phase1Loop o (List.range' 1 10) [] w
  if p1.1.length = 0 then
    let w := println (.line .noDevicesDefault) p1.2
    let w := println (.line .phase2) w
    let p2 := phase2Loop o commonIds uninit p1.1 w
    if !p2.1 then
      let w := ledStatusMessage .LED_ERROR (.line .autoDetectionFailed) p2.2.2
      let w := println (.line .couldNotAutoDetect) w
      let w := println (.line .troubleshooting) w
      (p2.2.1, w)
    else phase4 o p2.2.1 p2.2.2
  else phase4 o p1.1 p1.2

/-- The wait `while (!Serial.available()) delay(10);` when the operator's line
arrives after `n` rounds. -/
def waitForInput : Nat → World → World
  | 0, w => w
  | n + 1, w => waitForInput n (delay 10 w)

/-- `testDifferentBaudRates()`: `input` is the number `input.toInt()` yields for
the line the operator typed, `waited` the rounds of the wait before it, `uninit`
the indeterminate initial content of the local `detectedBaud`. -/
def testDifferentBaudRates (o : Oracle) (waited : Nat) (input : Int) (uninit : Nat)
    (w : World) : World :=
  let w := println (.line .enterSlaveId) w
  let w := waitForInput waited w
  let slaveId := input
  if slaveId < 1 ∨ slaveId > 247 then
    println (.line .invalidSlaveId) w
  else
    let r := autoDetectBaudRate o (slaveId.toNat % 256) uninit w
    if r.1 then println (.communicatesAt r.2.1) r.2.2
    else println (.line .couldNotDetectBaud) r.2.2

/-! ## Register commands and the main loop -/

/-- Conversion of an `int` argument to a `uint8_t` parameter. -/
def toUint8 (x : Int) : Nat := (x % 256).toNat

/-- Conversion of an `int` argument to a `uint16_t` parameter. -/
def toUint16 (x : Int) : Nat := (x % 65536).toNat

/-- Conversion of a `long` to `uint32_t`. -/
def toUint32 (x : Int) : Nat := (x % 4294967296).toNat

/-- The `for` loop of `readHoldingRegisters` and `readInputRegisters` printing
`getResponseBuffer(i)` for the indices `i` still to print. -/
def printRegisters (startAddress : Nat) : List Nat → World → World
  | [], w => w
  | i :: rest, w =>
    printRegisters startAddress rest (println (.io (.register (startAddress + i) (w.buffer i))) w)

/-- The `for` loop of `readCoils` and `readDiscreteInputs` printing bit `i % 16`
of `getResponseBuffer(i / 16)` for the indices `i` still to print. -/
def printBits (fn : ModbusFn) (startAddress : Nat) : List Nat → World → World
  | [], w => w
  | i :: rest, w =>
    printBits fn startAddress rest
      (println (.io (.bit fn (startAddress + i) ((w.buffer (i / 16)).testBit (i % 16)))) w)

/-- `readHoldingRegisters(slaveId, startAddress, quantity)`, the function of
`main.cpp`. -/
def readHoldingRegisters (o : Oracle) (slaveId startAddress quantity : Nat) (w : World) : World :=
  let w := ledStatusMessage .LED_CONNECTING (.line .readingHolding) w
  let w := println (.io (.reading .readHoldingRegisters quantity startAddress slaveId)) w
  let t := transact o .readHoldingRegisters startAddress quantity w
  let result := t.1
  let w := t.2
  if result = ku8MBSuccess then
    let w := ledStatusMessage .LED_SUCCESS (.line .holdingReadOk) w
    printRegisters startAddress (List.range quantity) w
  else
    let w := ledStatusMessage .LED_ERROR (.line .holdingReadFailed) w
    printModbusError result w

/-- `readInputRegisters(slaveId, startAddress, quantity)`.  The library function
of the same name takes the quantity as `uint8_t`, so the request carries
`quantity` modulo 256; the header line and the print loop use `quantity` itself. -/
def readInputRegisters (o : Oracle) (slaveId startAddress quantity : Nat) (w : World) : World :=
  let w := ledStatusMessage .LED_CONNECTING (.line .readingInput) w
  let w := println (.io (.reading .readInputRegisters quantity startAddress slaveId)) w
  let t := transact o .readInputRegisters startAddress (quantity % 256) w
  let result := t.1
  let w := t.2
  if result = ku8MBSuccess then
    let w := ledStatusMessage .LED_SUCCESS (.line .inputReadOk) w
    printRegisters startAddress (List.range quantity) w
  else
    let w := ledStatusMessage .LED_ERROR (.line .inputReadFailed) w
    printModbusError result w

/-- `readCoils(slaveId, startAddress, quantity)`. -/
def readCoils (o : Oracle) (slaveId startAddress quantity : Nat) (w : World) : World :=
  let w := ledStatusMessage .LED_CONNECTING (.line .readingCoils) w
  let w := println (.io (.reading .readCoils quantity startAddress slaveId)) w
  let t := transact o .readCoils startAddress quantity w
  let result := t.1
  let w := t.2
  if result = ku8MBSuccess then
    let w := ledStatusMessage .LED_SUCCESS (.line .coilsReadOk) w
    printBits .readCoils startAddress (List.range quantity) w
  else
    let w := ledStatusMessage .LED_ERROR (.line .coilsReadFailed) w
    printModbusError result w

/-- `readDiscreteInputs(slaveId, startAddress, quantity)`. -/
def readDiscreteInputs (o : Oracle) (slaveId startAddress quantity : Nat) (w : World) : World :=
  let w := println (.io (.reading .readDiscreteInputs quantity startAddress slaveId)) w
  let t := transact o .readDiscreteInputs startAddress quantity w
  let result := t.1
  let w := t.2
  if result = ku8MBSuccess then
    let w := println (.line .discreteReadOk) w
    printBits .readDiscreteInputs startAddress (List.range quantity) w
  else
    printModbusError result w

/-- `writeSingleRegister(slaveId, address, value)`. -/
def writeSingleRegister (o : Oracle) (slaveId address value : Nat) (w : World) : World :=
  let w := ledStatusMessage .LED_WRITING (.line .writingRegister) w
  let w := println (.io (.writingRegister value address slaveId)) w
  let t := transact o .writeSingleRegister address value w
  let result := t.1
  let w := t.2
  if result = ku8MBSuccess then
    ledStatusMessage .LED_SUCCESS (.line .registerWritten) w
  else
    let w := ledStatusMessage .LED_ERROR (.line .registerWriteFailed) w
    printModbusError result w

/-- `writeSingleCoil(slaveId, address, value)`. -/
def writeSingleCoil (o : Oracle) (slaveId address : Nat) (value : Bool) (w : World) : World :=
  let w := ledStatusMessage .LED_WRITING (.line .writingCoil) w
  let w := println (.io (.writingCoil value address slaveId)) w
  let t := transact o .writeSingleCoil address (if value then 1 else 0) w
  let result := t.1
  let w := t.2
  if result = ku8MBSuccess then
    ledStatusMessage .LED_SUCCESS (.line .coilWritten) w
  else
    let w := ledStatusMessage .LED_ERROR (.line .coilWriteFailed) w
    printModbusError result w

/-- One line typed by the operator, as a command sees it: the rounds of
`while (!Serial.available()) delay(10);` before it arrives, and its characters
without surrounding white space. -/
structure Typed where
  waited : Nat
  text : List Char

/-- The lines the operator types after the menu choice: number 0 is the first
line a command asks for. -/
abbrev Operator := Nat → Typed

/-- The digits at the head of a list of characters, read as a decimal number
on top of `acc`. -/
def digitsValue : List Char → Nat → Nat
  | [], acc => acc
  | c :: cs, acc => if c.isDigit then digitsValue cs (acc * 10 + (c.toNat - 48)) else acc

/-- `LONG_MAX` on the target, where `long` has 32 bits. -/
def LONG_MAX : Int := 2147483647

/-- `LONG_MIN` on the target, where `long` has 32 bits. -/
def LONG_MIN : Int := -2147483648

/-- Arduino `String::toInt()`, which is `atol`, on a line without leading white
space: an optional sign and the digits that follow it; 0 when there is no digit.
A number beyond the range of `long` yields the nearest limit of that range. -/
def toInt : List Char → Int
  | '-' :: cs => max (-((digitsValue cs 0 : Nat) : Int)) LONG_MIN
  | '+' :: cs => min ((digitsValue cs 0 : Nat) : Int) LONG_MAX
  | cs => min ((digitsValue cs 0 : Nat) : Int) LONG_MAX

/-- `MODBUS_BAUD`. -/
def MODBUS_BAUD : Nat := 9600

/-- `SLAVE_ID`. -/
def SLAVE_ID : Nat := 1

/-- `testSpecificSlaveId()`. -/
def testSpecificSlaveId (o : Oracle) (op : Operator) (w : World) : World :=
  let w := println (.line .enterSlaveId) w
  let w := waitForInput (op 0).waited w
  let slaveId := toInt (op 0).text
  if slaveId < 1 ∨ slaveId > 247 then
    println (.line .invalidSlaveId) w
  else
    let w := println (.io (.testingSlaveId slaveId.toNat)) w
    let w := serial1Begin MODBUS_BAUD .SERIAL_8N1 w
    let w := modbusBegin (toUint8 slaveId) w
    let t := transact o .readHoldingRegisters 0 1 w
    let result := t.1
    let w := t.2
    if result = ku8MBSuccess then
      let w := println (.io (.deviceFoundAt slaveId.toNat)) w
      let w := println (.io (.registerZero (w.buffer 0))) w
      let w := println (.line .readingFirstFive) w
      readHoldingRegisters o (toUint8 slaveId) 0 5 w
    else
      let w := println (.io (.noResponseFrom slaveId.toNat)) w
      printModbusError result w

/-- `readSpecificRegisters()`. -/
def readSpecificRegisters (o : Oracle) (op : Operator) (w : World) : World :=
  let w := println (.line .registerReadingSetup) w
  let w := println (.line .enterSlaveIdShort) w
  let w := waitForInput (op 0).waited w
  let slaveId := toInt (op 0).text
  let w := println (.line .enterRegisterType) w
  let w := waitForInput (op 1).waited w
  let regType := toInt (op 1).text
  let w := println (.line .enterStartingAddress) w
  let w := waitForInput (op 2).waited w
  let startAddr := toInt (op 2).text
  let w := println (.line .enterQuantity) w
  let w := waitForInput (op 3).waited w
  let quantity := toInt (op 3).text
  let w := serial1Begin MODBUS_BAUD .SERIAL_8N1 w
  if regType = 1 then
    readHoldingRegisters o (toUint8 slaveId) (toUint16 startAddr) (toUint16 quantity) w
  else if regType = 2 then
    readInputRegisters o (toUint8 slaveId) (toUint16 startAddr) (toUint16 quantity) w
  else if regType = 3 then
    readCoils o (toUint8 slaveId) (toUint16 startAddr) (toUint16 quantity) w
  else if regType = 4 then
    readDiscreteInputs o (toUint8 slaveId) (toUint16 startAddr) (toUint16 quantity) w
  else
    println (.line .invalidRegisterType) w

/-- `writeToRegister()`. -/
def writeToRegister (o : Oracle) (op : Operator) (w : World) : World :=
  let w := println (.line .registerWritingSetup) w
  let w := println (.line .enterSlaveIdShort) w
  let w := waitForInput (op 0).waited w
  let slaveId := toInt (op 0).text
  let w := println (.line .enterRegisterAddress) w
  let w := waitForInput (op 1).waited w
  let address := toInt (op 1).text
  let w := println (.line .enterValue) w
  let w := waitForInput (op 2).waited w
  let value := toInt (op 2).text
  let w := serial1Begin MODBUS_BAUD .SERIAL_8N1 w
  writeSingleRegister o (toUint8 slaveId) (toUint16 address) (toUint16 value) w

/-- `showCurrentConfiguration()`: a block of fixed lines. -/
def showCurrentConfiguration (w : World) : World := println (.line .currentConfiguration) w

/-- `changeModbusSettings(newBaud, newSlaveId)`. -/
def changeModbusSettings (newBaud newSlaveId : Nat) (w : World) : World :=
  let w := println (.io (.changingSettings newBaud newSlaveId)) w
  let w := serial1End w
  let w := delay 100 w
  let w := serial1Begin newBaud .SERIAL_8N1 w
  let w := modbusBegin newSlaveId w
  println (.line .settingsUpdated) w

/-- `changeSettingsInteractive()`. -/
def changeSettingsInteractive (op : Operator) (w : World) : World :=
  let w := println (.line .changeSettingsHeader) w
  let w := println (.line .changeSettingsNote) w
  let w := println (.line .enterNewBaud) w
  let w := waitForInput (op 0).waited w
  let baudInput := (op 0).text
  let w := println (.line .enterNewSlaveId) w
  let w := waitForInput (op 1).waited w
  let slaveInput := (op 1).text
  let newBaud := if baudInput.length > 0 then toUint32 (toInt baudInput) else MODBUS_BAUD
  let newSlaveId := if slaveInput.length > 0 then toUint8 (toInt slaveInput) else SLAVE_ID
  if newBaud > 0 ∧ newSlaveId > 0 ∧ newSlaveId ≤ 247 then
    changeModbusSettings newBaud newSlaveId w
  else
    println (.line .invalidSettings) w

/-- `showHelp()`: a block of fixed lines. -/
def showHelp (w : World) : World := println (.line .help) w

/-- `showMainMenu()`: a block of fixed lines. -/
def showMainMenu (w : World) : World := println (.line .mainMenu) w

/-- `handleSerialInput()`: `pending` is the line waiting on the console when the
function looks (`none`: `Serial.available()` is 0), without surrounding white
space; `op` gives the lines typed afterwards; `uninit` is the indeterminate initial
content of the locals `detectedBaud`. -/
def handleSerialInput (o : Oracle) (pending : Option (List Char)) (op : Operator) (uninit : Nat)
    (w : World) : World :=
  match pending with
  | none => w
  | some input =>
    let w :=
      match input with
      | [c] =>
        if '1' ≤ c ∧ c ≤ '9' then
          let choice := toInt input
          if choice = 1 then
            (detectModbusDevice o uninit (println (.line .startingAutoDetection) w)).2
          else if choice = 2 then
            (scanModbusDevices o (println (.line .startingFullScan) w)).2
          else if choice = 3 then testSpecificSlaveId o op w
          else if choice = 4 then
            testDifferentBaudRates o (op 0).waited (toInt (op 0).text) uninit w
          else if choice = 5 then readSpecificRegisters o op w
          else if choice = 6 then writeToRegister o op w
          else if choice = 7 then showCurrentConfiguration w
          else if choice = 8 then changeSettingsInteractive op w
          else if choice = 9 then showHelp w
          else println (.line .invalidOption) w
        else println (.line .singleDigitPlease) w
      | _ => println (.line .singleDigitPlease) w
    let w := println (.line .menuRule) w
    showMainMenu w

/-- `updateLEDAnimation()` called from the main loop: reads the clock of the
world. -/
def tick (breathe : Nat → Nat → Nat) (w : World) : World :=
  { w with led := updateLEDAnimation breathe w.millis w.led, trace := w.trace ++ [.tick] }

/-- One round of `loop()`. -/
def loop (o : Oracle) (breathe : Nat → Nat → Nat) (pending : Option (List Char)) (op : Operator)
    (uninit : Nat) (w : World) : World :=
  let w := tick breathe w
  let w := handleSerialInput o pending op uninit w
  delay 50 w

/-! ## Observations on traces -/

/-- Events on the bus side: closing and opening `Serial1`, binding the slave,
and transactions. -/
def isBusEvent : Event → Bool
  | .serialEnd => true
  | .serialBegin _ _ => true
  | .modbusBegin _ => true
  | .transaction _ _ => true
  | _ => false

/-- The bus-side events of a trace, in order. -/
def busEvents (t : List Event) : List Event := t.filter isBusEvent

/-- Entries to and returns from the two detection routines. -/
def isCallEvent : Event → Bool
  | .call _ => true
  | .ret _ _ => true
  | _ => false

/-- The call and return events of a trace, in order. -/
def callEvents (t : List Event) : List Event := t.filter isCallEvent

/-- The request of the probe `readHoldingRegisters(0, 1)` to `slaveId` over a
link set to `baud` and `config`. -/
def probeReq (slaveId baud : Nat) (config : SerialConfig) : Request :=
  { fn := .readHoldingRegisters, slave := slaveId, link := some (baud, config), address := 0, arg := 1 }

/-- One reconfigure-and-probe cycle as it shows on the bus when its probe is the
`n`-th transaction of the run: close the port, reopen it at `baud` and `config`,
bind `slaveId`, read holding register 0. -/
def cycle (o : Oracle) (slaveId n baud : Nat) (config : SerialConfig) : List Event :=
  [.serialEnd, .serialBegin baud config, .modbusBegin slaveId,
    .transaction (probeReq slaveId baud config) (o n (probeReq slaveId baud config)).result]

/-- Consecutive cycles for a list of link settings, the probe of the first one
being the `n`-th transaction of the run. -/
def cycles (o : Oracle) (slaveId : Nat) : Nat → List (Nat × SerialConfig) → List Event
  | _, [] => []
  | n, (baud, config) :: rest => cycle o slaveId n baud config ++ cycles o slaveId (n + 1) rest

/-- Summary of a stretch of execution from `w` to `w1`: it issued `n`
transactions, appended the bus events `bus` and the call events `calls`. -/
structure Ran (w w1 : World) (n : Nat) (bus calls : List Event) : Prop where
  issued : w1.issued = w.issued + n
  bus : busEvents w1.trace = busEvents w.trace ++ bus
  calls : callEvents w1.trace = callEvents w.trace ++ calls

/-- Result code of the probe at entry `j` of the list `ls` of link settings, when
the probe at entry 0 is the `n`-th transaction of the run. -/
def loopAnswer (o : Oracle) (slaveId n : Nat) (ls : List (Nat × SerialConfig)) (j : Nat) : Nat :=
  (o (n + j) (probeReq slaveId (ls.getD j (0, .SERIAL_8N1)).1 (ls.getD j (0, .SERIAL_8N1)).2)).result

/-- Baud rates paired with the framing 8N1. -/
def with8N1 (bs : List Nat) : List (Nat × SerialConfig) := bs.map fun b => (b, .SERIAL_8N1)

/-- Result code of the probe `autoDetectBaudRate` sends at entry `j` of the baud
table, when the routine is entered in world `w` for slave `slaveId`. -/
def baudAnswer (o : Oracle) (slaveId : Nat) (w : World) (j : Nat) : Nat :=
  loopAnswer o slaveId w.issued (with8N1 baudRates) j

/-- The slave ids `scanModbusDevices` printed as found, in print order. -/
def foundIds (t : List Event) : List Nat :=
  t.filterMap fun e => match e with
    | .print (.deviceFoundAtId id) => some id
    | _ => none

/-- The slave ids `scanModbusDevices` printed a warning for, in print order. -/
def warnedIds (t : List Event) : List Nat :=
  t.filterMap fun e => match e with
    | .print (.respondedWithError id) => some id
    | _ => none

/-- The request of the probe `readHoldingRegisters(0, 1)` to `id` over a port in
state `link`. -/
def scanReq (id : Nat) (link : Option (Nat × SerialConfig)) : Request :=
  { fn := .readHoldingRegisters, slave := id, link := link, address := 0, arg := 1 }

/-- The slave ids `s, s + 1, ..., s + n - 1`, each with the result code of its
probe, when the ids are probed in this order over a port in state `link` and the
probe of `s` is the `n0`-th transaction of the run. -/
def scanAnswersFrom (o : Oracle) (link : Option (Nat × SerialConfig)) (n0 s n : Nat) :
    List (Nat × Nat) :=
  (List.range' s n).map fun id => (id, (o (n0 + (id - s)) (scanReq id link)).result)

/-- The slave ids 1..247 in ascending order, each with the result code of the
probe `scanModbusDevices` sends to it when entered in world `w`. -/
def scanAnswers (o : Oracle) (w : World) : List (Nat × Nat) :=
  scanAnswersFrom o w.serial1 w.issued 1 247

/-- The bus events of a scan: for each id, bind it and read holding register 0. -/
def scanBus (link : Option (Nat × SerialConfig)) (answers : List (Nat × Nat)) : List Event :=
  answers.flatMap fun a => [.modbusBegin a.1, .transaction (scanReq a.1 link) a.2]

/-- The result codes for which `scanModbusDevices` prints a warning. -/
def warns (result : Nat) : Bool :=
  result ≠ ku8MBSuccess && result ≠ ku8MBResponseTimedOut && result ≠ ku8MBInvalidSlaveID

/-- Framings paired with the baud rate `baud`. -/
def atBaud (baud : Nat) (cs : List SerialConfig) : List (Nat × SerialConfig) :=
  cs.map fun c => (baud, c)

/-- Result code of the probe `autoDetectSerialConfig` sends at entry `j` of the
framing table, when the routine is entered in world `w` for slave `slaveId` at
`baudRate`. -/
def configAnswer (o : Oracle) (slaveId baudRate : Nat) (w : World) (j : Nat) : Nat :=
  loopAnswer o slaveId w.issued (atBaud baudRate configs) j

/-- The first index below `n` at which `f` holds, if there is one. -/
def firstIndex (f : Nat → Bool) (n : Nat) : Option Nat := (List.range n).find? f

/-- What `autoDetectSerialConfig` does on the bus after its loop found nothing:
back to 8N1. -/
def resetTo8N1 (slaveId baudRate : Nat) : List Event :=
  [.serialEnd, .serialBegin baudRate .SERIAL_8N1, .modbusBegin slaveId]

/-- The call events of a run of `autoDetectBaudRate` for `id` that returns
`false`. -/
def failedTry (id : Nat) : List Event :=
  [.call (.autoDetectBaudRate id), .ret (.autoDetectBaudRate id) false]

/-- The call events of a run of `autoDetectBaudRate` for `id` that returns `true`,
followed by the run of `autoDetectSerialConfig` for `id` at `baud` returning `v`. -/
def detectedTry (id baud : Nat) (v : Bool) : List Event :=
  [.call (.autoDetectBaudRate id), .ret (.autoDetectBaudRate id) true,
    .call (.autoDetectSerialConfig id baud), .ret (.autoDetectSerialConfig id baud) v]

/-- The bus events of consecutive unanswered runs of `autoDetectBaudRate`, one
for each id of the list: the eight cycles of the baud table for each, the first
probe being the `n`-th transaction of the run. -/
def sweeps (o : Oracle) : Nat → List Nat → List Event
  | _, [] => []
  | n, id :: rest => cycles o id n (with8N1 baudRates) ++ sweeps o (n + 8) rest

/-- The slave ids `autoDetectBaudRate` returned for, each with the value
returned, in order. -/
def baudReturns (t : List Event) : List (Nat × Bool) :=
  t.filterMap fun e => match e with
    | .ret (.autoDetectBaudRate id) v => some (id, v)
    | _ => none

/-- The slave ids `autoDetectBaudRate` was entered for, in order. -/
def baudCalls (t : List Event) : List Nat :=
  t.filterMap fun e => match e with
    | .call (.autoDetectBaudRate id) => some id
    | _ => none

/-- Every entry to `autoDetectSerialConfig` in the list of call events comes
right after a return of `autoDetectBaudRate` for the same slave with value
`true`; `prev` is the event before the list. -/
def configFollowsBaud (prev : Option Event) : List Event → Prop
  | [] => True
  | e :: rest =>
    (∀ id baud, e = .call (.autoDetectSerialConfig id baud) →
      prev = some (.ret (.autoDetectBaudRate id) true)) ∧ configFollowsBaud (some e) rest

/-- The slave ids 1..10 in ascending order, each with the result code of the
Phase 1 probe `detectModbusDevice` sends to it when entered in world `w`. -/
def quickAnswers (o : Oracle) (w : World) : List (Nat × Nat) :=
  scanAnswersFrom o (some (9600, .SERIAL_8N1)) w.issued 1 10

/-- The ids among 1..10 whose Phase 1 probe is answered by `ku8MBSuccess` or
`ku8MBIllegalDataAddress`, in ascending order. -/
def quickFound (o : Oracle) (w : World) : List Nat :=
  ((quickAnswers o w).filter fun a => present a.2).map (·.1)

/-- Result code of the probe at entry `j` of the baud table in the `i`-th run of
`autoDetectBaudRate` of Phase 2 (for `commonIds[i]`), when all runs before it
went through the whole table and `detectModbusDevice` was entered in world `w`. -/
def phase2Answer (o : Oracle) (w : World) (i j : Nat) : Nat :=
  loopAnswer o (commonIds.getD i 0) (w.issued + 10 + 8 * i) (with8N1 baudRates) j

/-- The request of a single-register read `fn(reg, 1)` to `slave` over a port in
state `link`. -/
def readReq (fn : ModbusFn) (slave : Nat) (link : Option (Nat × SerialConfig)) (reg : Nat) :
    Request :=
  { fn := fn, slave := slave, link := link, address := reg, arg := 1 }

/-- Consecutive single-register reads of the registers `regs`, in order, the
first one being the `n`-th transaction of the run. -/
def readsFrom (o : Oracle) (fn : ModbusFn) (slave : Nat) (link : Option (Nat × SerialConfig)) :
    Nat → List Nat → List Event
  | _, [] => []
  | n, reg :: rest =>
    .transaction (readReq fn slave link reg) (o n (readReq fn slave link reg)).result ::
      readsFrom o fn slave link (n + 1) rest

/-- The bus events of the Phase 4 dump for the slave ids `found`, the first read
being the `n`-th transaction of the run: for each id in order, bind it, read
holding registers 0..9 one by one, then input registers 0..4 one by one. -/
def dumpBus (o : Oracle) (link : Option (Nat × SerialConfig)) : Nat → List Nat → List Event
  | _, [] => []
  | n, id :: rest =>
    [.modbusBegin id] ++ readsFrom o .readHoldingRegisters id link n (List.range 10) ++
      readsFrom o .readInputRegisters id link (n + 10) (List.range 5) ++
      dumpBus o link (n + 15) rest

/-- The calls of `updateLEDAnimation`. -/
def isTick : Event → Bool
  | .tick => true
  | _ => false

/-- The calls of `updateLEDAnimation` in a trace. -/
def ticks (t : List Event) : List Event := t.filter isTick

/-- The transactions in a trace. -/
def isTransaction : Event → Bool
  | .transaction _ _ => true
  | _ => false

/-- The requests sent in a trace, in order. -/
def requests (t : List Event) : List Request :=
  t.filterMap fun e => match e with
    | .transaction req _ => some req
    | _ => none

/-- The slave ids the register commands printed in their header line, in order. -/
def reportedSlaves (t : List Event) : List Nat :=
  t.filterMap fun e => match e with
    | .print (.io (.reading _ _ _ slaveId)) => some slaveId
    | .print (.io (.writingRegister _ _ slaveId)) => some slaveId
    | .print (.io (.writingCoil _ _ slaveId)) => some slaveId
    | _ => none

/-- The calls of `updateLEDAnimation` made by successive rounds of `loop()` while
no command calls `setLEDStatus`: one call at each of the times `T + d` (on the
wrapping millisecond clock), for the offsets `d` of the list, in order. -/
def ticksAfter (breathe : Nat → Nat → Nat) (T : Nat) : List Nat → LedState → LedState
  | [], s => s
  | d :: rest, s =>
    ticksAfter breathe T rest (updateLEDAnimation breathe ((T + d) % ulongRange) s)

/-! ## Sample worlds and buses -/

/-- A freshly booted board: LED off, `Serial1` closed, nothing sent yet. -/
def bootWorld : World :=
  { millis := 0
    led := { currentLEDStatus := .LED_OFF, ledAnimationStart := 0, ledAnimationActive := false,
             leds0 := CRGB.Black, shown := CRGB.Black }
    serial1 := none
    slave := 0
    issued := 0
    buffer := fun _ => 0
    trace := [] }

/-- The answer of a silent bus: time-out after two seconds. -/
def timedOut : Response := { result := ku8MBResponseTimedOut, took := 2000, buffer := fun _ => 0 }

/-- A device that answers only at 19200 baud 8N1, with the exception
`ku8MBIllegalDataAddress`. -/
def deviceAt19200 : Oracle := fun _ req =>
  if req.link = some (19200, .SERIAL_8N1) then
    { result := ku8MBIllegalDataAddress, took := 10, buffer := fun _ => 0 }
  else timedOut

/-- A bus with no device on it. -/
def silentBus : Oracle := fun _ _ => timedOut

/-- A board whose `Serial1` is already open at 9600 baud 8N1. -/
def readyWorld : World := { bootWorld with serial1 := some (9600, .SERIAL_8N1) }

/-- A device at slave address 5 that answers every request with the exception
`ku8MBIllegalDataAddress`; no other address answers. -/
def exceptionAt5 : Oracle := fun _ req =>
  if req.slave = 5 then { result := ku8MBIllegalDataAddress, took := 10, buffer := fun _ => 0 }
  else timedOut

/-- A LED that was never set: off, no animation. -/
def ledOff : LedState :=
  { currentLEDStatus := .LED_OFF, ledAnimationStart := 0, ledAnimationActive := false,
    leds0 := CRGB.Black, shown := CRGB.Black }

/-- A brightness wave that is dark all the time. -/
def noBreath : Nat → Nat → Nat := fun _ _ => 0

/-- An operator who types nothing but empty lines, at once. -/
def idleOperator : Operator := fun _ => { waited := 0, text := [] }

/-- A board whose `ModbusMaster` object was last bound to slave 247, as a full
scan leaves it, with `Serial1` open at 9600 baud 8N1. -/
def afterScanWorld : World := { readyWorld with slave := 247 }

/-- An operator asking to read one holding register at address 0 of slave 5:
the lines `5`, `1`, `0`, `1`. -/
def readFrom5 : Operator := fun k =>
  match k with
  | 0 => { waited := 2, text := ['5'] }
  | 1 => { waited := 1, text := ['1'] }
  | 2 => { waited := 1, text := ['0'] }
  | _ => { waited := 1, text := ['1'] }

/-- A device at slave address 247 that answers every request with `ku8MBSuccess`
and the register value 42; no other address answers. -/
def deviceAt247 : Oracle := fun _ req =>
  if req.slave = 247 then { result := ku8MBSuccess, took := 10, buffer := fun _ => 42 }
  else timedOut

/-! ## Lemmas -/

/-! ### Stretches of execution -/

/-- Nothing happened between a world and itself. -/
theorem Ran.refl (w : World) : Ran w w 0 [] [] := ⟨by simp, by simp, by simp⟩

/-- Two stretches of execution in a row add up. -/
theorem Ran.trans {w w1 w2 : World} {n m : Nat} {b1 b2 c1 c2 : List Event}
    (h1 : Ran w w1 n b1 c1) (h2 : Ran w1 w2 m b2 c2) : Ran w w2 (n + m) (b1 ++ b2) (c1 ++ c2) :=
  ⟨by rw [h2.issued, h1.issued]; omega,
   by rw [h2.bus, h1.bus, List.append_assoc],
   by rw [h2.calls, h1.calls, List.append_assoc]⟩

/-! ### Baud rate detection -/

/-- An unanswered probe at the head of the baud table: one cycle, then the loop
goes on with the rest of the table. -/
theorem baudLoop_miss (o : Oracle) (slaveId d b : Nat) (rest : List Nat) (w : World)
    (h : present (o w.issued (probeReq slaveId b .SERIAL_8N1)).result = false) :
    ∃ w1, autoDetectBaudRateLoop o slaveId d (b :: rest) w = autoDetectBaudRateLoop o slaveId d rest w1 ∧
      Ran w w1 1 (cycle o slaveId w.issued b .SERIAL_8N1) [] := by
  simp [present, probeReq] at h
  refine ⟨delay 100 (println (.line .noResponse)
        (transact o .readHoldingRegisters 0 1 (modbusBegin slaveId (serial1Begin b .SERIAL_8N1
          (delay 100 (serial1End (println (.testingBaud b) w)))))).2), ?_, ?_, ?_, ?_⟩
  · simp [autoDetectBaudRateLoop, transact, requestOf, modbusBegin, serial1Begin, delay,
      serial1End, println, World.emit, h]
  all_goals simp [transact, requestOf, modbusBegin, serial1Begin, delay, serial1End, println,
      World.emit, busEvents, callEvents, isBusEvent, isCallEvent, cycle, probeReq]

/-- An answered probe at the head of the baud table: one cycle, the baud rate is
stored, the routine returns `true` with the indicator in Success. -/
theorem baudLoop_hit (o : Oracle) (slaveId d b : Nat) (rest : List Nat) (w : World)
    (h : present (o w.issued (probeReq slaveId b .SERIAL_8N1)).result = true) :
    (autoDetectBaudRateLoop o slaveId d (b :: rest) w).1 = true ∧
      (autoDetectBaudRateLoop o slaveId d (b :: rest) w).2.1 = b ∧
      Ran w (autoDetectBaudRateLoop o slaveId d (b :: rest) w).2.2 1
        (cycle o slaveId w.issued b .SERIAL_8N1) [] ∧
      (autoDetectBaudRateLoop o slaveId d (b :: rest) w).2.2.led.currentLEDStatus = .LED_SUCCESS ∧
      (autoDetectBaudRateLoop o slaveId d (b :: rest) w).2.2.serial1 = some (b, .SERIAL_8N1) := by
  simp [present, probeReq] at h
  have hne : ku8MBIllegalDataAddress ≠ ku8MBSuccess := by decide
  rcases h with h | h
  all_goals
    refine ⟨?_, ?_, ⟨?_, ?_, ?_⟩, ?_, ?_⟩
    all_goals simp [autoDetectBaudRateLoop, transact, requestOf, modbusBegin, serial1Begin, delay,
      serial1End, println, World.emit, busEvents, callEvents, isBusEvent, isCallEvent, cycle,
      probeReq, ledStatusMessage, setLED, setLEDStatus, h, hne]

/-- The baud loop when entry `k` is the first one answered. -/
theorem baudLoop_found (o : Oracle) (slaveId d : Nat) (bs : List Nat) :
    ∀ (k : Nat) (w : World), k < bs.length →
      present (loopAnswer o slaveId w.issued (with8N1 bs) k) = true →
      (∀ j, j < k → present (loopAnswer o slaveId w.issued (with8N1 bs) j) = false) →
      (autoDetectBaudRateLoop o slaveId d bs w).1 = true ∧
      (autoDetectBaudRateLoop o slaveId d bs w).2.1 = bs.getD k 0 ∧
      Ran w (autoDetectBaudRateLoop o slaveId d bs w).2.2 (k + 1)
        (cycles o slaveId w.issued (with8N1 (bs.take (k + 1)))) [] ∧
      (autoDetectBaudRateLoop o slaveId d bs w).2.2.led.currentLEDStatus = .LED_SUCCESS ∧
      (autoDetectBaudRateLoop o slaveId d bs w).2.2.serial1 = some (bs.getD k 0, .SERIAL_8N1) := by
  induction bs with
  | nil => intro k w hk; simp at hk
  | cons b rest ih =>
    intro k w hk hp hl
    cases k with
    | zero =>
      have h := baudLoop_hit o slaveId d b rest w (by simpa [loopAnswer, with8N1] using hp)
      simpa [cycles, with8N1] using h
    | succ k =>
      have h0 := hl 0 (Nat.succ_pos k)
      obtain ⟨w1, hstep, hran⟩ := baudLoop_miss o slaveId d b rest w (by simpa [loopAnswer, with8N1] using h0)
      have hshift : ∀ j, loopAnswer o slaveId w1.issued (with8N1 rest) j =
          loopAnswer o slaveId w.issued (with8N1 (b :: rest)) (j + 1) := by
        intro j
        simp [loopAnswer, with8N1, hran.issued, Nat.add_assoc, Nat.add_comm 1 j]
      obtain ⟨r1, r2, r3, r4, r5⟩ := ih k w1 (by simpa using hk) (by rw [hshift]; exact hp)
        (fun j hj => by rw [hshift]; exact hl (j + 1) (Nat.succ_lt_succ hj))
      rw [hstep]
      refine ⟨r1, by simpa using r2, ?_, r4, by simpa using r5⟩
      have := hran.trans r3
      rw [show 1 + (k + 1) = k + 1 + 1 by omega] at this
      simpa [cycles, with8N1, hran.issued] using this

/-- The baud loop when no entry is answered. -/
theorem baudLoop_none (o : Oracle) (slaveId d : Nat) (bs : List Nat) :
    ∀ (w : World),
      (∀ j, j < bs.length → present (loopAnswer o slaveId w.issued (with8N1 bs) j) = false) →
      (autoDetectBaudRateLoop o slaveId d bs w).1 = false ∧
      (autoDetectBaudRateLoop o slaveId d bs w).2.1 = d ∧
      Ran w (autoDetectBaudRateLoop o slaveId d bs w).2.2 bs.length
        (cycles o slaveId w.issued (with8N1 bs)) [] ∧
      (autoDetectBaudRateLoop o slaveId d bs w).2.2.led.currentLEDStatus = .LED_ERROR := by
  induction bs with
  | nil =>
    intro w _
    refine ⟨rfl, rfl, ⟨?_, ?_, ?_⟩, ?_⟩
    all_goals simp [autoDetectBaudRateLoop, println, World.emit, busEvents, callEvents,
      isBusEvent, isCallEvent, cycles, with8N1, ledStatusMessage, setLED, setLEDStatus]
  | cons b rest ih =>
    intro w hl
    have h0 := hl 0 (by simp)
    obtain ⟨w1, hstep, hran⟩ := baudLoop_miss o slaveId d b rest w (by simpa [loopAnswer, with8N1] using h0)
    have hshift : ∀ j, loopAnswer o slaveId w1.issued (with8N1 rest) j =
        loopAnswer o slaveId w.issued (with8N1 (b :: rest)) (j + 1) := by
      intro j
      simp [loopAnswer, with8N1, hran.issued, Nat.add_assoc, Nat.add_comm 1 j]
    obtain ⟨r1, r2, r3, r4⟩ := ih w1
      (fun j hj => by rw [hshift]; exact hl (j + 1) (by simpa using hj))
    rw [hstep]
    refine ⟨r1, r2, ?_, r4⟩
    have := hran.trans r3
    rw [show 1 + rest.length = (b :: rest).length by simp; omega] at this
    simpa [cycles, with8N1, hran.issued] using this

/-- The opening lines of `autoDetectBaudRate` touch neither the bus nor the
transaction count. -/
theorem baudPrelude_ran (slaveId : Nat) (w : World) :
    Ran w (println (.baudTesting baudRates.length slaveId) (println (.line .baudHeader)
      (ledStatusMessage .LED_SCANNING (.line .detectingBaud) (w.emit (.call (.autoDetectBaudRate slaveId))))))
      0 [] [.call (.autoDetectBaudRate slaveId)] := by
  refine ⟨?_, ?_, ?_⟩
  all_goals simp [println, World.emit, ledStatusMessage, setLED, busEvents, callEvents,
    isBusEvent, isCallEvent]

/-- Recording a return is one call event. -/
theorem ran_emit_ret (w : World) (r : Routine) (v : Bool) :
    Ran w (w.emit (.ret r v)) 0 [] [.ret r v] := by
  refine ⟨?_, ?_, ?_⟩
  all_goals simp [World.emit, busEvents, callEvents, isBusEvent, isCallEvent]

/-- `autoDetectBaudRate` when entry `k` of the table is the first one answered. -/
theorem autoDetectBaudRate_found (o : Oracle) (slaveId d k : Nat) (w : World)
    (hk : k < 8) (hp : present (baudAnswer o slaveId w k) = true)
    (hl : ∀ j, j < k → present (baudAnswer o slaveId w j) = false) :
    (autoDetectBaudRate o slaveId d w).1 = true ∧
    (autoDetectBaudRate o slaveId d w).2.1 = baudRates.getD k 0 ∧
    Ran w (autoDetectBaudRate o slaveId d w).2.2 (k + 1)
      (cycles o slaveId w.issued (with8N1 (baudRates.take (k + 1))))
      [.call (.autoDetectBaudRate slaveId), .ret (.autoDetectBaudRate slaveId) true] ∧
    (autoDetectBaudRate o slaveId d w).2.2.led.currentLEDStatus = .LED_SUCCESS ∧
    (autoDetectBaudRate o slaveId d w).2.2.serial1 = some (baudRates.getD k 0, .SERIAL_8N1) := by
  have h0 := baudPrelude_ran slaveId w
  have hi := h0.issued
  simp only [Nat.add_zero] at hi
  obtain ⟨r1, r2, r3, r4, r5⟩ := baudLoop_found o slaveId d baudRates k _ (by simpa [baudRates] using hk)
    (by rw [hi]; exact hp) (fun j hj => by rw [hi]; exact hl j hj)
  rw [hi] at r3
  have hr := (h0.trans r3).trans (ran_emit_ret _ (.autoDetectBaudRate slaveId) true)
  simp only [autoDetectBaudRate]
  rw [r1] 
  refine ⟨rfl, r2, ?_, ?_, ?_⟩
  · simpa using hr
  · simpa [World.emit] using r4
  · simpa [World.emit] using r5

/-- `autoDetectBaudRate` when no entry of the table is answered. -/
theorem autoDetectBaudRate_none (o : Oracle) (slaveId d : Nat) (w : World)
    (hl : ∀ j, j < 8 → present (baudAnswer o slaveId w j) = false) :
    (autoDetectBaudRate o slaveId d w).1 = false ∧
    (autoDetectBaudRate o slaveId d w).2.1 = d ∧
    Ran w (autoDetectBaudRate o slaveId d w).2.2 8
      (cycles o slaveId w.issued (with8N1 baudRates))
      [.call (.autoDetectBaudRate slaveId), .ret (.autoDetectBaudRate slaveId) false] ∧
    (autoDetectBaudRate o slaveId d w).2.2.led.currentLEDStatus = .LED_ERROR := by
  have h0 := baudPrelude_ran slaveId w
  have hi := h0.issued
  simp only [Nat.add_zero] at hi
  obtain ⟨r1, r2, r3, r4⟩ := baudLoop_none o slaveId d baudRates _
    (fun j hj => by rw [hi]; exact hl j (by simpa [baudRates] using hj))
  rw [hi] at r3
  have hr := (h0.trans r3).trans (ran_emit_ret _ (.autoDetectBaudRate slaveId) false)
  simp only [autoDetectBaudRate]
  rw [r1]
  refine ⟨rfl, r2, ?_, ?_⟩
  · simpa [baudRates] using hr
  · simpa [World.emit] using r4

/-- Among finitely many probes, either none is answered or there is a first one
that is. -/
theorem first_answer (f : Nat → Bool) (n : Nat) :
    (∀ j, j < n → f j = false) ∨ ∃ k, k < n ∧ f k = true ∧ ∀ j, j < k → f j = false := by
  induction n with
  | zero => left; intro j hj; omega
  | succ n ih =>
    rcases ih with h | ⟨k, hk, hp, hl⟩
    · cases hf : f n with
      | false =>
        left
        intro j hj
        rcases Nat.lt_succ_iff_lt_or_eq.mp hj with h1 | h1
        · exact h j h1
        · rw [h1]; exact hf
      | true => exact Or.inr ⟨n, Nat.lt_succ_self n, hf, h⟩
    · exact Or.inr ⟨k, Nat.lt_succ_of_lt hk, hp, hl⟩

/-! ### The baud test command -/

/-- Waiting for the operator only lets time pass. -/
theorem waitForInput_spec (n : Nat) : ∀ w : World,
    (waitForInput n w).trace = w.trace ++ List.replicate n (.delay 10) ∧
    (waitForInput n w).issued = w.issued ∧ (waitForInput n w).serial1 = w.serial1 ∧
    (waitForInput n w).slave = w.slave ∧ (waitForInput n w).led = w.led := by
  induction n with
  | zero => intro w; simp [waitForInput]
  | succ n ih =>
    intro w
    obtain ⟨h1, h2, h3, h4, h5⟩ := ih (delay 10 w)
    simp only [waitForInput]
    refine ⟨?_, ?_, ?_, ?_, ?_⟩
    · rw [h1]; simp [delay, List.replicate_succ]
    · rw [h2]; simp [delay]
    · rw [h3]; simp [delay]
    · rw [h4]; simp [delay]
    · rw [h5]; simp [delay]

/-! ### Full scan -/

/-- The answers of a scan, unfolded at its first id. -/
theorem scanAnswersFrom_succ (o : Oracle) (link : Option (Nat × SerialConfig)) (n0 s n : Nat) :
    scanAnswersFrom o link n0 s (n + 1) =
      (s, (o n0 (scanReq s link)).result) :: scanAnswersFrom o link (n0 + 1) (s + 1) n := by
  simp only [scanAnswersFrom, List.range'_succ, List.map_cons, Nat.sub_self, Nat.add_zero]
  congr 1
  apply List.map_congr_left
  intro id hid
  have : s + 1 ≤ id := by
    obtain ⟨i, _, hi⟩ := List.mem_range'.mp hid
    omega
  rw [show n0 + 1 + (id - (s + 1)) = n0 + (id - s) by omega]

/-- One round of the scan loop: what it counts, prints and sends, by the result
code of its probe. -/
theorem scanStep_spec (o : Oracle) (id df : Nat) (w : World) :
    (scanStep o id df w).1 =
      df + (if (o w.issued (scanReq id w.serial1)).result = ku8MBSuccess then 1 else 0) ∧
    (scanStep o id df w).2.issued = w.issued + 1 ∧
    (scanStep o id df w).2.serial1 = w.serial1 ∧
    foundIds (scanStep o id df w).2.trace = foundIds w.trace ++
      (if (o w.issued (scanReq id w.serial1)).result = ku8MBSuccess then [id] else []) ∧
    warnedIds (scanStep o id df w).2.trace = warnedIds w.trace ++
      (if warns (o w.issued (scanReq id w.serial1)).result = true then [id] else []) ∧
    busEvents (scanStep o id df w).2.trace = busEvents w.trace ++
      [.modbusBegin id, .transaction (scanReq id w.serial1) (o w.issued (scanReq id w.serial1)).result] ∧
    ∃ l, (scanStep o id df w).2.trace = w.trace ++ l := by
  have hS : warns ku8MBSuccess = false := by decide
  by_cases h1 : (o w.issued (scanReq id w.serial1)).result = ku8MBSuccess
  · simp only [scanReq] at h1
    by_cases h50 : id % 50 = 0
    all_goals
      refine ⟨?_, ?_, ?_, ?_, ?_, ?_, ?_⟩
      all_goals simp [scanStep, transact, requestOf, modbusBegin, delay, println, World.emit,
        setLED, printModbusError, scanReq, foundIds, warnedIds, busEvents, isBusEvent, h1, hS, h50]
  · by_cases h2 : warns (o w.issued (scanReq id w.serial1)).result = true
    · have h3 := h2
      simp only [warns, scanReq, Bool.and_eq_true, decide_eq_true_eq] at h3
      simp only [scanReq] at h1 h2
      by_cases h50 : id % 50 = 0
      all_goals
        refine ⟨?_, ?_, ?_, ?_, ?_, ?_, ?_⟩
        all_goals simp [scanStep, transact, requestOf, modbusBegin, delay, println, World.emit,
          setLED, printModbusError, scanReq, foundIds, warnedIds, busEvents, isBusEvent, h1, h2,
          h3.1.2, h3.2, h50]
    · have h3 : ¬((o w.issued (scanReq id w.serial1)).result ≠ ku8MBResponseTimedOut ∧
          (o w.issued (scanReq id w.serial1)).result ≠ ku8MBInvalidSlaveID) := by
        intro h
        apply h2
        simp [warns, h1, h.1, h.2]
      simp only [scanReq] at h1 h2 h3
      by_cases h50 : id % 50 = 0
      all_goals
        refine ⟨?_, ?_, ?_, ?_, ?_, ?_, ?_⟩
        all_goals simp [scanStep, transact, requestOf, modbusBegin, delay, println, World.emit,
          setLED, printModbusError, scanReq, foundIds, warnedIds, busEvents, isBusEvent, h1, h2,
          h3, h50]

/-- The scan loop over the ids `s, ..., s + n - 1`. -/
theorem scanLoop_spec (o : Oracle) (n : Nat) : ∀ (s df : Nat) (w : World),
    (scanLoop o (List.range' s n) df w).1 =
      df + ((scanAnswersFrom o w.serial1 w.issued s n).filter fun a => a.2 = ku8MBSuccess).length ∧
    (scanLoop o (List.range' s n) df w).2.issued = w.issued + n ∧
    (scanLoop o (List.range' s n) df w).2.serial1 = w.serial1 ∧
    foundIds (scanLoop o (List.range' s n) df w).2.trace = foundIds w.trace ++
      ((scanAnswersFrom o w.serial1 w.issued s n).filter fun a => a.2 = ku8MBSuccess).map (·.1) ∧
    warnedIds (scanLoop o (List.range' s n) df w).2.trace = warnedIds w.trace ++
      ((scanAnswersFrom o w.serial1 w.issued s n).filter fun a => warns a.2).map (·.1) ∧
    busEvents (scanLoop o (List.range' s n) df w).2.trace = busEvents w.trace ++
      scanBus w.serial1 (scanAnswersFrom o w.serial1 w.issued s n) ∧
    ∃ l, (scanLoop o (List.range' s n) df w).2.trace = w.trace ++ l := by
  induction n with
  | zero =>
    intro s df w
    simp [scanLoop, scanAnswersFrom, scanBus]
  | succ n ih =>
    intro s df w
    obtain ⟨s1, s2, s3, s4, s5, s6, l1, s7⟩ := scanStep_spec o s df w
    obtain ⟨r1, r2, r3, r4, r5, r6, l2, r7⟩ :=
      ih (s + 1) (scanStep o s df w).1 (scanStep o s df w).2
    simp only [List.range'_succ, scanLoop, scanAnswersFrom_succ]
    rw [s2, s3] at r1 r4 r5 r6
    refine ⟨?_, ?_, ?_, ?_, ?_, ?_, l1 ++ l2, ?_⟩
    · rw [r1, s1]
      by_cases h : (o w.issued (scanReq s w.serial1)).result = ku8MBSuccess
      · simp [List.filter_cons, h]; omega
      · simp [List.filter_cons, h]
    · rw [r2, s2]; omega
    · rw [r3, s3]
    · rw [r4, s4]
      by_cases h : (o w.issued (scanReq s w.serial1)).result = ku8MBSuccess
      · simp [List.filter_cons, h]
      · simp [List.filter_cons, h]
    · rw [r5, s5]
      by_cases h : warns (o w.issued (scanReq s w.serial1)).result = true
      · simp [List.filter_cons, h]
      · simp [List.filter_cons, h]
    · rw [r6, s6]
      simp [scanBus]
    · rw [r7, s7, List.append_assoc]

/-- `scanModbusDevices` as a whole: count, printed ids, bus events, first event
and final indicator state. -/
theorem scanModbusDevices_spec (o : Oracle) (w : World) :
    (scanModbusDevices o w).1 =
      ((scanAnswers o w).filter fun a => a.2 = ku8MBSuccess).length ∧
    (scanModbusDevices o w).2.issued = w.issued + 247 ∧
    foundIds (scanModbusDevices o w).2.trace = foundIds w.trace ++
      ((scanAnswers o w).filter fun a => a.2 = ku8MBSuccess).map (·.1) ∧
    warnedIds (scanModbusDevices o w).2.trace = warnedIds w.trace ++
      ((scanAnswers o w).filter fun a => warns a.2).map (·.1) ∧
    busEvents (scanModbusDevices o w).2.trace = busEvents w.trace ++
      scanBus w.serial1 (scanAnswers o w) ∧
    (∃ l, (scanModbusDevices o w).2.trace = w.trace ++ .led .LED_SCANNING true :: l) ∧
    (scanModbusDevices o w).2.led.currentLEDStatus =
      if (scanModbusDevices o w).1 > 0 then .LED_SUCCESS else .LED_WARNING := by
  obtain ⟨r1, r2, r3, r4, r5, r6, l, r7⟩ := scanLoop_spec o 247 1 0
    (println (.line .mayTakeAWhile) (println (.line .scanHeader) (ledStatusMessage .LED_SCANNING (.line .scanning) w)))
  have e1 : (println (.line .mayTakeAWhile) (println (.line .scanHeader)
      (ledStatusMessage .LED_SCANNING (.line .scanning) w))).serial1 = w.serial1 := by
    simp [println, World.emit, ledStatusMessage, setLED]
  have e2 : (println (.line .mayTakeAWhile) (println (.line .scanHeader)
      (ledStatusMessage .LED_SCANNING (.line .scanning) w))).issued = w.issued := by
    simp [println, World.emit, ledStatusMessage, setLED]
  rw [e1, e2] at r1 r4 r5 r6
  rw [e2] at r2
  rw [e1] at r3
  simp only [Nat.zero_add] at r1
  unfold scanModbusDevices scanAnswers
  dsimp only
  generalize scanLoop o (List.range' 1 247) 0 (println (.line .mayTakeAWhile) (println (.line .scanHeader)
      (ledStatusMessage .LED_SCANNING (.line .scanning) w))) = r at r1 r2 r3 r4 r5 r6 r7 ⊢
  have e3 : (println (.line .mayTakeAWhile) (println (.line .scanHeader)
      (ledStatusMessage .LED_SCANNING (.line .scanning) w))).trace =
      w.trace ++ [.led .LED_SCANNING true, .print (.line .scanning), .print (.line .scanHeader),
        .print (.line .mayTakeAWhile)] := by
    simp [println, World.emit, ledStatusMessage, setLED]
  rw [e3] at r4 r5 r6 r7
  simp only [foundIds, warnedIds, busEvents, List.filterMap_append, List.filter_append] at r4 r5 r6
  by_cases h : r.1 = 0
  · have h' : ¬ r.1 > 0 := by omega
    refine ⟨r1, ?_, ?_, ?_, ?_, ⟨[.print (.line .scanning), .print (.line .scanHeader), .print (.line .mayTakeAWhile)] ++ l ++
      [.led .LED_WARNING true, .print (.line .scanCompleteNone), .print (.scanSummary r.1),
        .print (.line .scanTips)], ?_⟩, ?_⟩
    · simp [println, World.emit, ledStatusMessage, setLED, h, r2]
    · simpa [println, World.emit, ledStatusMessage, setLED, h, foundIds] using r4
    · simpa [println, World.emit, ledStatusMessage, setLED, h, warnedIds] using r5
    · simpa [println, World.emit, ledStatusMessage, setLED, h, busEvents, isBusEvent] using r6
    · simp [println, World.emit, ledStatusMessage, setLED, h, r7]
    · simp [println, World.emit, ledStatusMessage, setLED, setLEDStatus, h]
  · have h' : r.1 > 0 := by omega
    refine ⟨r1, ?_, ?_, ?_, ?_, ⟨[.print (.line .scanning), .print (.line .scanHeader), .print (.line .mayTakeAWhile)] ++ l ++
      [.led .LED_SUCCESS true, .print (.line .scanCompleteFound), .print (.scanSummary r.1)], ?_⟩, ?_⟩
    · simp [println, World.emit, ledStatusMessage, setLED, h, h', r2]
    · simpa [println, World.emit, ledStatusMessage, setLED, h, h', foundIds] using r4
    · simpa [println, World.emit, ledStatusMessage, setLED, h, h', warnedIds] using r5
    · simpa [println, World.emit, ledStatusMessage, setLED, h, h', busEvents, isBusEvent] using r6
    · simp [println, World.emit, ledStatusMessage, setLED, h, h', r7]
    · simp [println, World.emit, ledStatusMessage, setLED, setLEDStatus, h, h']

/-! ### Framing detection -/

/-- An unanswered probe at the head of the framing table: one cycle, then the
loop goes on with the rest of the table. -/
theorem configLoop_miss (o : Oracle) (slaveId baud : Nat) (c : SerialConfig)
    (rest : List SerialConfig) (w : World)
    (h : present (o w.issued (probeReq slaveId baud c)).result = false) :
    ∃ w1, autoDetectSerialConfigLoop o slaveId baud (c :: rest) w =
        autoDetectSerialConfigLoop o slaveId baud rest w1 ∧
      Ran w w1 1 (cycle o slaveId w.issued baud c) [] ∧ w1.led = w.led := by
  simp [present, probeReq] at h
  refine ⟨delay 100 (println (.line .failed)
        (transact o .readHoldingRegisters 0 1 (modbusBegin slaveId (serial1Begin baud c
          (delay 100 (serial1End (println (.testingConfig c) w)))))).2), ?_, ⟨?_, ?_, ?_⟩, ?_⟩
  · simp [autoDetectSerialConfigLoop, transact, requestOf, modbusBegin, serial1Begin, delay,
      serial1End, println, World.emit, h]
  all_goals simp [transact, requestOf, modbusBegin, serial1Begin, delay, serial1End, println,
      World.emit, busEvents, callEvents, isBusEvent, isCallEvent, cycle, probeReq]

/-- An answered probe at the head of the framing table: one cycle, the routine
returns `true` and the port stays at that framing. -/
theorem configLoop_hit (o : Oracle) (slaveId baud : Nat) (c : SerialConfig)
    (rest : List SerialConfig) (w : World)
    (h : present (o w.issued (probeReq slaveId baud c)).result = true) :
    (autoDetectSerialConfigLoop o slaveId baud (c :: rest) w).1 = true ∧
      Ran w (autoDetectSerialConfigLoop o slaveId baud (c :: rest) w).2 1
        (cycle o slaveId w.issued baud c) [] ∧
      (autoDetectSerialConfigLoop o slaveId baud (c :: rest) w).2.led = w.led ∧
      (autoDetectSerialConfigLoop o slaveId baud (c :: rest) w).2.serial1 = some (baud, c) := by
  simp [present, probeReq] at h
  refine ⟨?_, ⟨?_, ?_, ?_⟩, ?_, ?_⟩
  all_goals simp [autoDetectSerialConfigLoop, transact, requestOf, modbusBegin, serial1Begin,
    delay, serial1End, println, World.emit, busEvents, callEvents, isBusEvent, isCallEvent,
    cycle, probeReq, h]

/-- The framing loop when entry `k` is the first one answered. -/
theorem configLoop_found (o : Oracle) (slaveId baud : Nat) (cs : List SerialConfig) :
    ∀ (k : Nat) (w : World), k < cs.length →
      present (loopAnswer o slaveId w.issued (atBaud baud cs) k) = true →
      (∀ j, j < k → present (loopAnswer o slaveId w.issued (atBaud baud cs) j) = false) →
      (autoDetectSerialConfigLoop o slaveId baud cs w).1 = true ∧
      Ran w (autoDetectSerialConfigLoop o slaveId baud cs w).2 (k + 1)
        (cycles o slaveId w.issued (atBaud baud (cs.take (k + 1)))) [] ∧
      (autoDetectSerialConfigLoop o slaveId baud cs w).2.led = w.led ∧
      (autoDetectSerialConfigLoop o slaveId baud cs w).2.serial1 =
        some (baud, cs.getD k .SERIAL_8N1) := by
  induction cs with
  | nil => intro k w hk; simp at hk
  | cons c rest ih =>
    intro k w hk hp hl
    cases k with
    | zero =>
      have h := configLoop_hit o slaveId baud c rest w (by simpa [loopAnswer, atBaud] using hp)
      simpa [cycles, atBaud] using h
    | succ k =>
      have h0 := hl 0 (Nat.succ_pos k)
      obtain ⟨w1, hstep, hran, hled⟩ := configLoop_miss o slaveId baud c rest w
        (by simpa [loopAnswer, atBaud] using h0)
      have hshift : ∀ j, loopAnswer o slaveId w1.issued (atBaud baud rest) j =
          loopAnswer o slaveId w.issued (atBaud baud (c :: rest)) (j + 1) := by
        intro j
        simp [loopAnswer, atBaud, hran.issued, Nat.add_assoc, Nat.add_comm 1 j]
      obtain ⟨r1, r3, r4, r5⟩ := ih k w1 (by simpa using hk) (by rw [hshift]; exact hp)
        (fun j hj => by rw [hshift]; exact hl (j + 1) (Nat.succ_lt_succ hj))
      rw [hstep]
      refine ⟨r1, ?_, by rw [r4, hled], by simpa using r5⟩
      have := hran.trans r3
      rw [show 1 + (k + 1) = k + 1 + 1 by omega] at this
      simpa [cycles, atBaud, hran.issued] using this

/-- The framing loop when no entry is answered: the port is put back to 8N1. -/
theorem configLoop_none (o : Oracle) (slaveId baud : Nat) (cs : List SerialConfig) :
    ∀ (w : World),
      (∀ j, j < cs.length → present (loopAnswer o slaveId w.issued (atBaud baud cs) j) = false) →
      (autoDetectSerialConfigLoop o slaveId baud cs w).1 = false ∧
      Ran w (autoDetectSerialConfigLoop o slaveId baud cs w).2 cs.length
        (cycles o slaveId w.issued (atBaud baud cs) ++ resetTo8N1 slaveId baud) [] ∧
      (autoDetectSerialConfigLoop o slaveId baud cs w).2.led = w.led ∧
      (autoDetectSerialConfigLoop o slaveId baud cs w).2.serial1 = some (baud, .SERIAL_8N1) := by
  induction cs with
  | nil =>
    intro w _
    refine ⟨rfl, ⟨?_, ?_, ?_⟩, ?_, ?_⟩
    all_goals simp [autoDetectSerialConfigLoop, println, World.emit, busEvents, callEvents,
      isBusEvent, isCallEvent, cycles, atBaud, resetTo8N1, serial1End, serial1Begin, delay,
      modbusBegin]
  | cons c rest ih =>
    intro w hl
    have h0 := hl 0 (by simp)
    obtain ⟨w1, hstep, hran, hled⟩ := configLoop_miss o slaveId baud c rest w
      (by simpa [loopAnswer, atBaud] using h0)
    have hshift : ∀ j, loopAnswer o slaveId w1.issued (atBaud baud rest) j =
        loopAnswer o slaveId w.issued (atBaud baud (c :: rest)) (j + 1) := by
      intro j
      simp [loopAnswer, atBaud, hran.issued, Nat.add_assoc, Nat.add_comm 1 j]
    obtain ⟨r1, r3, r4, r5⟩ := ih w1
      (fun j hj => by rw [hshift]; exact hl (j + 1) (by simpa using hj))
    rw [hstep]
    refine ⟨r1, ?_, by rw [r4, hled], r5⟩
    have := hran.trans r3
    rw [show 1 + rest.length = (c :: rest).length by simp; omega] at this
    simpa [cycles, atBaud, hran.issued] using this

/-- The opening lines of `autoDetectSerialConfig` touch neither the bus nor the
transaction count. -/
theorem configPrelude_ran (slaveId baud : Nat) (w : World) :
    Ran w (println (.configTesting baud slaveId) (println (.line .configHeader)
      (w.emit (.call (.autoDetectSerialConfig slaveId baud)))))
      0 [] [.call (.autoDetectSerialConfig slaveId baud)] := by
  refine ⟨?_, ?_, ?_⟩
  all_goals simp [println, World.emit, busEvents, callEvents, isBusEvent, isCallEvent]

/-- `autoDetectSerialConfig` when entry `k` of the table is the first one
answered. -/
theorem autoDetectSerialConfig_found (o : Oracle) (slaveId baud k : Nat) (w : World)
    (hk : k < 6) (hp : present (configAnswer o slaveId baud w k) = true)
    (hl : ∀ j, j < k → present (configAnswer o slaveId baud w j) = false) :
    (autoDetectSerialConfig o slaveId baud w).1 = true ∧
    Ran w (autoDetectSerialConfig o slaveId baud w).2 (k + 1)
      (cycles o slaveId w.issued (atBaud baud (configs.take (k + 1))))
      [.call (.autoDetectSerialConfig slaveId baud),
        .ret (.autoDetectSerialConfig slaveId baud) true] ∧
    (autoDetectSerialConfig o slaveId baud w).2.led = w.led ∧
    (autoDetectSerialConfig o slaveId baud w).2.serial1 =
      some (baud, configs.getD k .SERIAL_8N1) := by
  have h0 := configPrelude_ran slaveId baud w
  have hi := h0.issued
  simp only [Nat.add_zero] at hi
  obtain ⟨r1, r3, r4, r5⟩ := configLoop_found o slaveId baud configs k _
    (by simpa [configs] using hk) (by rw [hi]; exact hp) (fun j hj => by rw [hi]; exact hl j hj)
  rw [hi] at r3
  have hr := (h0.trans r3).trans (ran_emit_ret _ (.autoDetectSerialConfig slaveId baud) true)
  simp only [autoDetectSerialConfig]
  rw [r1]
  refine ⟨rfl, ?_, ?_, ?_⟩
  · simpa using hr
  · simpa [World.emit, println] using r4
  · simpa [World.emit] using r5

/-- `autoDetectSerialConfig` when no entry of the table is answered. -/
theorem autoDetectSerialConfig_none (o : Oracle) (slaveId baud : Nat) (w : World)
    (hl : ∀ j, j < 6 → present (configAnswer o slaveId baud w j) = false) :
    (autoDetectSerialConfig o slaveId baud w).1 = false ∧
    Ran w (autoDetectSerialConfig o slaveId baud w).2 6
      (cycles o slaveId w.issued (atBaud baud configs) ++ resetTo8N1 slaveId baud)
      [.call (.autoDetectSerialConfig slaveId baud),
        .ret (.autoDetectSerialConfig slaveId baud) false] ∧
    (autoDetectSerialConfig o slaveId baud w).2.led = w.led ∧
    (autoDetectSerialConfig o slaveId baud w).2.serial1 = some (baud, .SERIAL_8N1) := by
  have h0 := configPrelude_ran slaveId baud w
  have hi := h0.issued
  simp only [Nat.add_zero] at hi
  obtain ⟨r1, r3, r4, r5⟩ := configLoop_none o slaveId baud configs _
    (fun j hj => by rw [hi]; exact hl j (by simpa [configs] using hj))
  rw [hi] at r3
  have hr := (h0.trans r3).trans (ran_emit_ret _ (.autoDetectSerialConfig slaveId baud) false)
  simp only [autoDetectSerialConfig]
  rw [r1]
  refine ⟨rfl, ?_, ?_, ?_⟩
  · simpa [configs] using hr
  · simpa [World.emit, println] using r4
  · simpa [World.emit] using r5

/-- No first index when the predicate fails everywhere below `n`. -/
theorem firstIndex_none (f : Nat → Bool) (n : Nat) (h : ∀ j, j < n → f j = false) :
    firstIndex f n = none := by
  simp only [firstIndex, List.find?_eq_none, List.mem_range]
  intro j hj
  simp [h j hj]

/-- The first index is `k` when the predicate holds at `k` and fails below it. -/
theorem firstIndex_some (f : Nat → Bool) (n k : Nat) (hk : k < n) (hp : f k = true)
    (hl : ∀ j, j < k → f j = false) : firstIndex f n = some k := by
  induction n with
  | zero => omega
  | succ n ih =>
    simp only [firstIndex, List.range_succ, List.find?_append]
    rcases Nat.lt_succ_iff_lt_or_eq.mp hk with h1 | h1
    · have := ih h1
      simp only [firstIndex] at this
      simp [this]
    · subst h1
      have := firstIndex_none f k hl
      simp only [firstIndex] at this
      simp [this, hp]

/-! ### Calls made by the detection routines -/

/-- The call events of any run of `autoDetectBaudRate`: its entry and its
return. -/
theorem autoDetectBaudRate_calls (o : Oracle) (slaveId d : Nat) (w : World) :
    callEvents (autoDetectBaudRate o slaveId d w).2.2.trace = callEvents w.trace ++
      [.call (.autoDetectBaudRate slaveId),
        .ret (.autoDetectBaudRate slaveId) (autoDetectBaudRate o slaveId d w).1] := by
  rcases first_answer (fun j => present (baudAnswer o slaveId w j)) 8 with h | ⟨k, hk, hp, hl⟩
  · obtain ⟨r1, _, r3, _⟩ := autoDetectBaudRate_none o slaveId d w h
    rw [r3.calls, r1]
  · obtain ⟨r1, _, r3, _⟩ := autoDetectBaudRate_found o slaveId d k w hk hp hl
    rw [r3.calls, r1]

/-- The call events of any run of `autoDetectSerialConfig`: its entry and its
return. -/
theorem autoDetectSerialConfig_calls (o : Oracle) (slaveId baud : Nat) (w : World) :
    callEvents (autoDetectSerialConfig o slaveId baud w).2.trace = callEvents w.trace ++
      [.call (.autoDetectSerialConfig slaveId baud),
        .ret (.autoDetectSerialConfig slaveId baud) (autoDetectSerialConfig o slaveId baud w).1] := by
  rcases first_answer (fun j => present (configAnswer o slaveId baud w j)) 6 with
    h | ⟨k, hk, hp, hl⟩
  · obtain ⟨r1, r3, _, _⟩ := autoDetectSerialConfig_none o slaveId baud w h
    rw [r3.calls, r1]
  · obtain ⟨r1, r3, _, _⟩ := autoDetectSerialConfig_found o slaveId baud k w hk hp hl
    rw [r3.calls, r1]

/-! ### Phases of device detection -/

/-- One round of the quick scan: the id is appended exactly when its probe is
answered. -/
theorem phase1Step_spec (o : Oracle) (id : Nat) (found : List Nat) (w : World) :
    (phase1Step o id found w).1 = found ++
      (if present (o w.issued (scanReq id w.serial1)).result = true then [id] else []) ∧
    Ran w (phase1Step o id found w).2 1
      [.modbusBegin id, .transaction (scanReq id w.serial1) (o w.issued (scanReq id w.serial1)).result]
      [] ∧
    (phase1Step o id found w).2.serial1 = w.serial1 := by
  by_cases h : present (o w.issued (scanReq id w.serial1)).result = true
  · have h' := h
    simp only [present, scanReq, Bool.or_eq_true, decide_eq_true_eq] at h'
    simp only [scanReq] at h
    refine ⟨?_, ⟨?_, ?_, ?_⟩, ?_⟩
    all_goals simp [phase1Step, transact, requestOf, modbusBegin, delay, println, World.emit,
      setLED, scanReq, busEvents, callEvents, isBusEvent, isCallEvent, h, h']
  · have h' := h
    simp only [present, scanReq, Bool.or_eq_true, decide_eq_true_eq] at h'
    simp only [scanReq, Bool.not_eq_true] at h
    refine ⟨?_, ⟨?_, ?_, ?_⟩, ?_⟩
    all_goals simp [phase1Step, transact, requestOf, modbusBegin, delay, println, World.emit,
      setLED, scanReq, busEvents, callEvents, isBusEvent, isCallEvent, h, h']

/-- The quick scan over the ids `s, ..., s + n - 1`, as long as the found list
cannot reach its ten slots before the ids run out. -/
theorem phase1Loop_spec (o : Oracle) (n : Nat) : ∀ (s : Nat) (found : List Nat) (w : World),
    found.length + n ≤ 10 →
    (phase1Loop o (List.range' s n) found w).1 = found ++
      ((scanAnswersFrom o w.serial1 w.issued s n).filter fun a => present a.2).map (·.1) ∧
    Ran w (phase1Loop o (List.range' s n) found w).2 n
      (scanBus w.serial1 (scanAnswersFrom o w.serial1 w.issued s n)) [] ∧
    (phase1Loop o (List.range' s n) found w).2.serial1 = w.serial1 := by
  induction n with
  | zero =>
    intro s found w _
    refine ⟨?_, ⟨?_, ?_, ?_⟩, ?_⟩
    all_goals simp [phase1Loop, scanAnswersFrom, scanBus]
  | succ n ih =>
    intro s found w hlen
    obtain ⟨s1, s2, s3⟩ := phase1Step_spec o s found w
    have hlt : found.length < 10 := by omega
    have hlen' : (phase1Step o s found w).1.length + n ≤ 10 := by
      rw [s1]
      by_cases h : present (o w.issued (scanReq s w.serial1)).result = true
      · simp [h]; omega
      · simp [h]; omega
    obtain ⟨r1, r2, r3⟩ := ih (s + 1) (phase1Step o s found w).1 (phase1Step o s found w).2 hlen'
    simp only [List.range'_succ, phase1Loop, if_pos hlt, scanAnswersFrom_succ]
    rw [s2.issued, s3] at r1 r2
    refine ⟨?_, ?_, ?_⟩
    · rw [r1, s1]
      by_cases h : present (o w.issued (scanReq s w.serial1)).result = true
      · simp [List.filter_cons, h]
      · simp [List.filter_cons, h]
    · have := s2.trans r2
      rw [show 1 + n = n + 1 by omega] at this
      simpa [scanBus] using this
    · rw [r3, s3]

/-- The holding-register reads of Phase 4 enter no detection routine. -/
theorem holdingLoop_calls (o : Oracle) (regs : List Nat) : ∀ w : World,
    callEvents (holdingLoop o regs w).trace = callEvents w.trace := by
  induction regs with
  | nil => intro w; rfl
  | cons reg rest ih =>
    intro w
    simp only [holdingLoop]
    rw [ih]
    simp only [transact, delay, println, World.emit, callEvents]
    split <;> simp [isCallEvent]

/-- The input-register reads of Phase 4 enter no detection routine. -/
theorem inputLoop_calls (o : Oracle) (regs : List Nat) : ∀ w : World,
    callEvents (inputLoop o regs w).trace = callEvents w.trace := by
  induction regs with
  | nil => intro w; rfl
  | cons reg rest ih =>
    intro w
    simp only [inputLoop]
    rw [ih]
    simp only [transact, delay, println, World.emit, callEvents]
    split <;> simp [isCallEvent]

/-- The Phase 4 loop enters no detection routine. -/
theorem phase4Loop_calls (o : Oracle) (found : List Nat) : ∀ w : World,
    callEvents (phase4Loop o found w).trace = callEvents w.trace := by
  induction found with
  | nil => intro w; rfl
  | cons slaveId rest ih =>
    intro w
    simp only [phase4Loop]
    rw [ih, inputLoop_calls]
    simp only [println, World.emit, callEvents, List.filter_append]
    have := holdingLoop_calls o (List.range 10) (println (.line .readingCommon)
      (modbusBegin slaveId (println (.deviceInformation slaveId) w)))
    simp only [println, World.emit, callEvents] at this
    rw [this]
    simp [modbusBegin, isCallEvent]

/-- Phase 4 keeps the found list, enters no detection routine and leaves the
indicator in Success. -/
theorem phase4_spec (o : Oracle) (found : List Nat) (w : World) :
    (phase4 o found w).1 = found ∧
    callEvents (phase4 o found w).2.trace = callEvents w.trace ∧
    (phase4 o found w).2.led.currentLEDStatus = .LED_SUCCESS := by
  refine ⟨rfl, ?_, ?_⟩
  · simp only [phase4, println, World.emit, ledStatusMessage, setLED, callEvents,
      List.filter_append]
    have := phase4Loop_calls o found (ledStatusMessage .LED_CONNECTING (.line .readingDeviceInfo)
      (println (.line .phase4) w))
    simp only [println, World.emit, ledStatusMessage, setLED, callEvents] at this
    rw [this]
    simp [isCallEvent]
  · simp [phase4, println, World.emit, ledStatusMessage, setLED, setLEDStatus]

/-- The Phase 2 loop, whatever the bus answers: either every run of
`autoDetectBaudRate` fails, or the runs before the `m`-th fail and the `m`-th
succeeds and is followed by `autoDetectSerialConfig`. -/
theorem phase2Loop_shape (o : Oracle) (ids : List Nat) : ∀ (d : Nat) (found : List Nat) (w : World),
    ((phase2Loop o ids d found w).1 = false ∧ (phase2Loop o ids d found w).2.1 = found ∧
      callEvents (phase2Loop o ids d found w).2.2.trace =
        callEvents w.trace ++ ids.flatMap failedTry) ∨
    (∃ m baud v, m < ids.length ∧ (phase2Loop o ids d found w).1 = true ∧
      (phase2Loop o ids d found w).2.1 = [ids.getD m 0] ∧
      callEvents (phase2Loop o ids d found w).2.2.trace =
        callEvents w.trace ++ ((ids.take m).flatMap failedTry ++ detectedTry (ids.getD m 0) baud v)) := by
  induction ids with
  | nil =>
    intro d found w
    left
    simp [phase2Loop]
  | cons id rest ih =>
    intro d found w
    have hc := autoDetectBaudRate_calls o id d (println (.tryingSlaveId id) w)
    have hp : callEvents (println (.tryingSlaveId id) w).trace = callEvents w.trace := by
      simp [println, World.emit, callEvents, isCallEvent]
    rw [hp] at hc
    by_cases hb : (autoDetectBaudRate o id d (println (.tryingSlaveId id) w)).1 = true
    · right
      have hs := autoDetectSerialConfig_calls o id
        (autoDetectBaudRate o id d (println (.tryingSlaveId id) w)).2.1
        (println (.line .phase3) (autoDetectBaudRate o id d (println (.tryingSlaveId id) w)).2.2)
      have hp3 : callEvents (println (.line .phase3)
          (autoDetectBaudRate o id d (println (.tryingSlaveId id) w)).2.2).trace =
          callEvents (autoDetectBaudRate o id d (println (.tryingSlaveId id) w)).2.2.trace := by
        simp [println, World.emit, callEvents, isCallEvent]
      rw [hp3, hc, hb] at hs
      refine ⟨0, (autoDetectBaudRate o id d (println (.tryingSlaveId id) w)).2.1,
        (autoDetectSerialConfig o id (autoDetectBaudRate o id d (println (.tryingSlaveId id) w)).2.1
          (println (.line .phase3)
            (autoDetectBaudRate o id d (println (.tryingSlaveId id) w)).2.2)).1, by simp, ?_, ?_, ?_⟩
      · simp [phase2Loop, hb]
      · simp [phase2Loop, hb]
      · simp only [phase2Loop, hb, if_true]
        rw [hs]
        simp [detectedTry]
    · have hb' : (autoDetectBaudRate o id d (println (.tryingSlaveId id) w)).1 = false := by
        simpa using hb
      rw [hb'] at hc
      have hstep : phase2Loop o (id :: rest) d found w = phase2Loop o rest
          (autoDetectBaudRate o id d (println (.tryingSlaveId id) w)).2.1 found
          (autoDetectBaudRate o id d (println (.tryingSlaveId id) w)).2.2 := by
        simp [phase2Loop, hb']
      rw [hstep]
      rcases ih (autoDetectBaudRate o id d (println (.tryingSlaveId id) w)).2.1 found
          (autoDetectBaudRate o id d (println (.tryingSlaveId id) w)).2.2 with
        ⟨r1, r2, r3⟩ | ⟨m, baud, v, hm, r1, r2, r3⟩
      · left
        refine ⟨r1, r2, ?_⟩
        rw [r3, hc]
        simp [failedTry]
      · right
        refine ⟨m + 1, baud, v, by simpa using hm, r1, by simpa using r2, ?_⟩
        rw [r3, hc]
        simp [failedTry]

/-- The Phase 2 loop when no probe of any run is answered. -/
theorem phase2Loop_silent (o : Oracle) (ids : List Nat) : ∀ (d : Nat) (found : List Nat) (w : World),
    (∀ i, i < ids.length → ∀ j, j < 8 →
      present (loopAnswer o (ids.getD i 0) (w.issued + 8 * i) (with8N1 baudRates) j) = false) →
    (phase2Loop o ids d found w).1 = false ∧ (phase2Loop o ids d found w).2.1 = found ∧
    Ran w (phase2Loop o ids d found w).2.2 (8 * ids.length) (sweeps o w.issued ids)
      (ids.flatMap failedTry) ∧
    (ids ≠ [] → (phase2Loop o ids d found w).2.2.led.currentLEDStatus = .LED_ERROR) := by
  induction ids with
  | nil =>
    intro d found w _
    refine ⟨rfl, rfl, ⟨?_, ?_, ?_⟩, ?_⟩
    all_goals simp [phase2Loop, sweeps]
  | cons id rest ih =>
    intro d found w h
    have hp : Ran w (println (.tryingSlaveId id) w) 0 [] [] := by
      refine ⟨?_, ?_, ?_⟩
      all_goals simp [println, World.emit, busEvents, callEvents, isBusEvent, isCallEvent]
    have hi : (println (.tryingSlaveId id) w).issued = w.issued := by simp [println, World.emit]
    obtain ⟨a1, a2, a3, a4⟩ := autoDetectBaudRate_none o id d (println (.tryingSlaveId id) w)
      (fun j hj => by
        have := h 0 (by simp) j hj
        simpa [baudAnswer, hi] using this)
    rw [hi] at a3
    have hstep : phase2Loop o (id :: rest) d found w = phase2Loop o rest
        (autoDetectBaudRate o id d (println (.tryingSlaveId id) w)).2.1 found
        (autoDetectBaudRate o id d (println (.tryingSlaveId id) w)).2.2 := by
      simp [phase2Loop, a1]
    have hr := hp.trans a3
    obtain ⟨r1, r2, r3, r4⟩ := ih (autoDetectBaudRate o id d (println (.tryingSlaveId id) w)).2.1
      found (autoDetectBaudRate o id d (println (.tryingSlaveId id) w)).2.2
      (fun i hi' j hj => by
        have := h (i + 1) (by simpa using hi') j hj
        rw [hr.issued]
        simpa [show w.issued + (0 + 8) + 8 * i = w.issued + 8 * (i + 1) by omega] using this)
    rw [hstep]
    refine ⟨r1, r2, ?_, ?_⟩
    · have := hr.trans r3
      rw [hr.issued] at this
      rw [show 0 + 8 + 8 * rest.length = 8 * (id :: rest).length by simp; omega] at this
      simpa [sweeps, failedTry] using this
    · intro _
      by_cases hrest : rest = []
      · subst hrest
        simpa [phase2Loop] using a4
      · exact r4 hrest

/-! ### Order of the calls -/

/-- What `configFollowsBaud` says about the event at a given position. -/
theorem configFollowsBaud_getElem (l : List Event) : ∀ (prev : Option Event),
    configFollowsBaud prev l → ∀ i id baud, l[i]? = some (.call (.autoDetectSerialConfig id baud)) →
      (i = 0 → prev = some (.ret (.autoDetectBaudRate id) true)) ∧
      (0 < i → l[i - 1]? = some (.ret (.autoDetectBaudRate id) true)) := by
  induction l with
  | nil => intro prev _ i id baud h; simp at h
  | cons e rest ih =>
    intro prev hok i id baud h
    obtain ⟨h1, h2⟩ := hok
    cases i with
    | zero =>
      simp at h
      exact ⟨fun _ => h1 id baud h, fun hi => absurd hi (by omega)⟩
    | succ i =>
      simp at h
      obtain ⟨q1, q2⟩ := ih (some e) h2 i id baud h
      refine ⟨fun hi => absurd hi (by omega), fun _ => ?_⟩
      cases i with
      | zero => simpa using q1 rfl
      | succ i => simpa using q2 (by omega)

/-- Failed runs of `autoDetectBaudRate` in front of a list keep
`configFollowsBaud`. -/
theorem configFollowsBaud_failed (ids : List Nat) (tail : List Event) : ∀ (prev : Option Event),
    (∀ p, configFollowsBaud p tail) → configFollowsBaud prev (ids.flatMap failedTry ++ tail) := by
  induction ids with
  | nil => intro prev h; simpa using h prev
  | cons id rest ih =>
    intro prev h
    simp only [List.flatMap_cons, failedTry, List.cons_append, List.nil_append, configFollowsBaud]
    refine ⟨(by intro _ _ hh; cases hh), (by intro _ _ hh; cases hh), ?_⟩
    exact ih _ h

/-- A successful run of `autoDetectBaudRate` followed by
`autoDetectSerialConfig` satisfies `configFollowsBaud`. -/
theorem configFollowsBaud_detected (id baud : Nat) (v : Bool) (p : Option Event) :
    configFollowsBaud p (detectedTry id baud v) := by
  simp only [detectedTry, configFollowsBaud]
  refine ⟨(by intro _ _ hh; cases hh), (by intro _ _ hh; cases hh), ?_,
    (by intro _ _ hh; cases hh), trivial⟩
  intro id' baud' hh
  cases hh
  rfl

/-! ### Device detection as a whole -/

/-- The opening of `detectModbusDevice`: `Serial1` is opened at 9600 baud 8N1
and nothing is sent. -/
theorem detectPrelude_ran (w : World) :
    Ran w (serial1Begin 9600 .SERIAL_8N1 (println (.line .phase1) (println (.line .rule)
      (println (.line .detectHeader) (println (.line .rule)
        (ledStatusMessage .LED_SCANNING (.line .detectStart) w))))))
      0 [.serialBegin 9600 .SERIAL_8N1] [] ∧
    (serial1Begin 9600 .SERIAL_8N1 (println (.line .phase1) (println (.line .rule)
      (println (.line .detectHeader) (println (.line .rule)
        (ledStatusMessage .LED_SCANNING (.line .detectStart) w)))))).serial1 =
      some (9600, .SERIAL_8N1) := by
  refine ⟨⟨?_, ?_, ?_⟩, ?_⟩
  all_goals simp [serial1Begin, println, World.emit, ledStatusMessage, setLED, busEvents,
    callEvents, isBusEvent, isCallEvent]

/-- Printing a line touches neither the bus nor the call events. -/
theorem ran_println (m : Msg) (w : World) : Ran w (println m w) 0 [] [] := by
  refine ⟨?_, ?_, ?_⟩
  all_goals simp [println, World.emit, busEvents, callEvents, isBusEvent, isCallEvent]

/-- Setting the indicator with a message touches neither the bus nor the call
events. -/
theorem ran_ledStatusMessage (s : LEDStatus) (m : Msg) (w : World) :
    Ran w (ledStatusMessage s m w) 0 [] [] := by
  refine ⟨?_, ?_, ?_⟩
  all_goals simp [ledStatusMessage, setLED, println, World.emit, busEvents, callEvents,
    isBusEvent, isCallEvent]

/-- `detectModbusDevice` when no probe of Phase 1 and Phase 2 is answered. -/
theorem detectModbusDevice_silent (o : Oracle) (uninit : Nat) (w : World)
    (h1 : ∀ a, a ∈ quickAnswers o w → present a.2 = false)
    (h2 : ∀ i, i < 4 → ∀ j, j < 8 → present (phase2Answer o w i j) = false) :
    (detectModbusDevice o uninit w).1 = [] ∧
    Ran w (detectModbusDevice o uninit w).2 42
      ([.serialBegin 9600 .SERIAL_8N1] ++ scanBus (some (9600, .SERIAL_8N1)) (quickAnswers o w) ++
        sweeps o (w.issued + 10) commonIds)
      (commonIds.flatMap failedTry) ∧
    (detectModbusDevice o uninit w).2.led.currentLEDStatus = .LED_ERROR := by
  obtain ⟨hpre, hser⟩ := detectPrelude_ran w
  have hi := hpre.issued
  simp only [Nat.add_zero] at hi
  obtain ⟨p1, p2, _⟩ := phase1Loop_spec o 10 1 [] _ (by simp : ([] : List Nat).length + 10 ≤ 10)
  rw [hser, hi] at p1 p2
  have hq : quickFound o w = [] := by
    simp only [quickFound, List.map_eq_nil_iff, List.filter_eq_nil_iff]
    intro a ha
    simp [h1 a ha]
  simp only [quickFound, quickAnswers] at hq
  rw [hq] at p1
  simp only [List.append_nil] at p1
  unfold detectModbusDevice
  dsimp only
  generalize phase1Loop o (List.range' 1 10) [] _ = r1 at p1 p2 ⊢
  obtain ⟨f1, w1⟩ := r1
  simp only at p1 p2 ⊢
  subst p1
  have hr2 := (hpre.trans p2).trans ((ran_println (.line .noDevicesDefault) w1).trans
    (ran_println (.line .phase2) _))
  obtain ⟨q1, q2, q3, q4⟩ := phase2Loop_silent o commonIds uninit []
    (println (.line .phase2) (println (.line .noDevicesDefault) w1))
    (fun i hi' j hj => by
      have := h2 i (by simpa [commonIds] using hi') j hj
      rw [hr2.issued]
      simpa [phase2Answer] using this)
  rw [hr2.issued] at q3
  have hr3 := hr2.trans q3
  simp only [List.length_nil, if_true, q1, Bool.not_false]
  refine ⟨q2, ?_, ?_⟩
  · have := hr3.trans ((ran_ledStatusMessage .LED_ERROR (.line .autoDetectionFailed) _).trans
      ((ran_println (.line .couldNotAutoDetect) _).trans (ran_println (.line .troubleshooting) _)))
    simpa [commonIds, quickAnswers] using this
  · simp [println, World.emit, ledStatusMessage, setLED, setLEDStatus]

/-- The three ways a run of `detectModbusDevice` can go, with its found list,
call events and final indicator state. -/
theorem detectModbusDevice_shape (o : Oracle) (uninit : Nat) (w : World) :
    (quickFound o w ≠ [] ∧ (detectModbusDevice o uninit w).1 = quickFound o w ∧
      callEvents (detectModbusDevice o uninit w).2.trace = callEvents w.trace ∧
      (detectModbusDevice o uninit w).2.led.currentLEDStatus = .LED_SUCCESS) ∨
    (quickFound o w = [] ∧ (detectModbusDevice o uninit w).1 = [] ∧
      callEvents (detectModbusDevice o uninit w).2.trace =
        callEvents w.trace ++ commonIds.flatMap failedTry ∧
      (detectModbusDevice o uninit w).2.led.currentLEDStatus = .LED_ERROR) ∨
    (quickFound o w = [] ∧ ∃ m baud v, m < 4 ∧
      (detectModbusDevice o uninit w).1 = [commonIds.getD m 0] ∧
      callEvents (detectModbusDevice o uninit w).2.trace = callEvents w.trace ++
        ((commonIds.take m).flatMap failedTry ++ detectedTry (commonIds.getD m 0) baud v) ∧
      (detectModbusDevice o uninit w).2.led.currentLEDStatus = .LED_SUCCESS) := by
  obtain ⟨hpre, hser⟩ := detectPrelude_ran w
  have hi := hpre.issued
  simp only [Nat.add_zero] at hi
  obtain ⟨p1, p2, _⟩ := phase1Loop_spec o 10 1 [] _ (by simp : ([] : List Nat).length + 10 ≤ 10)
  rw [hser, hi] at p1 p2
  simp only [List.nil_append] at p1
  have hc1 := (hpre.trans p2).calls
  simp only [List.append_nil] at hc1
  simp only [quickFound, quickAnswers]
  unfold detectModbusDevice
  dsimp only
  generalize phase1Loop o (List.range' 1 10) [] _ = r1 at p1 hc1 ⊢
  obtain ⟨f1, w1⟩ := r1
  simp only at p1 hc1 ⊢
  rw [← p1]
  clear p2 p1
  by_cases hf : f1 = []
  · subst hf
    right
    simp only [List.length_nil, if_true]
    have hc2 : callEvents (println (.line .phase2)
        (println (.line .noDevicesDefault) w1)).trace = callEvents w.trace := by
      rw [← hc1]
      simp [println, World.emit, callEvents, isCallEvent]
    rcases phase2Loop_shape o commonIds uninit []
        (println (.line .phase2) (println (.line .noDevicesDefault) w1)) with
      ⟨r1, r2, r3⟩ | ⟨m, baud, v, hm, r1, r2, r3⟩
    · left
      simp only [r1, Bool.not_false, if_true]
      refine ⟨trivial, r2, ?_, ?_⟩
      · rw [← hc2, ← r3]
        simp [println, World.emit, ledStatusMessage, setLED, callEvents, isCallEvent]
      · simp [println, World.emit, ledStatusMessage, setLED, setLEDStatus]
    · right
      simp only [r1, Bool.not_true, Bool.false_eq_true, if_false]
      obtain ⟨s1, s2, s3⟩ := phase4_spec o
        (phase2Loop o commonIds uninit []
          (println (.line .phase2) (println (.line .noDevicesDefault) w1))).2.1
        (phase2Loop o commonIds uninit []
          (println (.line .phase2) (println (.line .noDevicesDefault) w1))).2.2
      refine ⟨trivial, m, baud, v, by simpa [commonIds] using hm, by rw [s1, r2], ?_, s3⟩
      rw [s2, r3, hc2]
  · left
    have hlen : ¬ f1.length = 0 := by
      intro h
      exact hf (List.length_eq_zero.mp h)
    simp only [hlen, if_false]
    obtain ⟨s1, s2, s3⟩ := phase4_spec o f1 w1
    exact ⟨hf, s1, by rw [s2, hc1], s3⟩

/-- `baudReturns` only looks at call events. -/
theorem baudReturns_callEvents (t : List Event) : baudReturns (callEvents t) = baudReturns t := by
  induction t with
  | nil => rfl
  | cons e rest ih =>
    simp only [baudReturns, callEvents] at ih ⊢
    cases e <;> simp [List.filter_cons, List.filterMap_cons, isCallEvent, ih]

/-- `baudCalls` only looks at call events. -/
theorem baudCalls_callEvents (t : List Event) : baudCalls (callEvents t) = baudCalls t := by
  induction t with
  | nil => rfl
  | cons e rest ih =>
    simp only [baudCalls, callEvents] at ih ⊢
    cases e <;> simp [List.filter_cons, List.filterMap_cons, isCallEvent, ih]

/-- With no event before the list, an entry to `autoDetectSerialConfig` is never
first and follows a successful return of `autoDetectBaudRate`. -/
theorem configFollowsBaud_index (calls : List Event) (h : configFollowsBaud none calls)
    (i id baud : Nat) (hi : calls[i]? = some (.call (.autoDetectSerialConfig id baud))) :
    0 < i ∧ calls[i - 1]? = some (.ret (.autoDetectBaudRate id) true) := by
  obtain ⟨q1, q2⟩ := configFollowsBaud_getElem calls none h i id baud hi
  have hpos : 0 < i := by
    rcases Nat.eq_zero_or_pos i with h0 | h0
    · exact absurd (q1 h0) (by simp)
    · exact h0
  exact ⟨hpos, q2 hpos⟩

/-! ### Status LED -/

/-- The elapsed time read `e` milliseconds after `T` on the wrapping clock is
`e`. -/
theorem elapsedSince_add (T e : Nat) (he : e < ulongRange) :
    elapsedSince ((T + e) % ulongRange) T = e := by
  simp only [elapsedSince, ulongRange] at *
  omega

/-- The Arduino `map` of the fade: `n` milliseconds into the fade window the
green level is `255 - 255 * n / 500`. -/
theorem map_fade (n : Nat) :
    map (n : Int) 0 500 255 0 = 255 - ((255 * n / 500 : Nat) : Int) := by
  simp only [map]
  norm_num
  rw [Int.tdiv_eq_ediv (by positivity) (by norm_num)]
  omega

/-- The two colour bytes of the fade, `n < 500` milliseconds into the window. -/
theorem fade_bytes (n : Nat) (hn : n < 500) :
    toByte (map (n : Int) 0 500 255 0) = 255 - 255 * n / 500 ∧
    toByte (255 - map (n : Int) 0 500 255 0) = 255 * n / 500 := by
  rw [map_fade n]
  have hq : 255 * n / 500 ≤ 254 := by omega
  simp only [toByte]
  omega

/-! ### The Phase 4 dump -/

/-- One holding-register read of Phase 4: one transaction, whatever its result. -/
theorem holdingLoop_step (o : Oracle) (reg : Nat) (rest : List Nat) (w : World) :
    ∃ w1, holdingLoop o (reg :: rest) w = holdingLoop o rest w1 ∧
      Ran w w1 1 [.transaction (readReq .readHoldingRegisters w.slave w.serial1 reg)
        (o w.issued (readReq .readHoldingRegisters w.slave w.serial1 reg)).result] [] ∧
      w1.slave = w.slave ∧ w1.serial1 = w.serial1 ∧ w1.led = w.led := by
  refine ⟨_, rfl, ?_⟩
  by_cases h : (transact o .readHoldingRegisters reg 1 w).1 = ku8MBSuccess
  · rw [if_pos h]
    refine ⟨⟨?_, ?_, ?_⟩, ?_, ?_, ?_⟩
    all_goals simp [transact, requestOf, delay, println, World.emit, busEvents, callEvents,
      isBusEvent, isCallEvent, readReq]
  · rw [if_neg h]
    refine ⟨⟨?_, ?_, ?_⟩, ?_, ?_, ?_⟩
    all_goals simp [transact, requestOf, delay, println, World.emit, busEvents, callEvents,
      isBusEvent, isCallEvent, readReq]

/-- The holding-register reads of Phase 4: one transaction per register, in
order, whatever the results. -/
theorem holdingLoop_ran (o : Oracle) (regs : List Nat) : ∀ w : World,
    Ran w (holdingLoop o regs w) regs.length
      (readsFrom o .readHoldingRegisters w.slave w.serial1 w.issued regs) [] ∧
    (holdingLoop o regs w).slave = w.slave ∧ (holdingLoop o regs w).serial1 = w.serial1 ∧
    (holdingLoop o regs w).led = w.led := by
  induction regs with
  | nil =>
    intro w
    exact ⟨⟨by simp [holdingLoop], by simp [holdingLoop, readsFrom], by simp [holdingLoop]⟩,
      rfl, rfl, rfl⟩
  | cons reg rest ih =>
    intro w
    obtain ⟨w1, hstep, s1, s2, s3, s4⟩ := holdingLoop_step o reg rest w
    obtain ⟨r1, r2, r3, r4⟩ := ih w1
    rw [s1.issued, s2, s3] at r1
    rw [hstep]
    refine ⟨?_, by rw [r2, s2], by rw [r3, s3], by rw [r4, s4]⟩
    have := s1.trans r1
    rw [show 1 + rest.length = (reg :: rest).length by simp; omega] at this
    simpa [readsFrom] using this

/-- One input-register read of Phase 4: one transaction, whatever its result. -/
theorem inputLoop_step (o : Oracle) (reg : Nat) (rest : List Nat) (w : World) :
    ∃ w1, inputLoop o (reg :: rest) w = inputLoop o rest w1 ∧
      Ran w w1 1 [.transaction (readReq .readInputRegisters w.slave w.serial1 reg)
        (o w.issued (readReq .readInputRegisters w.slave w.serial1 reg)).result] [] ∧
      w1.slave = w.slave ∧ w1.serial1 = w.serial1 ∧ w1.led = w.led := by
  refine ⟨_, rfl, ?_⟩
  by_cases h : (transact o .readInputRegisters reg 1 w).1 = ku8MBSuccess
  · rw [if_pos h]
    refine ⟨⟨?_, ?_, ?_⟩, ?_, ?_, ?_⟩
    all_goals simp [transact, requestOf, delay, println, World.emit, busEvents, callEvents,
      isBusEvent, isCallEvent, readReq]
  · rw [if_neg h]
    refine ⟨⟨?_, ?_, ?_⟩, ?_, ?_, ?_⟩
    all_goals simp [transact, requestOf, delay, println, World.emit, busEvents, callEvents,
      isBusEvent, isCallEvent, readReq]

/-- The input-register reads of Phase 4: one transaction per register, in order,
whatever the results. -/
theorem inputLoop_ran (o : Oracle) (regs : List Nat) : ∀ w : World,
    Ran w (inputLoop o regs w) regs.length
      (readsFrom o .readInputRegisters w.slave w.serial1 w.issued regs) [] ∧
    (inputLoop o regs w).slave = w.slave ∧ (inputLoop o regs w).serial1 = w.serial1 ∧
    (inputLoop o regs w).led = w.led := by
  induction regs with
  | nil =>
    intro w
    exact ⟨⟨by simp [inputLoop], by simp [inputLoop, readsFrom], by simp [inputLoop]⟩,
      rfl, rfl, rfl⟩
  | cons reg rest ih =>
    intro w
    obtain ⟨w1, hstep, s1, s2, s3, s4⟩ := inputLoop_step o reg rest w
    obtain ⟨r1, r2, r3, r4⟩ := ih w1
    rw [s1.issued, s2, s3] at r1
    rw [hstep]
    refine ⟨?_, by rw [r2, s2], by rw [r3, s3], by rw [r4, s4]⟩
    have := s1.trans r1
    rw [show 1 + rest.length = (reg :: rest).length by simp; omega] at this
    simpa [readsFrom] using this

/-- Binding a slave is one bus event. -/
theorem ran_modbusBegin (id : Nat) (w : World) :
    Ran w (modbusBegin id w) 0 [.modbusBegin id] [] := by
  refine ⟨?_, ?_, ?_⟩
  all_goals simp [modbusBegin, busEvents, callEvents, isBusEvent, isCallEvent]

/-- The Phase 4 loop: fifteen reads per found slave id, in list order. -/
theorem phase4Loop_ran (o : Oracle) (found : List Nat) : ∀ w : World,
    Ran w (phase4Loop o found w) (15 * found.length) (dumpBus o w.serial1 w.issued found) [] ∧
    (phase4Loop o found w).serial1 = w.serial1 ∧ (phase4Loop o found w).led = w.led := by
  induction found with
  | nil =>
    intro w
    exact ⟨⟨by simp [phase4Loop], by simp [phase4Loop, dumpBus], by simp [phase4Loop]⟩, rfl, rfl⟩
  | cons id rest ih =>
    intro w
    have a1 := (ran_println (.deviceInformation id) w).trans
      ((ran_modbusBegin id _).trans (ran_println (.line .readingCommon) _))
    obtain ⟨h1, h2, h3, h4⟩ := holdingLoop_ran o (List.range 10)
      (println (.line .readingCommon) (modbusBegin id (println (.deviceInformation id) w)))
    have a2 := ran_println (.line .inputRegisters) (holdingLoop o (List.range 10)
      (println (.line .readingCommon) (modbusBegin id (println (.deviceInformation id) w))))
    obtain ⟨i1, i2, i3, i4⟩ := inputLoop_ran o (List.range 5)
      (println (.line .inputRegisters) (holdingLoop o (List.range 10)
        (println (.line .readingCommon) (modbusBegin id (println (.deviceInformation id) w)))))
    obtain ⟨r1, r2, r3⟩ := ih (inputLoop o (List.range 5)
      (println (.line .inputRegisters) (holdingLoop o (List.range 10)
        (println (.line .readingCommon) (modbusBegin id (println (.deviceInformation id) w))))))
    have e0 : (println (.line .readingCommon) (modbusBegin id (println (.deviceInformation id) w))).slave = id ∧
        (println (.line .readingCommon) (modbusBegin id (println (.deviceInformation id) w))).serial1 = w.serial1 ∧
        (println (.line .readingCommon) (modbusBegin id (println (.deviceInformation id) w))).led = w.led := by
      simp [println, World.emit, modbusBegin]
    have e1 : ∀ v : World, (println (.line .inputRegisters) v).slave = v.slave ∧
        (println (.line .inputRegisters) v).serial1 = v.serial1 ∧
        (println (.line .inputRegisters) v).led = v.led := by
      intro v; simp [println, World.emit]
    have hr := ((a1.trans h1).trans a2).trans i1
    simp only [e0.1, e0.2.1, (e1 _).1, (e1 _).2.1, h2, h3, a1.issued, (a1.trans h1).issued,
      ((a1.trans h1).trans a2).issued, List.length_range] at hr
    have hser : (inputLoop o (List.range 5)
      (println (.line .inputRegisters) (holdingLoop o (List.range 10)
        (println (.line .readingCommon) (modbusBegin id (println (.deviceInformation id) w)))))).serial1 = w.serial1 := by
      rw [i3, (e1 _).2.1, h3, e0.2.1]
    have hled : (inputLoop o (List.range 5)
      (println (.line .inputRegisters) (holdingLoop o (List.range 10)
        (println (.line .readingCommon) (modbusBegin id (println (.deviceInformation id) w)))))).led = w.led := by
      rw [i4, (e1 _).2.2, h4, e0.2.2]
    rw [hser, hr.issued] at r1
    simp only [phase4Loop]
    refine ⟨?_, by rw [r2, hser], by rw [r3, hled]⟩
    have := hr.trans r1
    rw [show 0 + (0 + 0) + 10 + 0 + 5 + 15 * rest.length = 15 * (id :: rest).length by
      simp; omega] at this
    simpa [dumpBus, Nat.add_assoc] using this

/-- Phase 4 as a whole: the dump on the bus, the indicator left in Success, the
count of devices in the last but one line printed. -/
theorem phase4_ran (o : Oracle) (found : List Nat) (w : World) :
    Ran w (phase4 o found w).2 (15 * found.length) (dumpBus o w.serial1 w.issued found) [] ∧
    ∃ pre, (phase4 o found w).2.trace =
      pre ++ [.print (.detectSummary found.length), .print (.line .rule)] := by
  have a1 := (ran_println (.line .phase4) w).trans
    (ran_ledStatusMessage .LED_CONNECTING (.line .readingDeviceInfo) _)
  obtain ⟨r1, _, _⟩ := phase4Loop_ran o found
    (ledStatusMessage .LED_CONNECTING (.line .readingDeviceInfo) (println (.line .phase4) w))
  have e1 : (ledStatusMessage .LED_CONNECTING (.line .readingDeviceInfo)
      (println (.line .phase4) w)).serial1 = w.serial1 := by
    simp [ledStatusMessage, setLED, println, World.emit]
  rw [e1, a1.issued] at r1
  have a3 := (ran_ledStatusMessage .LED_SUCCESS (.line .detectionComplete)
    (phase4Loop o found (ledStatusMessage .LED_CONNECTING (.line .readingDeviceInfo)
      (println (.line .phase4) w)))).trans ((ran_println (.line .rule) _).trans
        ((ran_println (.line .detectFooter) _).trans
          ((ran_println (.detectSummary found.length) _).trans (ran_println (.line .rule) _))))
  have := (a1.trans r1).trans a3
  refine ⟨by simpa [phase4] using this, ?_⟩
  refine ⟨(phase4Loop o found (ledStatusMessage .LED_CONNECTING (.line .readingDeviceInfo)
      (println (.line .phase4) w))).trace ++ [.led .LED_SUCCESS true,
        .print (.line .detectionComplete), .print (.line .rule), .print (.line .detectFooter)], ?_⟩
  simp [phase4, println, World.emit, ledStatusMessage, setLED]

/-- A run of `detectModbusDevice` either ends in Phase 4, run on the found list it
returns, which is then not empty; or returns early with an empty list. -/
theorem detectModbusDevice_phase4 (o : Oracle) (uninit : Nat) (w : World) :
    ((detectModbusDevice o uninit w).1 ≠ [] ∧
      ∃ w1, detectModbusDevice o uninit w = phase4 o (detectModbusDevice o uninit w).1 w1) ∨
    ((detectModbusDevice o uninit w).1 = [] ∧
      ∃ pre, (detectModbusDevice o uninit w).2.trace = pre ++
        [.led .LED_ERROR true, .print (.line .autoDetectionFailed),
          .print (.line .couldNotAutoDetect), .print (.line .troubleshooting)]) := by
  unfold detectModbusDevice
  dsimp only
  generalize phase1Loop o (List.range' 1 10) [] _ = r1
  obtain ⟨f1, w1⟩ := r1
  simp only
  by_cases hf : f1 = []
  · subst hf
    simp only [List.length_nil, if_true]
    rcases phase2Loop_shape o commonIds uninit []
        (println (.line .phase2) (println (.line .noDevicesDefault) w1)) with
      ⟨r1, r2, _⟩ | ⟨m, baud, v, _, r1, r2, _⟩
    · right
      simp only [r1, Bool.not_false, if_true]
      refine ⟨r2, (phase2Loop o commonIds uninit []
        (println (.line .phase2) (println (.line .noDevicesDefault) w1))).2.2.trace, ?_⟩
      simp [println, World.emit, ledStatusMessage, setLED]
    · left
      simp only [r1, Bool.not_true, Bool.false_eq_true, if_false]
      refine ⟨?_, _, rfl⟩
      rw [(phase4_spec o _ _).1, r2]
      simp
  · left
    have hlen : ¬ f1.length = 0 := fun h => hf (List.length_eq_zero.mp h)
    simp only [hlen, if_false]
    exact ⟨by rw [(phase4_spec o _ _).1]; exact hf, _, rfl⟩

/-- Whatever the answers, `autoDetectBaudRate` only adds bus events. -/
theorem autoDetectBaudRate_busExt (o : Oracle) (slaveId d : Nat) (w : World) :
    ∃ l, busEvents (autoDetectBaudRate o slaveId d w).2.2.trace = busEvents w.trace ++ l := by
  rcases first_answer (fun j => present (baudAnswer o slaveId w j)) 8 with h | ⟨k, hk, hp, hl⟩
  · exact ⟨_, (autoDetectBaudRate_none o slaveId d w h).2.2.1.bus⟩
  · exact ⟨_, (autoDetectBaudRate_found o slaveId d k w hk hp hl).2.2.1.bus⟩

/-- Whatever the answers, `autoDetectSerialConfig` only adds bus events. -/
theorem autoDetectSerialConfig_busExt (o : Oracle) (slaveId baud : Nat) (w : World) :
    ∃ l, busEvents (autoDetectSerialConfig o slaveId baud w).2.trace = busEvents w.trace ++ l := by
  rcases first_answer (fun j => present (configAnswer o slaveId baud w j)) 6 with
    h | ⟨k, hk, hp, hl⟩
  · exact ⟨_, (autoDetectSerialConfig_none o slaveId baud w h).2.1.bus⟩
  · exact ⟨_, (autoDetectSerialConfig_found o slaveId baud k w hk hp hl).2.1.bus⟩

/-- Whatever the answers, the Phase 2 loop only adds bus events. -/
theorem phase2Loop_busExt (o : Oracle) (ids : List Nat) : ∀ (d : Nat) (found : List Nat) (w : World),
    ∃ l, busEvents (phase2Loop o ids d found w).2.2.trace = busEvents w.trace ++ l := by
  induction ids with
  | nil => intro d found w; exact ⟨[], by simp [phase2Loop]⟩
  | cons id rest ih =>
    intro d found w
    obtain ⟨l1, h1⟩ := autoDetectBaudRate_busExt o id d (println (.tryingSlaveId id) w)
    have hp : busEvents (println (.tryingSlaveId id) w).trace = busEvents w.trace :=
      by simpa using (ran_println (.tryingSlaveId id) w).bus
    rw [hp] at h1
    by_cases hb : (autoDetectBaudRate o id d (println (.tryingSlaveId id) w)).1 = true
    · obtain ⟨l2, h2⟩ := autoDetectSerialConfig_busExt o id
        (autoDetectBaudRate o id d (println (.tryingSlaveId id) w)).2.1
        (println (.line .phase3) (autoDetectBaudRate o id d (println (.tryingSlaveId id) w)).2.2)
      have hp3 := (ran_println (.line .phase3)
        (autoDetectBaudRate o id d (println (.tryingSlaveId id) w)).2.2).bus
      simp only [List.append_nil] at hp3
      rw [hp3, h1] at h2
      refine ⟨l1 ++ l2, ?_⟩
      simp only [phase2Loop, hb, if_true]
      rw [h2, List.append_assoc]
    · have hb' : (autoDetectBaudRate o id d (println (.tryingSlaveId id) w)).1 = false := by
        simpa using hb
      obtain ⟨l2, h2⟩ := ih (autoDetectBaudRate o id d (println (.tryingSlaveId id) w)).2.1 found
        (autoDetectBaudRate o id d (println (.tryingSlaveId id) w)).2.2
      refine ⟨l1 ++ l2, ?_⟩
      simp only [phase2Loop, hb', Bool.false_eq_true, if_false]
      rw [h2, h1, List.append_assoc]

/-- Phase 4 only adds bus events. -/
theorem phase4_busExt (o : Oracle) (found : List Nat) (w : World) :
    ∃ l, busEvents (phase4 o found w).2.trace = busEvents w.trace ++ l :=
  ⟨_, (phase4_ran o found w).1.bus⟩

/-- In every run of `detectModbusDevice` the first bus events are the opening of
`Serial1` at 9600 baud 8N1 and the ten Phase 1 probes. -/
theorem detectModbusDevice_starts (o : Oracle) (uninit : Nat) (w : World) :
    ∃ l, busEvents (detectModbusDevice o uninit w).2.trace = busEvents w.trace ++
      ([.serialBegin 9600 .SERIAL_8N1] ++
        scanBus (some (9600, .SERIAL_8N1)) (quickAnswers o w)) ++ l := by
  obtain ⟨hpre, hser⟩ := detectPrelude_ran w
  have hi := hpre.issued
  simp only [Nat.add_zero] at hi
  obtain ⟨_, p2, _⟩ := phase1Loop_spec o 10 1 [] _ (by simp : ([] : List Nat).length + 10 ≤ 10)
  rw [hser, hi] at p2
  have hb1 := (hpre.trans p2).bus
  simp only [quickAnswers]
  unfold detectModbusDevice
  dsimp only
  generalize phase1Loop o (List.range' 1 10) [] _ = r1 at hb1 ⊢
  obtain ⟨f1, w1⟩ := r1
  simp only at hb1 ⊢
  by_cases hf : f1.length = 0
  · simp only [hf, if_true]
    obtain ⟨l2, h2⟩ := phase2Loop_busExt o commonIds uninit f1
      (println (.line .phase2) (println (.line .noDevicesDefault) w1))
    have hp := ((ran_println (.line .noDevicesDefault) w1).trans
      (ran_println (.line .phase2) _)).bus
    simp only [List.append_nil] at hp
    rw [hp, hb1] at h2
    by_cases hd : (phase2Loop o commonIds uninit f1
        (println (.line .phase2) (println (.line .noDevicesDefault) w1))).1 = true
    · simp only [hd, Bool.not_true, Bool.false_eq_true, if_false]
      obtain ⟨l4, h4⟩ := phase4_busExt o (phase2Loop o commonIds uninit f1
        (println (.line .phase2) (println (.line .noDevicesDefault) w1))).2.1
        (phase2Loop o commonIds uninit f1
          (println (.line .phase2) (println (.line .noDevicesDefault) w1))).2.2
      exact ⟨l2 ++ l4, by rw [h4, h2, List.append_assoc]⟩
    · have hd' : (phase2Loop o commonIds uninit f1
          (println (.line .phase2) (println (.line .noDevicesDefault) w1))).1 = false := by
        simpa using hd
      simp only [hd', Bool.not_false, if_true]
      refine ⟨l2, ?_⟩
      have := ((ran_ledStatusMessage .LED_ERROR (.line .autoDetectionFailed)
        (phase2Loop o commonIds uninit f1
          (println (.line .phase2) (println (.line .noDevicesDefault) w1))).2.2).trans
        ((ran_println (.line .couldNotAutoDetect) _).trans
          (ran_println (.line .troubleshooting) _))).bus
      simp only [List.append_nil] at this
      rw [this, h2]
  · simp only [hf, if_false]
    obtain ⟨l4, h4⟩ := phase4_busExt o f1 w1
    exact ⟨l4, by rw [h4, hb1]⟩

/-! ### The main loop and the scan -/

/-- One round of the scan loop never calls `updateLEDAnimation`. -/
theorem scanStep_ticks (o : Oracle) (id df : Nat) (w : World) :
    ticks (scanStep o id df w).2.trace = ticks w.trace := by
  simp only [scanStep, ticks]
  split_ifs <;>
    simp [transact, requestOf, modbusBegin, delay, println, World.emit, setLED,
      printModbusError, isTick]

/-- The scan loop never calls `updateLEDAnimation`. -/
theorem scanLoop_ticks (o : Oracle) (ids : List Nat) : ∀ (df : Nat) (w : World),
    ticks (scanLoop o ids df w).2.trace = ticks w.trace := by
  induction ids with
  | nil => intro df w; rfl
  | cons id rest ih =>
    intro df w
    simp only [scanLoop]
    rw [ih, scanStep_ticks]

/-- `scanModbusDevices` never calls `updateLEDAnimation`. -/
theorem scanModbusDevices_ticks (o : Oracle) (w : World) :
    ticks (scanModbusDevices o w).2.trace = ticks w.trace := by
  have h := scanLoop_ticks o (List.range' 1 247) 0
    (println (.line .mayTakeAWhile) (println (.line .scanHeader)
      (ledStatusMessage .LED_SCANNING (.line .scanning) w)))
  have e : ticks (println (.line .mayTakeAWhile) (println (.line .scanHeader)
      (ledStatusMessage .LED_SCANNING (.line .scanning) w))).trace = ticks w.trace := by
    simp [println, World.emit, ledStatusMessage, setLED, ticks, isTick]
  rw [e] at h
  unfold scanModbusDevices
  dsimp only
  generalize scanLoop o (List.range' 1 247) 0 _ = r at h ⊢
  simp only [ticks] at h ⊢
  split_ifs <;>
    simp [println, World.emit, ledStatusMessage, setLED, isTick, h]

/-- The menu choice `2` runs the full scan. -/
theorem handleSerialInput_scan (o : Oracle) (op : Operator) (uninit : Nat) (w : World) :
    handleSerialInput o (some ['2']) op uninit w =
      showMainMenu (println (.line .menuRule)
        (scanModbusDevices o (println (.line .startingFullScan) w)).2) := by
  have h1 : ('1' : Char) ≤ '2' ∧ ('2' : Char) ≤ '9' := by decide
  have h2 : toInt ['2'] = 2 := by decide
  simp only [handleSerialInput, h1, h2]
  simp

/-- A round of `loop()` that runs the full scan: one call of
`updateLEDAnimation`, first; then everything else, with the 247 transactions of
the scan, without any further call of it. -/
theorem loop_scan (o : Oracle) (breathe : Nat → Nat → Nat) (op : Operator) (uninit : Nat)
    (w : World) :
    (loop o breathe (some ['2']) op uninit w).issued = w.issued + 247 ∧
    ∃ l, (loop o breathe (some ['2']) op uninit w).trace = w.trace ++ .tick :: l ∧
      ticks l = [] := by
  obtain ⟨_, r2, _, _, _, ⟨l, r6⟩, _⟩ := scanModbusDevices_spec o
    (println (.line .startingFullScan) (tick breathe w))
  have ht := scanModbusDevices_ticks o (println (.line .startingFullScan) (tick breathe w))
  have e1 : (println (.line .startingFullScan) (tick breathe w)).trace =
      w.trace ++ [.tick, .print (.line .startingFullScan)] := by
    simp [println, World.emit, tick]
  have e2 : (println (.line .startingFullScan) (tick breathe w)).issued = w.issued := by
    simp [println, World.emit, tick]
  rw [e1] at r6 ht
  rw [e2] at r2
  rw [r6] at ht
  have hl : ticks l = [] := by
    simp only [ticks, List.filter_append, List.filter_cons, isTick] at ht ⊢
    simpa using ht
  simp only [loop, handleSerialInput_scan]
  generalize scanModbusDevices o (println (.line .startingFullScan) (tick breathe w)) = S
    at r2 r6 ⊢
  refine ⟨by simp [delay, showMainMenu, println, World.emit, r2], ?_⟩
  refine ⟨[.print (.line .startingFullScan), .led .LED_SCANNING true] ++ l ++
    [.print (.line .menuRule), .print (.line .mainMenu), .delay 50], ?_, ?_⟩
  · simp [delay, showMainMenu, println, World.emit, r6]
  · simp only [ticks, List.filter_append] at hl ⊢
    rw [hl]
    simp [isTick]

/-! ### Register commands -/

/-- Printing register values sends nothing and prints no header. -/
theorem printRegisters_quiet (startAddress : Nat) (is : List Nat) : ∀ w : World,
    requests (printRegisters startAddress is w).trace = requests w.trace ∧
    reportedSlaves (printRegisters startAddress is w).trace = reportedSlaves w.trace := by
  induction is with
  | nil => intro w; exact ⟨rfl, rfl⟩
  | cons i rest ih =>
    intro w
    obtain ⟨h1, h2⟩ := ih (println (.io (.register (startAddress + i) (w.buffer i))) w)
    simp only [printRegisters]
    rw [h1, h2]
    simp [println, World.emit, requests, reportedSlaves]

/-- Printing bit values sends nothing and prints no header. -/
theorem printBits_quiet (fn : ModbusFn) (startAddress : Nat) (is : List Nat) : ∀ w : World,
    requests (printBits fn startAddress is w).trace = requests w.trace ∧
    reportedSlaves (printBits fn startAddress is w).trace = reportedSlaves w.trace := by
  induction is with
  | nil => intro w; exact ⟨rfl, rfl⟩
  | cons i rest ih =>
    intro w
    obtain ⟨h1, h2⟩ := ih (println (.io (.bit fn (startAddress + i)
      ((w.buffer (i / 16)).testBit (i % 16)))) w)
    simp only [printBits]
    rw [h1, h2]
    simp [println, World.emit, requests, reportedSlaves]

/-- `readHoldingRegisters` sends its one request to the slave the library is
bound to, and prints the slave id it was given. -/
theorem readHoldingRegisters_sends (o : Oracle) (slaveId startAddress quantity : Nat)
    (w : World) :
    requests (readHoldingRegisters o slaveId startAddress quantity w).trace = requests w.trace ++
      [{ fn := .readHoldingRegisters, slave := w.slave, link := w.serial1,
         address := startAddress, arg := quantity }] ∧
    reportedSlaves (readHoldingRegisters o slaveId startAddress quantity w).trace =
      reportedSlaves w.trace ++ [slaveId] := by
  simp only [readHoldingRegisters]
  split_ifs
  · rw [(printRegisters_quiet _ _ _).1, (printRegisters_quiet _ _ _).2]
    simp [transact, requestOf, println, World.emit, ledStatusMessage, setLED, requests,
      reportedSlaves]
  · simp [transact, requestOf, println, World.emit, ledStatusMessage, setLED, requests,
      reportedSlaves, printModbusError]

/-- `readInputRegisters` sends its one request, with the quantity as a byte, to
the slave the library is bound to, and prints the slave id it was given. -/
theorem readInputRegisters_sends (o : Oracle) (slaveId startAddress quantity : Nat)
    (w : World) :
    requests (readInputRegisters o slaveId startAddress quantity w).trace = requests w.trace ++
      [{ fn := .readInputRegisters, slave := w.slave, link := w.serial1,
         address := startAddress, arg := quantity % 256 }] ∧
    reportedSlaves (readInputRegisters o slaveId startAddress quantity w).trace =
      reportedSlaves w.trace ++ [slaveId] := by
  simp only [readInputRegisters]
  split_ifs
  · rw [(printRegisters_quiet _ _ _).1, (printRegisters_quiet _ _ _).2]
    simp [transact, requestOf, println, World.emit, ledStatusMessage, setLED, requests,
      reportedSlaves]
  · simp [transact, requestOf, println, World.emit, ledStatusMessage, setLED, requests,
      reportedSlaves, printModbusError]

/-- `readCoils` sends its one request to the slave the library is bound to, and
prints the slave id it was given. -/
theorem readCoils_sends (o : Oracle) (slaveId startAddress quantity : Nat)
    (w : World) :
    requests (readCoils o slaveId startAddress quantity w).trace = requests w.trace ++
      [{ fn := .readCoils, slave := w.slave, link := w.serial1,
         address := startAddress, arg := quantity }] ∧
    reportedSlaves (readCoils o slaveId startAddress quantity w).trace =
      reportedSlaves w.trace ++ [slaveId] := by
  simp only [readCoils]
  split_ifs
  · rw [(printBits_quiet _ _ _ _).1, (printBits_quiet _ _ _ _).2]
    simp [transact, requestOf, println, World.emit, ledStatusMessage, setLED, requests,
      reportedSlaves]
  · simp [transact, requestOf, println, World.emit, ledStatusMessage, setLED, requests,
      reportedSlaves, printModbusError]

/-- `readDiscreteInputs` sends its one request to the slave the library is bound to, and
prints the slave id it was given. -/
theorem readDiscreteInputs_sends (o : Oracle) (slaveId startAddress quantity : Nat)
    (w : World) :
    requests (readDiscreteInputs o slaveId startAddress quantity w).trace = requests w.trace ++
      [{ fn := .readDiscreteInputs, slave := w.slave, link := w.serial1,
         address := startAddress, arg := quantity }] ∧
    reportedSlaves (readDiscreteInputs o slaveId startAddress quantity w).trace =
      reportedSlaves w.trace ++ [slaveId] := by
  simp only [readDiscreteInputs]
  split_ifs
  · rw [(printBits_quiet _ _ _ _).1, (printBits_quiet _ _ _ _).2]
    simp [transact, requestOf, println, World.emit, ledStatusMessage, setLED, requests,
      reportedSlaves]
  · simp [transact, requestOf, println, World.emit, ledStatusMessage, setLED, requests,
      reportedSlaves, printModbusError]

/-- `writeSingleRegister` sends its one request to the slave the library is bound
to, and prints the slave id it was given. -/
theorem writeSingleRegister_sends (o : Oracle) (slaveId address value : Nat) (w : World) :
    requests (writeSingleRegister o slaveId address value w).trace = requests w.trace ++
      [{ fn := .writeSingleRegister, slave := w.slave, link := w.serial1,
         address := address, arg := value }] ∧
    reportedSlaves (writeSingleRegister o slaveId address value w).trace =
      reportedSlaves w.trace ++ [slaveId] := by
  simp only [writeSingleRegister]
  split_ifs <;>
    simp [transact, requestOf, println, World.emit, ledStatusMessage, setLED, requests,
      reportedSlaves, printModbusError]

/-- `writeSingleCoil` sends its one request to the slave the library is bound to,
and prints the slave id it was given. -/
theorem writeSingleCoil_sends (o : Oracle) (slaveId address : Nat) (value : Bool) (w : World) :
    requests (writeSingleCoil o slaveId address value w).trace = requests w.trace ++
      [{ fn := .writeSingleCoil, slave := w.slave, link := w.serial1,
         address := address, arg := if value then 1 else 0 }] ∧
    reportedSlaves (writeSingleCoil o slaveId address value w).trace =
      reportedSlaves w.trace ++ [slaveId] := by
  simp only [writeSingleCoil]
  split_ifs <;>
    simp_all [transact, requestOf, println, World.emit, ledStatusMessage, setLED, requests,
      reportedSlaves, printModbusError]

/-- Waiting for the operator sends nothing, prints nothing and binds no slave. -/
theorem waitForInput_quiet (n : Nat) (w : World) :
    requests (waitForInput n w).trace = requests w.trace ∧
    reportedSlaves (waitForInput n w).trace = reportedSlaves w.trace ∧
    (waitForInput n w).slave = w.slave := by
  obtain ⟨h1, _, _, h4, _⟩ := waitForInput_spec n w
  refine ⟨?_, ?_, h4⟩
  · rw [h1]
    simp only [requests, List.filterMap_append, List.append_right_eq_self,
      List.filterMap_eq_nil_iff]
    intro e he
    rw [(List.mem_replicate.mp he).2]
  · rw [h1]
    simp only [reportedSlaves, List.filterMap_append, List.append_right_eq_self,
      List.filterMap_eq_nil_iff]
    intro e he
    rw [(List.mem_replicate.mp he).2]

/-- The world in which `readSpecificRegisters` calls its read function: the
prompts and the waits are over, `Serial1` has been opened at 9600 baud 8N1, and
the library is bound to the slave it was bound to before the command. -/
theorem readSpecificRegisters_setup (op : Operator) (w : World) :
    requests (serial1Begin MODBUS_BAUD .SERIAL_8N1 (waitForInput (op 3).waited
      (println (.line .enterQuantity) (waitForInput (op 2).waited
        (println (.line .enterStartingAddress) (waitForInput (op 1).waited
          (println (.line .enterRegisterType) (waitForInput (op 0).waited
            (println (.line .enterSlaveIdShort)
              (println (.line .registerReadingSetup) w)))))))))).trace = requests w.trace ∧
    reportedSlaves (serial1Begin MODBUS_BAUD .SERIAL_8N1 (waitForInput (op 3).waited
      (println (.line .enterQuantity) (waitForInput (op 2).waited
        (println (.line .enterStartingAddress) (waitForInput (op 1).waited
          (println (.line .enterRegisterType) (waitForInput (op 0).waited
            (println (.line .enterSlaveIdShort)
              (println (.line .registerReadingSetup) w)))))))))).trace =
      reportedSlaves w.trace ∧
    (serial1Begin MODBUS_BAUD .SERIAL_8N1 (waitForInput (op 3).waited
      (println (.line .enterQuantity) (waitForInput (op 2).waited
        (println (.line .enterStartingAddress) (waitForInput (op 1).waited
          (println (.line .enterRegisterType) (waitForInput (op 0).waited
            (println (.line .enterSlaveIdShort)
              (println (.line .registerReadingSetup) w)))))))))).slave = w.slave := by
  have q : ∀ (l : Line) (v : World), requests (println (.line l) v).trace = requests v.trace ∧
      reportedSlaves (println (.line l) v).trace = reportedSlaves v.trace ∧
      (println (.line l) v).slave = v.slave := by
    intro l v
    simp [println, World.emit, requests, reportedSlaves]
  have qs : ∀ v : World,
      requests (serial1Begin MODBUS_BAUD .SERIAL_8N1 v).trace = requests v.trace ∧
      reportedSlaves (serial1Begin MODBUS_BAUD .SERIAL_8N1 v).trace = reportedSlaves v.trace ∧
      (serial1Begin MODBUS_BAUD .SERIAL_8N1 v).slave = v.slave := by
    intro v
    simp [serial1Begin, requests, reportedSlaves]
  refine ⟨?_, ?_, ?_⟩
  · rw [(qs _).1, (waitForInput_quiet _ _).1, (q _ _).1, (waitForInput_quiet _ _).1, (q _ _).1,
      (waitForInput_quiet _ _).1, (q _ _).1, (waitForInput_quiet _ _).1, (q _ _).1, (q _ _).1]
  · rw [(qs _).2.1, (waitForInput_quiet _ _).2.1, (q _ _).2.1, (waitForInput_quiet _ _).2.1,
      (q _ _).2.1, (waitForInput_quiet _ _).2.1, (q _ _).2.1, (waitForInput_quiet _ _).2.1,
      (q _ _).2.1, (q _ _).2.1]
  · rw [(qs _).2.2, (waitForInput_quiet _ _).2.2, (q _ _).2.2, (waitForInput_quiet _ _).2.2,
      (q _ _).2.2, (waitForInput_quiet _ _).2.2, (q _ _).2.2, (waitForInput_quiet _ _).2.2,
      (q _ _).2.2, (q _ _).2.2]

/-- The world in which `writeToRegister` calls `writeSingleRegister`: the library
is bound to the slave it was bound to before the command. -/
theorem writeToRegister_setup (op : Operator) (w : World) :
    requests (serial1Begin MODBUS_BAUD .SERIAL_8N1 (waitForInput (op 2).waited
      (println (.line .enterValue) (waitForInput (op 1).waited
        (println (.line .enterRegisterAddress) (waitForInput (op 0).waited
          (println (.line .enterSlaveIdShort)
            (println (.line .registerWritingSetup) w)))))))).trace = requests w.trace ∧
    reportedSlaves (serial1Begin MODBUS_BAUD .SERIAL_8N1 (waitForInput (op 2).waited
      (println (.line .enterValue) (waitForInput (op 1).waited
        (println (.line .enterRegisterAddress) (waitForInput (op 0).waited
          (println (.line .enterSlaveIdShort)
            (println (.line .registerWritingSetup) w)))))))).trace = reportedSlaves w.trace ∧
    (serial1Begin MODBUS_BAUD .SERIAL_8N1 (waitForInput (op 2).waited
      (println (.line .enterValue) (waitForInput (op 1).waited
        (println (.line .enterRegisterAddress) (waitForInput (op 0).waited
          (println (.line .enterSlaveIdShort)
            (println (.line .registerWritingSetup) w)))))))).slave = w.slave := by
  have q : ∀ (l : Line) (v : World), requests (println (.line l) v).trace = requests v.trace ∧
      reportedSlaves (println (.line l) v).trace = reportedSlaves v.trace ∧
      (println (.line l) v).slave = v.slave := by
    intro l v
    simp [println, World.emit, requests, reportedSlaves]
  have qs : ∀ v : World,
      requests (serial1Begin MODBUS_BAUD .SERIAL_8N1 v).trace = requests v.trace ∧
      reportedSlaves (serial1Begin MODBUS_BAUD .SERIAL_8N1 v).trace = reportedSlaves v.trace ∧
      (serial1Begin MODBUS_BAUD .SERIAL_8N1 v).slave = v.slave := by
    intro v
    simp [serial1Begin, requests, reportedSlaves]
  refine ⟨?_, ?_, ?_⟩
  · rw [(qs _).1, (waitForInput_quiet _ _).1, (q _ _).1, (waitForInput_quiet _ _).1, (q _ _).1,
      (waitForInput_quiet _ _).1, (q _ _).1, (q _ _).1]
  · rw [(qs _).2.1, (waitForInput_quiet _ _).2.1, (q _ _).2.1, (waitForInput_quiet _ _).2.1,
      (q _ _).2.1, (waitForInput_quiet _ _).2.1, (q _ _).2.1, (q _ _).2.1]
  · rw [(qs _).2.2, (waitForInput_quiet _ _).2.2, (q _ _).2.2, (waitForInput_quiet _ _).2.2,
      (q _ _).2.2, (waitForInput_quiet _ _).2.2, (q _ _).2.2, (q _ _).2.2]

/-- After one round of the scan loop the library is bound to the id of that
round. -/
theorem scanStep_slave (o : Oracle) (id df : Nat) (w : World) :
    (scanStep o id df w).2.slave = id := by
  simp only [scanStep]
  split_ifs <;>
    simp [transact, requestOf, modbusBegin, delay, println, World.emit, setLED,
      printModbusError]

/-- After the scan loop the library is bound to the last id visited. -/
theorem scanLoop_slave (o : Oracle) (ids : List Nat) : ∀ (df : Nat) (w : World),
    (scanLoop o ids df w).2.slave = ids.getLast?.getD w.slave := by
  induction ids with
  | nil => intro df w; rfl
  | cons id rest ih =>
    intro df w
    simp only [scanLoop]
    rw [ih, scanStep_slave]
    cases rest with
    | nil => rfl
    | cons a r =>
      have hx : ∃ x, (a :: r).getLast? = some x :=
        ⟨(a :: r).getLast (by simp), List.getLast?_eq_getLast _ _⟩
      obtain ⟨x, hx⟩ := hx
      rw [List.getLast?_cons_cons, hx]
      rfl

set_option maxRecDepth 10000 in
/-- `scanModbusDevices` leaves the library bound to slave 247. -/
theorem scanModbusDevices_slave (o : Oracle) (w : World) :
    (scanModbusDevices o w).2.slave = 247 := by
  have h := scanLoop_slave o (List.range' 1 247) 0
    (println (.line .mayTakeAWhile) (println (.line .scanHeader)
      (ledStatusMessage .LED_SCANNING (.line .scanning) w)))
  have e : (List.range' 1 247).getLast? = some 247 := by decide
  rw [e] at h
  unfold scanModbusDevices
  dsimp only
  generalize scanLoop o (List.range' 1 247) 0 _ = r at h ⊢
  simp only [Option.getD_some] at h
  split_ifs <;>
    simp [println, World.emit, ledStatusMessage, setLED, h]

/-! ### Ticks after earlier ticks -/

/-- A state with the animation flag off is left as it is by `updateLEDAnimation`. -/
theorem updateLEDAnimation_idle (breathe : Nat → Nat → Nat) (now : Nat) (s : LedState)
    (h : s.ledAnimationActive = false) : updateLEDAnimation breathe now s = s := by
  simp [updateLEDAnimation, h]

/-- One call of `updateLEDAnimation` on any state that is Error, animating since
`T`: up to 3000 ms it only sets the pixel, Red or Black by the parity of
`elapsed / 250`; later it makes the state Ready, not animating, Blue. -/
theorem error_tick (breathe : Nat → Nat → Nat) (now T : Nat) (s : LedState)
    (h1 : s.currentLEDStatus = .LED_ERROR) (h2 : s.ledAnimationActive = true)
    (h3 : s.ledAnimationStart = T) :
    (elapsedSince now T ≤ 3000 →
      updateLEDAnimation breathe now s =
        { s with
          leds0 := if (elapsedSince now T / 250) % 2 = 0 then CRGB.Red else CRGB.Black
          shown := if (elapsedSince now T / 250) % 2 = 0 then CRGB.Red else CRGB.Black }) ∧
    (3000 < elapsedSince now T →
      updateLEDAnimation breathe now s =
        { currentLEDStatus := .LED_READY, ledAnimationStart := now, ledAnimationActive := false,
          leds0 := CRGB.Blue, shown := CRGB.Blue }) := by
  subst h3
  constructor
  · intro h
    have h' : ¬ elapsedSince now s.ledAnimationStart > 3000 := by omega
    simp [updateLEDAnimation, FastLED_show, h1, h2, h']
  · intro h
    simp [updateLEDAnimation, FastLED_show, setLEDStatus, statusColor, h1, h2, h]

/-- One call of `updateLEDAnimation` on any state that is Success, animating
since `T`: below 500 ms it shows Green, below 1000 ms the fade pixel, and from
1000 ms on it makes the state Ready, not animating, Blue. -/
theorem success_tick (breathe : Nat → Nat → Nat) (now T : Nat) (s : LedState)
    (h1 : s.currentLEDStatus = .LED_SUCCESS) (h2 : s.ledAnimationActive = true)
    (h3 : s.ledAnimationStart = T) :
    (elapsedSince now T < 500 →
      updateLEDAnimation breathe now s = { s with leds0 := CRGB.Green, shown := CRGB.Green }) ∧
    (500 ≤ elapsedSince now T → elapsedSince now T < 1000 →
      updateLEDAnimation breathe now s =
        { s with
          leds0 := .rgb 0 (255 - 255 * (elapsedSince now T - 500) / 500)
            (255 * (elapsedSince now T - 500) / 500)
          shown := .rgb 0 (255 - 255 * (elapsedSince now T - 500) / 500)
            (255 * (elapsedSince now T - 500) / 500) }) ∧
    (1000 ≤ elapsedSince now T →
      updateLEDAnimation breathe now s =
        { currentLEDStatus := .LED_READY, ledAnimationStart := now, ledAnimationActive := false,
          leds0 := CRGB.Blue, shown := CRGB.Blue }) := by
  subst h3
  refine ⟨?_, ?_, ?_⟩
  · intro h
    simp [updateLEDAnimation, FastLED_show, h1, h2, h]
  · intro ha hb
    have ha' : ¬ elapsedSince now s.ledAnimationStart < 500 := by omega
    obtain ⟨b1, b2⟩ := fade_bytes (elapsedSince now s.ledAnimationStart - 500) (by omega)
    have hc : ((elapsedSince now s.ledAnimationStart : Nat) : Int) - 500 =
        ((elapsedSince now s.ledAnimationStart - 500 : Nat) : Int) := by omega
    simp only [updateLEDAnimation, FastLED_show, h1, h2, ha', hb, hc, Bool.not_true,
      Bool.false_eq_true, if_false, if_true, b1, b2]
  · intro h
    have ha' : ¬ elapsedSince now s.ledAnimationStart < 500 := by omega
    have hb' : ¬ elapsedSince now s.ledAnimationStart < 1000 := by omega
    simp [updateLEDAnimation, FastLED_show, setLEDStatus, statusColor, h1, h2, ha', hb']

/-- Once the indicator is Ready, not animating and Blue, further calls of
`updateLEDAnimation` keep it so. -/
theorem ticksAfter_ready (breathe : Nat → Nat → Nat) (T : Nat) (ds : List Nat) :
    ∀ s : LedState, s.ledAnimationActive = false →
      ticksAfter breathe T ds s = s := by
  induction ds with
  | nil => intro s _; rfl
  | cons d rest ih =>
    intro s h
    simp only [ticksAfter]
    rw [updateLEDAnimation_idle breathe _ s h]
    exact ih s h

/-- Calls of `updateLEDAnimation` within 3000 ms keep an Error state Error,
animating since `T`. -/
theorem ticksAfter_error (breathe : Nat → Nat → Nat) (T : Nat) (ds : List Nat) :
    ∀ s : LedState, s.currentLEDStatus = .LED_ERROR → s.ledAnimationActive = true →
      s.ledAnimationStart = T → (∀ d ∈ ds, d ≤ 3000) →
      (ticksAfter breathe T ds s).currentLEDStatus = .LED_ERROR ∧
      (ticksAfter breathe T ds s).ledAnimationActive = true ∧
      (ticksAfter breathe T ds s).ledAnimationStart = T := by
  induction ds with
  | nil => intro s h1 h2 h3 _; exact ⟨h1, h2, h3⟩
  | cons d rest ih =>
    intro s h1 h2 h3 hd
    have hd1 : d ≤ 3000 := hd d (List.mem_cons_self _ _)
    have hel := elapsedSince_add T d (by simp only [ulongRange]; omega)
    have ht := (error_tick breathe ((T + d) % ulongRange) T s h1 h2 h3).1 (by omega)
    simp only [ticksAfter]
    rw [ht]
    exact ih _ h1 h2 h3 (fun x hx => hd x (List.mem_cons_of_mem _ hx))

/-- Calls of `updateLEDAnimation` at any times leave an Error state either
Error, animating since `T`, or Ready, not animating and Blue. -/
theorem ticksAfter_error_any (breathe : Nat → Nat → Nat) (T : Nat) (ds : List Nat) :
    ∀ s : LedState, s.currentLEDStatus = .LED_ERROR → s.ledAnimationActive = true →
      s.ledAnimationStart = T →
      ((ticksAfter breathe T ds s).currentLEDStatus = .LED_ERROR ∧
        (ticksAfter breathe T ds s).ledAnimationActive = true ∧
        (ticksAfter breathe T ds s).ledAnimationStart = T) ∨
      ((ticksAfter breathe T ds s).currentLEDStatus = .LED_READY ∧
        (ticksAfter breathe T ds s).ledAnimationActive = false ∧
        (ticksAfter breathe T ds s).shown = CRGB.Blue) := by
  induction ds with
  | nil => intro s h1 h2 h3; exact Or.inl ⟨h1, h2, h3⟩
  | cons d rest ih =>
    intro s h1 h2 h3
    obtain ⟨ha, hb⟩ := error_tick breathe ((T + d) % ulongRange) T s h1 h2 h3
    simp only [ticksAfter]
    by_cases h : elapsedSince ((T + d) % ulongRange) T ≤ 3000
    · rw [ha h]
      exact ih _ h1 h2 h3
    · rw [hb (by omega), ticksAfter_ready breathe T rest _ rfl]
      exact Or.inr ⟨rfl, rfl, rfl⟩

/-- Calls of `updateLEDAnimation` within the first second keep a Success state
Success, animating since `T`. -/
theorem ticksAfter_success (breathe : Nat → Nat → Nat) (T : Nat) (ds : List Nat) :
    ∀ s : LedState, s.currentLEDStatus = .LED_SUCCESS → s.ledAnimationActive = true →
      s.ledAnimationStart = T → (∀ d ∈ ds, d < 1000) →
      (ticksAfter breathe T ds s).currentLEDStatus = .LED_SUCCESS ∧
      (ticksAfter breathe T ds s).ledAnimationActive = true ∧
      (ticksAfter breathe T ds s).ledAnimationStart = T := by
  induction ds with
  | nil => intro s h1 h2 h3 _; exact ⟨h1, h2, h3⟩
  | cons d rest ih =>
    intro s h1 h2 h3 hd
    have hd1 : d < 1000 := hd d (List.mem_cons_self _ _)
    have hel := elapsedSince_add T d (by simp only [ulongRange]; omega)
    obtain ⟨ha, hb, _⟩ := success_tick breathe ((T + d) % ulongRange) T s h1 h2 h3
    simp only [ticksAfter]
    by_cases h : d < 500
    · rw [ha (by omega)]
      exact ih _ h1 h2 h3 (fun x hx => hd x (List.mem_cons_of_mem _ hx))
    · rw [hb (by omega) (by omega)]
      exact ih _ h1 h2 h3 (fun x hx => hd x (List.mem_cons_of_mem _ hx))

/-- Calls of `updateLEDAnimation` at any times leave a Success state either
Success, animating since `T`, or Ready, not animating and Blue. -/
theorem ticksAfter_success_any (breathe : Nat → Nat → Nat) (T : Nat) (ds : List Nat) :
    ∀ s : LedState, s.currentLEDStatus = .LED_SUCCESS → s.ledAnimationActive = true →
      s.ledAnimationStart = T →
      ((ticksAfter breathe T ds s).currentLEDStatus = .LED_SUCCESS ∧
        (ticksAfter breathe T ds s).ledAnimationActive = true ∧
        (ticksAfter breathe T ds s).ledAnimationStart = T) ∨
      ((ticksAfter breathe T ds s).currentLEDStatus = .LED_READY ∧
        (ticksAfter breathe T ds s).ledAnimationActive = false ∧
        (ticksAfter breathe T ds s).shown = CRGB.Blue) := by
  induction ds with
  | nil => intro s h1 h2 h3; exact Or.inl ⟨h1, h2, h3⟩
  | cons d rest ih =>
    intro s h1 h2 h3
    obtain ⟨ha, hb, hc⟩ := success_tick breathe ((T + d) % ulongRange) T s h1 h2 h3
    simp only [ticksAfter]
    by_cases h : elapsedSince ((T + d) % ulongRange) T < 500
    · rw [ha h]
      exact ih _ h1 h2 h3
    · by_cases h' : elapsedSince ((T + d) % ulongRange) T < 1000
      · rw [hb (by omega) h']
        exact ih _ h1 h2 h3
      · rw [hc (by omega), ticksAfter_ready breathe T rest _ rfl]
        exact Or.inr ⟨rfl, rfl, rfl⟩

/-- The pixel shown by a call of `updateLEDAnimation` at `T + e`, with `e` below
one second, after a Success set at `T` and earlier calls within the first
second: Green in the first half, the fade pixel in the second. -/
theorem success_shown (breathe : Nat → Nat → Nat) (s0 : LedState) (T : Nat)
    (earlier : List Nat) (e : Nat) (hd : ∀ d ∈ earlier, d < 1000) (he : e < 1000) :
    (updateLEDAnimation breathe ((T + e) % ulongRange)
      (ticksAfter breathe T earlier (setLEDStatus .LED_SUCCESS true T s0))).currentLEDStatus =
        .LED_SUCCESS ∧
    (updateLEDAnimation breathe ((T + e) % ulongRange)
      (ticksAfter breathe T earlier (setLEDStatus .LED_SUCCESS true T s0))).shown =
        if e < 500 then CRGB.Green
        else .rgb 0 (255 - 255 * (e - 500) / 500) (255 * (e - 500) / 500) := by
  have hel := elapsedSince_add T e (by simp only [ulongRange]; omega)
  obtain ⟨i1, i2, i3⟩ := ticksAfter_success breathe T earlier
    (setLEDStatus .LED_SUCCESS true T s0) rfl rfl rfl hd
  obtain ⟨ha, hb, _⟩ := success_tick breathe ((T + e) % ulongRange) T _ i1 i2 i3
  by_cases h : e < 500
  · rw [ha (by omega)]
    simp [h, i1]
  · rw [hb (by omega) (by omega), hel]
    simp [h, i1]

/-! ### The scan against its sibling routines -/

/-- A scan that counted no device ends with the Warning indicator, the line
"Scan complete - no devices found", the summary with count 0 and the wiring
tips. -/
theorem scanModbusDevices_none_tail (o : Oracle) (w : World)
    (h : (scanModbusDevices o w).1 = 0) :
    ∃ l, (scanModbusDevices o w).2.trace = l ++
      [.led .LED_WARNING true, .print (.line .scanCompleteNone), .print (.scanSummary 0),
        .print (.line .scanTips)] := by
  revert h
  unfold scanModbusDevices
  dsimp only
  generalize scanLoop o (List.range' 1 247) 0 _ = r
  intro h
  refine ⟨r.2.trace, ?_⟩
  simp [h, println, World.emit, ledStatusMessage, setLED]

/-! ## The claims -/

/-- C1. `autoDetectBaudRate`: for every slave address, every bus and every
starting world, if `k` is the least index of the baud table whose probe is
answered by `ku8MBSuccess` or `ku8MBIllegalDataAddress`, the routine returns
`true`, stores the `k`-th table entry in `*detectedBaud`, has issued `k + 1`
transactions, and what it did on the bus is exactly `k + 1` reconfigure-and-probe
cycles, one for each of the first `k + 1` table entries in table order, all at
8N1. -/
theorem C1_autoDetectBaudRate_first_answer (o : Oracle) (slaveId d k : Nat) (w : World)
    (hk : k < 8) (hp : present (baudAnswer o slaveId w k) = true)
    (hl : ∀ j, j < k → present (baudAnswer o slaveId w j) = false) :
    baudRates = [9600, 19200, 38400, 57600, 115200, 4800, 2400, 1200] ∧
    (autoDetectBaudRate o slaveId d w).1 = true ∧
    (autoDetectBaudRate o slaveId d w).2.1 = baudRates.getD k 0 ∧
    (autoDetectBaudRate o slaveId d w).2.2.issued = w.issued + (k + 1) ∧
    busEvents (autoDetectBaudRate o slaveId d w).2.2.trace =
      busEvents w.trace ++ cycles o slaveId w.issued (with8N1 (baudRates.take (k + 1))) ∧
    (cycles o slaveId w.issued (with8N1 (baudRates.take (k + 1)))).length = 4 * (k + 1) := by
  obtain ⟨r1, r2, r3, _, _⟩ := autoDetectBaudRate_found o slaveId d k w hk hp hl
  refine ⟨rfl, r1, r2, r3.issued, r3.bus, ?_⟩
  interval_cases k <;> rfl

/-- Scenario C: a device answering only `ku8MBIllegalDataAddress` at 19200 baud
is detected at the second table entry, after two cycles. -/
theorem C1_witness :
    (1 < 8 ∧ present (baudAnswer deviceAt19200 1 bootWorld 1) = true ∧
      ∀ j, j < 1 → present (baudAnswer deviceAt19200 1 bootWorld j) = false) ∧
    (baudRates = [9600, 19200, 38400, 57600, 115200, 4800, 2400, 1200] ∧
    (autoDetectBaudRate deviceAt19200 1 0 bootWorld).1 = true ∧
    (autoDetectBaudRate deviceAt19200 1 0 bootWorld).2.1 = baudRates.getD 1 0 ∧
    (autoDetectBaudRate deviceAt19200 1 0 bootWorld).2.2.issued = bootWorld.issued + (1 + 1) ∧
    busEvents (autoDetectBaudRate deviceAt19200 1 0 bootWorld).2.2.trace =
      busEvents bootWorld.trace ++
        cycles deviceAt19200 1 bootWorld.issued (with8N1 (baudRates.take (1 + 1))) ∧
    (cycles deviceAt19200 1 bootWorld.issued (with8N1 (baudRates.take (1 + 1)))).length = 4 * (1 + 1)) :=
  have h1 : present (baudAnswer deviceAt19200 1 bootWorld 1) = true := by decide
  have h2 : ∀ j, j < 1 → present (baudAnswer deviceAt19200 1 bootWorld j) = false := by decide
  ⟨⟨by decide, h1, h2⟩, C1_autoDetectBaudRate_first_answer deviceAt19200 1 0 1 bootWorld (by decide) h1 h2⟩

/-- C2. `autoDetectBaudRate` returns `false` exactly when none of the eight
probes, one per entry of the baud table, is answered by `ku8MBSuccess` or
`ku8MBIllegalDataAddress`; it has then issued eight transactions, what it did on
the bus is exactly the eight cycles of the whole table in table order at 8N1, and
the content of `*detectedBaud` is what it was on entry. -/
theorem C2_autoDetectBaudRate_not_found (o : Oracle) (slaveId d : Nat) (w : World) :
    ((autoDetectBaudRate o slaveId d w).1 = false ↔
      ∀ j, j < 8 → present (baudAnswer o slaveId w j) = false) ∧
    ((autoDetectBaudRate o slaveId d w).1 = false →
      (autoDetectBaudRate o slaveId d w).2.1 = d ∧
      (autoDetectBaudRate o slaveId d w).2.2.issued = w.issued + 8 ∧
      busEvents (autoDetectBaudRate o slaveId d w).2.2.trace =
        busEvents w.trace ++ cycles o slaveId w.issued (with8N1 baudRates)) := by
  have key : (autoDetectBaudRate o slaveId d w).1 = false →
      ∀ j, j < 8 → present (baudAnswer o slaveId w j) = false := by
    intro hf
    rcases first_answer (fun j => present (baudAnswer o slaveId w j)) 8 with h | ⟨k, hk, hp, hl⟩
    · exact h
    · have := (autoDetectBaudRate_found o slaveId d k w hk hp hl).1
      rw [this] at hf
      exact absurd hf (by decide)
  refine ⟨⟨key, fun h => (autoDetectBaudRate_none o slaveId d w h).1⟩, fun hf => ?_⟩
  obtain ⟨_, r2, r3, _⟩ := autoDetectBaudRate_none o slaveId d w (key hf)
  exact ⟨r2, r3.issued, r3.bus⟩

/-- C3, as stated, fails: `autoDetectBaudRate` and `autoDetectSerialConfig` do
not look at the range of their address.  Called with slave address 0 on a silent
bus they run their whole table: eight, respectively six, transactions are sent to
address 0. -/
theorem C3_counterexample :
    (autoDetectBaudRate silentBus 0 0 bootWorld).2.2.issued = 8 ∧
    busEvents (autoDetectBaudRate silentBus 0 0 bootWorld).2.2.trace =
      cycles silentBus 0 0 (with8N1 baudRates) ∧
    (autoDetectSerialConfig silentBus 0 9600 bootWorld).2.issued = 6 := by
  decide

/-- C3, amended. `testDifferentBaudRates`, the command that reads an address from
the operator and runs baud detection, rejects every number outside 1..247: after
the prompt and the wait it only prints the invalid-id line.  Nothing is sent,
`Serial1` and the bound slave are untouched, and `autoDetectBaudRate` is not
entered. -/
theorem C3_testDifferentBaudRates_rejects (o : Oracle) (waited : Nat) (input : Int)
    (uninit : Nat) (w : World) (h : input < 1 ∨ input > 247) :
    (testDifferentBaudRates o waited input uninit w).trace =
      w.trace ++ [.print (.line .enterSlaveId)] ++ List.replicate waited (.delay 10) ++
        [.print (.line .invalidSlaveId)] ∧
    (testDifferentBaudRates o waited input uninit w).issued = w.issued ∧
    (testDifferentBaudRates o waited input uninit w).serial1 = w.serial1 ∧
    (testDifferentBaudRates o waited input uninit w).slave = w.slave := by
  obtain ⟨h1, h2, h3, h4, _⟩ := waitForInput_spec waited (println (.line .enterSlaveId) w)
  simp only [testDifferentBaudRates, if_pos h]
  simp only [println, World.emit] at h1 h2 h3 h4 ⊢
  refine ⟨?_, h2, h3, h4⟩
  rw [h1]

/-- The operator types 0, or 248, after three rounds of waiting. -/
theorem C3_witness :
    (((0 : Int) < 1 ∨ (0 : Int) > 247) ∧
      (testDifferentBaudRates silentBus 3 0 0 bootWorld).trace =
        bootWorld.trace ++ [.print (.line .enterSlaveId)] ++ List.replicate 3 (.delay 10) ++
          [.print (.line .invalidSlaveId)]) ∧
    (((248 : Int) < 1 ∨ (248 : Int) > 247) ∧
      (testDifferentBaudRates silentBus 3 248 0 bootWorld).issued = bootWorld.issued) :=
  ⟨⟨by decide, (C3_testDifferentBaudRates_rejects silentBus 3 0 0 bootWorld (by decide)).1⟩,
   ⟨by decide, (C3_testDifferentBaudRates_rejects silentBus 3 248 0 bootWorld (by decide)).2.1⟩⟩

set_option maxRecDepth 10000 in
/-- C4 fails on the code.  `scanModbusDevices` probes each address 1..247 once,
in ascending order, whatever the answers, but it counts an address, and prints
it as found, only when its probe returns `ku8MBSuccess`: an address that answers
`ku8MBIllegalDataAddress` gets the line "responded with error" like every other
result except `ku8MBResponseTimedOut` and `ku8MBInvalidSlaveID`, and is not
counted.  The sibling routines take the same answer as a device found.  On a bus
where only address 5 answers, with that exception, `autoDetectBaudRate` and
`autoDetectSerialConfig` for slave 5 return `true` at their first probe and
`detectModbusDevice` returns the list with 5, while the scan warns about address
5, counts 0 devices, and ends with the Warning indicator, "no devices found" and
the wiring tips. -/
theorem C4_scanModbusDevices_skips_exception_reply (o : Oracle) (w : World) :
    ((scanAnswers o w).map (·.1) = List.range' 1 247 ∧
      (scanModbusDevices o w).1 =
        ((scanAnswers o w).filter fun a => a.2 = ku8MBSuccess).length ∧
      foundIds (scanModbusDevices o w).2.trace = foundIds w.trace ++
        ((scanAnswers o w).filter fun a => a.2 = ku8MBSuccess).map (·.1) ∧
      warnedIds (scanModbusDevices o w).2.trace = warnedIds w.trace ++
        ((scanAnswers o w).filter fun a =>
          a.2 ≠ ku8MBSuccess ∧ a.2 ≠ ku8MBResponseTimedOut ∧
            a.2 ≠ ku8MBInvalidSlaveID).map (·.1) ∧
      busEvents (scanModbusDevices o w).2.trace = busEvents w.trace ++
        (scanAnswers o w).flatMap (fun a =>
          [.modbusBegin a.1, .transaction (scanReq a.1 w.serial1) a.2]) ∧
      (scanModbusDevices o w).2.issued = w.issued + 247) ∧
    ((5, ku8MBIllegalDataAddress) ∈ scanAnswers exceptionAt5 readyWorld ∧
      present ku8MBIllegalDataAddress = true ∧
      (scanModbusDevices exceptionAt5 readyWorld).1 = 0 ∧
      foundIds (scanModbusDevices exceptionAt5 readyWorld).2.trace = [] ∧
      warnedIds (scanModbusDevices exceptionAt5 readyWorld).2.trace = [5] ∧
      (scanModbusDevices exceptionAt5 readyWorld).2.led.currentLEDStatus = .LED_WARNING ∧
      ∃ l, (scanModbusDevices exceptionAt5 readyWorld).2.trace = l ++
        [.led .LED_WARNING true, .print (.line .scanCompleteNone), .print (.scanSummary 0),
          .print (.line .scanTips)]) ∧
    ((autoDetectBaudRate exceptionAt5 5 0 readyWorld).1 = true ∧
      (autoDetectBaudRate exceptionAt5 5 0 readyWorld).2.1 = 9600 ∧
      (autoDetectSerialConfig exceptionAt5 5 9600 readyWorld).1 = true ∧
      (detectModbusDevice exceptionAt5 0 readyWorld).1 = [5]) := by
  refine ⟨?_, ?_, ?_⟩
  · obtain ⟨r1, r2, r3, r4, r5, _, _⟩ := scanModbusDevices_spec o w
    refine ⟨?_, r1, r3, ?_, r5, r2⟩
    · simp [scanAnswers, scanAnswersFrom, Function.comp_def]
    · rw [r4]
      congr 2
      apply List.filter_congr
      intro a _
      simp [warns, Bool.and_assoc]
  · obtain ⟨r1, _, r3, r4, _, _, r7⟩ := scanModbusDevices_spec exceptionAt5 readyWorld
    have h0 : (scanModbusDevices exceptionAt5 readyWorld).1 = 0 := by rw [r1]; decide
    refine ⟨by decide, by decide, h0, ?_, ?_, ?_,
      scanModbusDevices_none_tail exceptionAt5 readyWorld h0⟩
    · rw [r3]; decide
    · rw [r4]; decide
    · rw [r7, h0]; rfl
  · obtain ⟨b1, b2, _⟩ := autoDetectBaudRate_found exceptionAt5 5 0 0 readyWorld (by decide)
      (by decide) (fun j hj => absurd hj (Nat.not_lt_zero j))
    obtain ⟨c1, _⟩ := autoDetectSerialConfig_found exceptionAt5 5 9600 0 readyWorld (by decide)
      (by decide) (fun j hj => absurd hj (Nat.not_lt_zero j))
    have hq : quickFound exceptionAt5 readyWorld = [5] := by decide
    refine ⟨b1, b2, c1, ?_⟩
    rcases detectModbusDevice_shape exceptionAt5 0 readyWorld with
      ⟨_, h2, _⟩ | ⟨h1, _⟩ | ⟨h1, _⟩
    · rw [h2, hq]
    · rw [hq] at h1; exact absurd h1 (by decide)
    · rw [hq] at h1; exact absurd h1 (by decide)

/-- C6. `autoDetectSerialConfig`: for every address, baud rate, bus and starting
world, the routine returns `true` exactly when some probe of the framing table
[8N1, 8E1, 8O1, 8N2, 7E1, 7O1] is answered by `ku8MBSuccess` or
`ku8MBIllegalDataAddress`; when it returns, `Serial1` is open at the given baud
rate with the first framing of the table whose probe was so answered, and with
8N1 if none was. -/
theorem C6_autoDetectSerialConfig_final_link (o : Oracle) (slaveId baudRate : Nat) (w : World) :
    configs = [.SERIAL_8N1, .SERIAL_8E1, .SERIAL_8O1, .SERIAL_8N2, .SERIAL_7E1, .SERIAL_7O1] ∧
    (autoDetectSerialConfig o slaveId baudRate w).1 =
      (firstIndex (fun j => present (configAnswer o slaveId baudRate w j)) 6).isSome ∧
    (autoDetectSerialConfig o slaveId baudRate w).2.serial1 =
      some (baudRate,
        match firstIndex (fun j => present (configAnswer o slaveId baudRate w j)) 6 with
        | some k => configs.getD k .SERIAL_8N1
        | none => .SERIAL_8N1) := by
  refine ⟨rfl, ?_⟩
  rcases first_answer (fun j => present (configAnswer o slaveId baudRate w j)) 6 with
    h | ⟨k, hk, hp, hl⟩
  · obtain ⟨r1, _, _, r4⟩ := autoDetectSerialConfig_none o slaveId baudRate w h
    rw [firstIndex_none _ 6 h, r1, r4]
    exact ⟨rfl, rfl⟩
  · obtain ⟨r1, _, _, r4⟩ := autoDetectSerialConfig_found o slaveId baudRate k w hk hp hl
    rw [firstIndex_some _ 6 k hk hp hl, r1, r4]
    exact ⟨rfl, rfl⟩

/-- C7. `detectModbusDevice`: in every run, in the sequence of entries to and
returns from the two detection routines, each entry to `autoDetectSerialConfig`
comes right after a return of `autoDetectBaudRate` for the same slave with value
`true`.  And when no Phase 1 probe is answered and `autoDetectBaudRate` gets no
answer for any of the four addresses, the run issues exactly 42 transactions, its
bus events are the opening of `Serial1` at 9600 8N1, the ten Phase 1 probes and
the four sweeps of the eight-entry baud table, and its call events are the four
failed runs of `autoDetectBaudRate`: `autoDetectSerialConfig` is never entered
and no Phase 4 read is issued. -/
theorem C7_detectModbusDevice_phase3_after_baud (o : Oracle) (uninit : Nat) (w : World) :
    (∃ calls, callEvents (detectModbusDevice o uninit w).2.trace = callEvents w.trace ++ calls ∧
      ∀ i id baud, calls[i]? = some (.call (.autoDetectSerialConfig id baud)) →
        0 < i ∧ calls[i - 1]? = some (.ret (.autoDetectBaudRate id) true)) ∧
    ((∀ a, a ∈ quickAnswers o w → present a.2 = false) →
      (∀ i, i < 4 → ∀ j, j < 8 → present (phase2Answer o w i j) = false) →
      (detectModbusDevice o uninit w).2.issued = w.issued + 42 ∧
      busEvents (detectModbusDevice o uninit w).2.trace = busEvents w.trace ++
        ([.serialBegin 9600 .SERIAL_8N1] ++
          scanBus (some (9600, .SERIAL_8N1)) (quickAnswers o w) ++
          sweeps o (w.issued + 10) commonIds) ∧
      callEvents (detectModbusDevice o uninit w).2.trace = callEvents w.trace ++
        [.call (.autoDetectBaudRate 1), .ret (.autoDetectBaudRate 1) false,
         .call (.autoDetectBaudRate 2), .ret (.autoDetectBaudRate 2) false,
         .call (.autoDetectBaudRate 3), .ret (.autoDetectBaudRate 3) false,
         .call (.autoDetectBaudRate 247), .ret (.autoDetectBaudRate 247) false]) := by
  constructor
  · rcases detectModbusDevice_shape o uninit w with
      ⟨_, _, hc, _⟩ | ⟨_, _, hc, _⟩ | ⟨_, m, baud, v, _, _, hc, _⟩
    · exact ⟨[], by simpa using hc, by intro i id baud h; simp at h⟩
    · refine ⟨_, hc, configFollowsBaud_index _ ?_⟩
      have := configFollowsBaud_failed commonIds [] none (fun _ => trivial)
      simpa using this
    · refine ⟨_, hc, configFollowsBaud_index _ ?_⟩
      exact configFollowsBaud_failed _ _ none (fun p => configFollowsBaud_detected _ baud v p)
  · intro h1 h2
    obtain ⟨_, r, _⟩ := detectModbusDevice_silent o uninit w h1 h2
    exact ⟨r.issued, r.bus, by simpa [commonIds, failedTry] using r.calls⟩

/-- On a bus with no device, started from a freshly booted board. -/
theorem C7_witness :
    (∀ a, a ∈ quickAnswers silentBus bootWorld → present a.2 = false) ∧
    (∀ i, i < 4 → ∀ j, j < 8 → present (phase2Answer silentBus bootWorld i j) = false) ∧
    (detectModbusDevice silentBus 0 bootWorld).2.issued = bootWorld.issued + 42 :=
  have h1 : ∀ a, a ∈ quickAnswers silentBus bootWorld → present a.2 = false := by decide
  have h2 : ∀ i, i < 4 → ∀ j, j < 8 → present (phase2Answer silentBus bootWorld i j) = false := by
    decide
  ⟨h1, h2, ((C7_detectModbusDevice_phase3_after_baud silentBus 0 bootWorld).2 h1 h2).1⟩

/-- C8, as stated, fails: on a bus with no device no probe of the quick scan or of
the four baud sweeps is answered, `detectModbusDevice` finds nothing, and the
indicator is left in Error, not Warning. -/
theorem C8_counterexample :
    (∀ a, a ∈ quickAnswers silentBus bootWorld → present a.2 = false) ∧
    (∀ i, i < 4 → ∀ j, j < 8 → present (phase2Answer silentBus bootWorld i j) = false) ∧
    (detectModbusDevice silentBus 0 bootWorld).1 = [] ∧
    (detectModbusDevice silentBus 0 bootWorld).2.led.currentLEDStatus = .LED_ERROR ∧
    (detectModbusDevice silentBus 0 bootWorld).2.led.currentLEDStatus ≠ .LED_WARNING := by
  decide

/-- C8, amended. `detectModbusDevice`: when no probe of the quick scan and no
probe of the four-address search across all eight baud rates is answered by
`ku8MBSuccess` or `ku8MBIllegalDataAddress`, the operation finds no device and
the logical indicator state when it returns is Error. -/
theorem C8_detectModbusDevice_nothing_found (o : Oracle) (uninit : Nat) (w : World)
    (h1 : ∀ a, a ∈ quickAnswers o w → present a.2 = false)
    (h2 : ∀ i, i < 4 → ∀ j, j < 8 → present (phase2Answer o w i j) = false) :
    (detectModbusDevice o uninit w).1 = [] ∧
    (detectModbusDevice o uninit w).2.led.currentLEDStatus = .LED_ERROR := by
  obtain ⟨r1, _, r3⟩ := detectModbusDevice_silent o uninit w h1 h2
  exact ⟨r1, r3⟩

/-- A silent bus, a freshly booted board. -/
theorem C8_witness :
    (∀ a, a ∈ quickAnswers silentBus bootWorld → present a.2 = false) ∧
    (∀ i, i < 4 → ∀ j, j < 8 → present (phase2Answer silentBus bootWorld i j) = false) ∧
    (detectModbusDevice silentBus 7 bootWorld).1 = [] ∧
    (detectModbusDevice silentBus 7 bootWorld).2.led.currentLEDStatus = .LED_ERROR :=
  have h1 : ∀ a, a ∈ quickAnswers silentBus bootWorld → present a.2 = false := by decide
  have h2 : ∀ i, i < 4 → ∀ j, j < 8 → present (phase2Answer silentBus bootWorld i j) = false := by
    decide
  ⟨h1, h2, C8_detectModbusDevice_nothing_found silentBus 7 bootWorld h1 h2⟩

/-- C9. `detectModbusDevice`, Phase 2: `autoDetectBaudRate` is entered in a run
exactly when Phase 1 found no address.  When Phase 1 found one, the found list
is the Phase 1 list.  When it found none, the addresses tried are the first
entries of [1, 2, 3, 247] in that order: either all four, each run returning
`false`, and the found list stays empty; or they end at the first address whose
run returns `true`, every earlier run having returned `false`, and the found
list is exactly that address. -/
theorem C9_detectModbusDevice_phase2 (o : Oracle) (uninit : Nat) (w : World) :
    commonIds = [1, 2, 3, 247] ∧
    ∃ R : List (Nat × Bool),
      baudReturns (detectModbusDevice o uninit w).2.trace = baudReturns w.trace ++ R ∧
      baudCalls (detectModbusDevice o uninit w).2.trace = baudCalls w.trace ++ R.map (·.1) ∧
      (R ≠ [] ↔ quickFound o w = []) ∧
      (quickFound o w ≠ [] → (detectModbusDevice o uninit w).1 = quickFound o w) ∧
      (quickFound o w = [] →
        (R = commonIds.map (fun id => (id, false)) ∧ (detectModbusDevice o uninit w).1 = []) ∨
        (∃ m, m < 4 ∧
          R = (commonIds.take m).map (fun id => (id, false)) ++ [(commonIds.getD m 0, true)] ∧
          (detectModbusDevice o uninit w).1 = [commonIds.getD m 0])) := by
  refine ⟨rfl, ?_⟩
  have hR : ∀ calls, callEvents (detectModbusDevice o uninit w).2.trace =
      callEvents w.trace ++ calls →
      baudReturns (detectModbusDevice o uninit w).2.trace = baudReturns w.trace ++ baudReturns calls := by
    intro calls hc
    rw [← baudReturns_callEvents, hc, ← baudReturns_callEvents w.trace]
    simp [baudReturns]
  have hC : ∀ calls, callEvents (detectModbusDevice o uninit w).2.trace =
      callEvents w.trace ++ calls →
      baudCalls (detectModbusDevice o uninit w).2.trace = baudCalls w.trace ++ baudCalls calls := by
    intro calls hc
    rw [← baudCalls_callEvents, hc, ← baudCalls_callEvents w.trace]
    simp [baudCalls]
  rcases detectModbusDevice_shape o uninit w with
    ⟨hq, hf, hc, _⟩ | ⟨hq, hf, hc, _⟩ | ⟨hq, m, baud, v, hm, hf, hc, _⟩
  · refine ⟨[], ?_, ?_, ?_, fun _ => hf, fun h => absurd h hq⟩
    · simpa [baudReturns] using hR [] (by simpa using hc)
    · simpa [baudCalls] using hC [] (by simpa using hc)
    · simp [hq]
  · refine ⟨commonIds.map (fun id => (id, false)), ?_, ?_, ?_, fun h => absurd hq h,
      fun _ => Or.inl ⟨rfl, hf⟩⟩
    · rw [hR _ hc]; rfl
    · rw [hC _ hc]; rfl
    · simp [hq, commonIds]
  · refine ⟨(commonIds.take m).map (fun id => (id, false)) ++ [(commonIds.getD m 0, true)],
      ?_, ?_, ?_, fun h => absurd hq h, fun _ => Or.inr ⟨m, hm, rfl, hf⟩⟩
    · rw [hR _ hc]
      interval_cases m <;> rfl
    · rw [hC _ hc]
      interval_cases m <;> rfl
    · simp [hq]

/-- C10. Error self-expiry: after `setLEDStatus(LED_ERROR, true)` at time `T`
and no other call of it, whatever calls of `updateLEDAnimation` were made in
between (at the offsets `earlier`), `updateLEDAnimation` at time `T + e` (on the
wrapping millisecond clock) behaves as follows.  With `e <= 3000`, all earlier
calls being within 3000 ms too, it leaves the logical state Error, still
animating from `T`, and shows Red when `e / 250` is even and Black when it is
odd.  With `e > 3000`, so at `T + 3001`, it leaves the logical state Ready with
`ledAnimationActive = false` and shows Blue, the Ready colour. -/
theorem C10_error_self_expiry (breathe : Nat → Nat → Nat) (s0 : LedState) (T : Nat)
    (earlier : List Nat) (e : Nat) (he : e < ulongRange) :
    ((∀ d ∈ earlier, d ≤ 3000) → e ≤ 3000 →
      (updateLEDAnimation breathe ((T + e) % ulongRange)
        (ticksAfter breathe T earlier (setLEDStatus .LED_ERROR true T s0))).currentLEDStatus =
          .LED_ERROR ∧
      (updateLEDAnimation breathe ((T + e) % ulongRange)
        (ticksAfter breathe T earlier (setLEDStatus .LED_ERROR true T s0))).ledAnimationActive =
          true ∧
      (updateLEDAnimation breathe ((T + e) % ulongRange)
        (ticksAfter breathe T earlier (setLEDStatus .LED_ERROR true T s0))).ledAnimationStart =
          T ∧
      (updateLEDAnimation breathe ((T + e) % ulongRange)
        (ticksAfter breathe T earlier (setLEDStatus .LED_ERROR true T s0))).shown =
          (if (e / 250) % 2 = 0 then CRGB.Red else CRGB.Black)) ∧
    (3000 < e →
      (updateLEDAnimation breathe ((T + e) % ulongRange)
        (ticksAfter breathe T earlier (setLEDStatus .LED_ERROR true T s0))).currentLEDStatus =
          .LED_READY ∧
      (updateLEDAnimation breathe ((T + e) % ulongRange)
        (ticksAfter breathe T earlier (setLEDStatus .LED_ERROR true T s0))).ledAnimationActive =
          false ∧
      (updateLEDAnimation breathe ((T + e) % ulongRange)
        (ticksAfter breathe T earlier (setLEDStatus .LED_ERROR true T s0))).shown = CRGB.Blue ∧
      CRGB.Blue = statusColor .LED_READY) := by
  have hel := elapsedSince_add T e he
  constructor
  · intro hd h
    obtain ⟨i1, i2, i3⟩ := ticksAfter_error breathe T earlier
      (setLEDStatus .LED_ERROR true T s0) rfl rfl rfl hd
    rw [(error_tick breathe _ T _ i1 i2 i3).1 (by omega), hel]
    exact ⟨i1, i2, i3, rfl⟩
  · intro h
    rcases ticksAfter_error_any breathe T earlier
      (setLEDStatus .LED_ERROR true T s0) rfl rfl rfl with ⟨i1, i2, i3⟩ | ⟨j1, j2, j3⟩
    · rw [(error_tick breathe _ T _ i1 i2 i3).2 (by omega)]
      exact ⟨rfl, rfl, rfl, rfl⟩
    · rw [updateLEDAnimation_idle breathe _ _ j2]
      exact ⟨j1, j2, j3, rfl⟩

/-- Error set 296 ms before the clock wraps, `updateLEDAnimation` called 100,
2000 and 2999 ms later: still Error 3000 ms after the set, Ready and not
animating 3001 ms after it. -/
theorem C10_witness :
    (3000 < ulongRange ∧ 3001 < ulongRange ∧ ∀ d ∈ [100, 2000, 2999], d ≤ 3000) ∧
    (updateLEDAnimation noBreath ((4294967000 + 3000) % ulongRange)
      (ticksAfter noBreath 4294967000 [100, 2000, 2999]
        (setLEDStatus .LED_ERROR true 4294967000 ledOff))).currentLEDStatus = .LED_ERROR ∧
    (updateLEDAnimation noBreath ((4294967000 + 3001) % ulongRange)
      (ticksAfter noBreath 4294967000 [100, 2000, 2999]
        (setLEDStatus .LED_ERROR true 4294967000 ledOff))).currentLEDStatus = .LED_READY ∧
    (updateLEDAnimation noBreath ((4294967000 + 3001) % ulongRange)
      (ticksAfter noBreath 4294967000 [100, 2000, 2999]
        (setLEDStatus .LED_ERROR true 4294967000 ledOff))).ledAnimationActive = false :=
  have h1 : 3000 < ulongRange := by decide
  have h2 : 3001 < ulongRange := by decide
  have h3 : ∀ d ∈ [100, 2000, 2999], d ≤ 3000 := by decide
  ⟨⟨h1, h2, h3⟩,
    ((C10_error_self_expiry noBreath ledOff 4294967000 [100, 2000, 2999] 3000 h1).1 h3
      (by decide)).1,
    ((C10_error_self_expiry noBreath ledOff 4294967000 [100, 2000, 2999] 3001 h2).2
      (by decide)).1,
    ((C10_error_self_expiry noBreath ledOff 4294967000 [100, 2000, 2999] 3001 h2).2
      (by decide)).2.1⟩

/-- C11. Status scheduler invariant: for every state of the LED and every time
`now`, after `updateLEDAnimation` the logical state is unchanged or Ready; it is
unchanged when the animate flag is off, and unchanged when the prior state is
neither Error nor Success (so for Off, Ready, Scanning, Warning, Writing and
Connecting); a change therefore needs Error or Success with the flag set. -/
theorem C11_updateLEDAnimation_only_expires (breathe : Nat → Nat → Nat) (now : Nat)
    (s : LedState) :
    ((updateLEDAnimation breathe now s).currentLEDStatus = s.currentLEDStatus ∨
      (updateLEDAnimation breathe now s).currentLEDStatus = .LED_READY) ∧
    (s.ledAnimationActive = false →
      (updateLEDAnimation breathe now s).currentLEDStatus = s.currentLEDStatus) ∧
    (s.currentLEDStatus ≠ .LED_ERROR → s.currentLEDStatus ≠ .LED_SUCCESS →
      (updateLEDAnimation breathe now s).currentLEDStatus = s.currentLEDStatus) ∧
    ((updateLEDAnimation breathe now s).currentLEDStatus ≠ s.currentLEDStatus →
      (s.currentLEDStatus = .LED_ERROR ∨ s.currentLEDStatus = .LED_SUCCESS) ∧
      s.ledAnimationActive = true) := by
  obtain ⟨st, start, act, l, sh⟩ := s
  cases act
  · simp [updateLEDAnimation]
  · cases st <;>
      simp only [updateLEDAnimation, FastLED_show, setLEDStatus, Bool.not_true,
        Bool.false_eq_true, if_false] <;>
      (try split_ifs) <;> simp

/-- C12. Status scheduler idempotence: for every state of the LED and every
time `now`, a second `updateLEDAnimation` at the same `now` changes nothing: the
logical state, the animate flag, the transition timestamp, the pixel buffer and
the pixel shown are those left by the first one. -/
theorem C12_updateLEDAnimation_idempotent (breathe : Nat → Nat → Nat) (now : Nat)
    (s : LedState) :
    updateLEDAnimation breathe now (updateLEDAnimation breathe now s) =
      updateLEDAnimation breathe now s := by
  obtain ⟨st, start, act, l, sh⟩ := s
  cases act
  · simp [updateLEDAnimation]
  · cases st
    case LED_ERROR =>
      simp only [updateLEDAnimation, FastLED_show, setLEDStatus, Bool.not_true,
        Bool.false_eq_true, if_false]
      by_cases h : elapsedSince now start > 3000
      · simp [h]
      · simp [h]
    case LED_SUCCESS =>
      simp only [updateLEDAnimation, FastLED_show, setLEDStatus, Bool.not_true,
        Bool.false_eq_true, if_false]
      by_cases h : elapsedSince now start < 500
      · simp [h]
      · by_cases h2 : elapsedSince now start < 1000
        · simp [h, h2]
        · simp [h, h2]
    all_goals
      simp only [updateLEDAnimation, FastLED_show, setLEDStatus, Bool.not_true,
        Bool.false_eq_true, if_false]
      try (by_cases h : elapsedSince now start > 2000 <;> simp [h])

/-- C16 fails on the code.  After `setLEDStatus(LED_SUCCESS, true)` at time `T`
and no other call of it, whatever calls of `updateLEDAnimation` were made in
between (at the offsets `earlier`, within the first second), the call at time
`T + e` (on the wrapping millisecond clock) shows `CRGB::Green`, the Success
colour, for `e < 500`; for `500 <= e < 1000` it shows red 0, green `f` and blue
`255 - f` with `f = 255 - 255 * (e - 500) / 500`, where `1 <= f <= 255` and `f`
does not increase with `e`, the logical state staying Success; for `e >= 1000`,
whatever the earlier calls, it leaves the logical state Ready with
`ledAnimationActive = false` and shows Blue, the Ready colour.  The fade,
however, does not start from the Success colour: `CRGB::Green` is (0, 128, 0),
shown up to 499 ms, and at 500 ms the pixel is (0, 255, 0), so the green level
jumps from 128 to 255 before it fades; the fade ends at (0, 1, 254), one step
from Blue. -/
theorem C16_success_fade_starts_brighter (breathe : Nat → Nat → Nat) (s0 : LedState) (T : Nat)
    (earlier : List Nat) (e : Nat) (he : e < ulongRange) :
    ((∀ d ∈ earlier, d < 1000) → e < 500 →
      (updateLEDAnimation breathe ((T + e) % ulongRange)
        (ticksAfter breathe T earlier (setLEDStatus .LED_SUCCESS true T s0))).shown =
          statusColor .LED_SUCCESS ∧
      (updateLEDAnimation breathe ((T + e) % ulongRange)
        (ticksAfter breathe T earlier (setLEDStatus .LED_SUCCESS true T s0))).currentLEDStatus =
          .LED_SUCCESS) ∧
    ((∀ d ∈ earlier, d < 1000) → 500 ≤ e → e < 1000 →
      (updateLEDAnimation breathe ((T + e) % ulongRange)
        (ticksAfter breathe T earlier (setLEDStatus .LED_SUCCESS true T s0))).shown =
          .rgb 0 (255 - 255 * (e - 500) / 500) (255 - (255 - 255 * (e - 500) / 500)) ∧
      (updateLEDAnimation breathe ((T + e) % ulongRange)
        (ticksAfter breathe T earlier (setLEDStatus .LED_SUCCESS true T s0))).currentLEDStatus =
          .LED_SUCCESS ∧
      1 ≤ 255 - 255 * (e - 500) / 500 ∧ 255 - 255 * (e - 500) / 500 ≤ 255 ∧
      (255 - 255 * (e - 500) / 500) + (255 - (255 - 255 * (e - 500) / 500)) = 255 ∧
      ∀ e2, e ≤ e2 → 255 - 255 * (e2 - 500) / 500 ≤ 255 - 255 * (e - 500) / 500) ∧
    (1000 ≤ e →
      (updateLEDAnimation breathe ((T + e) % ulongRange)
        (ticksAfter breathe T earlier (setLEDStatus .LED_SUCCESS true T s0))).currentLEDStatus =
          .LED_READY ∧
      (updateLEDAnimation breathe ((T + e) % ulongRange)
        (ticksAfter breathe T earlier (setLEDStatus .LED_SUCCESS true T s0))).ledAnimationActive =
          false ∧
      (updateLEDAnimation breathe ((T + e) % ulongRange)
        (ticksAfter breathe T earlier (setLEDStatus .LED_SUCCESS true T s0))).shown =
          statusColor .LED_READY) ∧
    statusColor .LED_SUCCESS = .rgb 0 128 0 ∧
    statusColor .LED_READY = .rgb 0 0 255 ∧
    ((∀ d ∈ earlier, d < 1000) →
      (updateLEDAnimation breathe ((T + 499) % ulongRange)
        (ticksAfter breathe T earlier (setLEDStatus .LED_SUCCESS true T s0))).shown =
          .rgb 0 128 0 ∧
      (updateLEDAnimation breathe ((T + 500) % ulongRange)
        (ticksAfter breathe T earlier (setLEDStatus .LED_SUCCESS true T s0))).shown =
          .rgb 0 255 0 ∧
      (updateLEDAnimation breathe ((T + 500) % ulongRange)
        (ticksAfter breathe T earlier (setLEDStatus .LED_SUCCESS true T s0))).shown ≠
          statusColor .LED_SUCCESS ∧
      (updateLEDAnimation breathe ((T + 999) % ulongRange)
        (ticksAfter breathe T earlier (setLEDStatus .LED_SUCCESS true T s0))).shown =
          .rgb 0 1 254) := by
  have hel := elapsedSince_add T e he
  refine ⟨?_, ?_, ?_, rfl, rfl, ?_⟩
  · intro hd h
    obtain ⟨r1, r2⟩ := success_shown breathe s0 T earlier e hd (by omega)
    rw [r2]
    simp [h, r1, statusColor]
  · intro hd h1 h2
    obtain ⟨r1, r2⟩ := success_shown breathe s0 T earlier e hd h2
    have h1' : ¬ e < 500 := by omega
    have hq : 255 * (e - 500) / 500 ≤ 254 := by omega
    have hb : 255 - (255 - 255 * (e - 500) / 500) = 255 * (e - 500) / 500 := by omega
    refine ⟨?_, r1, by omega, by omega, by omega, ?_⟩
    · rw [r2, hb]
      simp [h1']
    · intro e2 he2
      have : 255 * (e - 500) / 500 ≤ 255 * (e2 - 500) / 500 :=
        Nat.div_le_div_right (by omega)
      omega
  · intro h
    rcases ticksAfter_success_any breathe T earlier
      (setLEDStatus .LED_SUCCESS true T s0) rfl rfl rfl with ⟨i1, i2, i3⟩ | ⟨j1, j2, j3⟩
    · rw [(success_tick breathe _ T _ i1 i2 i3).2.2 (by omega)]
      exact ⟨rfl, rfl, rfl⟩
    · rw [updateLEDAnimation_idle breathe _ _ j2]
      exact ⟨j1, j2, j3⟩
  · intro hd
    rw [(success_shown breathe s0 T earlier 499 hd (by omega)).2,
      (success_shown breathe s0 T earlier 500 hd (by omega)).2,
      (success_shown breathe s0 T earlier 999 hd (by omega)).2]
    refine ⟨by decide, by decide, by decide, by decide⟩

/-- Success set 296 ms before the clock wraps, `updateLEDAnimation` called 100
and 499 ms later: the call 500 ms after the set shows (0, 255, 0), which is not
the Success colour shown until then; the call 999 ms after it shows (0, 1, 254);
the call 1000 ms after it leaves the state Ready. -/
theorem C16_witness :
    (499 < ulongRange ∧ 500 < ulongRange ∧ 1000 < ulongRange ∧
      ∀ d ∈ [100, 499], d < 1000) ∧
    (updateLEDAnimation noBreath ((4294967000 + 499) % ulongRange)
      (ticksAfter noBreath 4294967000 [100, 499]
        (setLEDStatus .LED_SUCCESS true 4294967000 ledOff))).shown = statusColor .LED_SUCCESS ∧
    (updateLEDAnimation noBreath ((4294967000 + 500) % ulongRange)
      (ticksAfter noBreath 4294967000 [100, 499]
        (setLEDStatus .LED_SUCCESS true 4294967000 ledOff))).shown =
        .rgb 0 (255 - 255 * (500 - 500) / 500) (255 - (255 - 255 * (500 - 500) / 500)) ∧
    (updateLEDAnimation noBreath ((4294967000 + 500) % ulongRange)
      (ticksAfter noBreath 4294967000 [100, 499]
        (setLEDStatus .LED_SUCCESS true 4294967000 ledOff))).shown ≠ statusColor .LED_SUCCESS ∧
    (updateLEDAnimation noBreath ((4294967000 + 1000) % ulongRange)
      (ticksAfter noBreath 4294967000 [100, 499]
        (setLEDStatus .LED_SUCCESS true 4294967000 ledOff))).currentLEDStatus = .LED_READY :=
  have h1 : 499 < ulongRange := by decide
  have h2 : 500 < ulongRange := by decide
  have h4 : 1000 < ulongRange := by decide
  have h5 : ∀ d ∈ [100, 499], d < 1000 := by decide
  ⟨⟨h1, h2, h4, h5⟩,
    ((C16_success_fade_starts_brighter noBreath ledOff 4294967000 [100, 499] 499 h1).1 h5
      (by decide)).1,
    ((C16_success_fade_starts_brighter noBreath ledOff 4294967000 [100, 499] 500 h2).2.1 h5
      (by decide) (by decide)).1,
    ((C16_success_fade_starts_brighter noBreath ledOff 4294967000 [100, 499] 500
      h2).2.2.2.2.2 h5).2.2.1,
    ((C16_success_fade_starts_brighter noBreath ledOff 4294967000 [100, 499] 1000 h4).2.2.1
      (by decide)).1⟩

/-- C14. `detectModbusDevice`, Phase 1: from any world, opening `Serial1` at 9600
baud 8N1 and running the quick scan loop sends exactly ten probes, to the
addresses 1, 2, ..., 10 in this order, one each, over the port at 9600 8N1.  The
found list after the loop is the list of the addresses whose probe returned
`ku8MBSuccess` or `ku8MBIllegalDataAddress`, in ascending order: at most ten
entries, no duplicate.  Every run of `detectModbusDevice` starts on the bus with
exactly this opening and these ten probes. -/
theorem C14_detectModbusDevice_phase1 (o : Oracle) (uninit : Nat) (w : World) :
    (quickAnswers o w).map (·.1) = [1, 2, 3, 4, 5, 6, 7, 8, 9, 10] ∧
    (phase1Loop o (List.range' 1 10) [] (serial1Begin 9600 .SERIAL_8N1 w)).1 =
      ((quickAnswers o w).filter fun a => present a.2).map (·.1) ∧
    busEvents (phase1Loop o (List.range' 1 10) [] (serial1Begin 9600 .SERIAL_8N1 w)).2.trace =
      busEvents w.trace ++ ([.serialBegin 9600 .SERIAL_8N1] ++
        (quickAnswers o w).flatMap (fun a =>
          [.modbusBegin a.1, .transaction (scanReq a.1 (some (9600, .SERIAL_8N1))) a.2])) ∧
    (phase1Loop o (List.range' 1 10) [] (serial1Begin 9600 .SERIAL_8N1 w)).2.issued =
      w.issued + 10 ∧
    (phase1Loop o (List.range' 1 10) [] (serial1Begin 9600 .SERIAL_8N1 w)).1.length ≤ 10 ∧
    (phase1Loop o (List.range' 1 10) [] (serial1Begin 9600 .SERIAL_8N1 w)).1.Pairwise (· < ·) ∧
    (phase1Loop o (List.range' 1 10) [] (serial1Begin 9600 .SERIAL_8N1 w)).1.Nodup ∧
    (∃ l, busEvents (detectModbusDevice o uninit w).2.trace = busEvents w.trace ++
      ([.serialBegin 9600 .SERIAL_8N1] ++
        (quickAnswers o w).flatMap (fun a =>
          [.modbusBegin a.1, .transaction (scanReq a.1 (some (9600, .SERIAL_8N1))) a.2])) ++ l) := by
  have hids : (quickAnswers o w).map (·.1) = [1, 2, 3, 4, 5, 6, 7, 8, 9, 10] := by
    simp [quickAnswers, scanAnswersFrom, Function.comp_def, List.range']
  have hs : Ran w (serial1Begin 9600 .SERIAL_8N1 w) 0 [.serialBegin 9600 .SERIAL_8N1] [] := by
    refine ⟨?_, ?_, ?_⟩
    all_goals simp [serial1Begin, busEvents, callEvents, isBusEvent, isCallEvent]
  obtain ⟨p1, p2, _⟩ := phase1Loop_spec o 10 1 [] (serial1Begin 9600 .SERIAL_8N1 w)
    (by simp : ([] : List Nat).length + 10 ≤ 10)
  have e1 : (serial1Begin 9600 .SERIAL_8N1 w).serial1 = some (9600, .SERIAL_8N1) := rfl
  have e2 : (serial1Begin 9600 .SERIAL_8N1 w).issued = w.issued := rfl
  rw [e1, e2] at p1 p2
  simp only [List.nil_append] at p1
  have hr := hs.trans p2
  have hsub : (((quickAnswers o w).filter fun a => present a.2).map (·.1)).Sublist
      [1, 2, 3, 4, 5, 6, 7, 8, 9, 10] := by
    rw [← hids]
    exact List.Sublist.map _ (List.filter_sublist _)
  have hsorted : ([1, 2, 3, 4, 5, 6, 7, 8, 9, 10] : List Nat).Pairwise (· < ·) := by decide
  refine ⟨hids, p1, ?_, ?_, ?_, ?_, ?_, detectModbusDevice_starts o uninit w⟩
  · simpa [scanBus, quickAnswers] using hr.bus
  · simpa using hr.issued
  · rw [p1]
    simpa using hsub.length_le
  · rw [p1]
    exact hsorted.sublist hsub
  · rw [p1]
    exact (hsorted.sublist hsub).imp (fun h => Nat.ne_of_lt h)

/-- C15. `detectModbusDevice`, Phase 4: run on a found list of `n` addresses,
Phase 4 issues exactly `15 * n` transactions, whatever their results: for each
found address in list order it binds the address, reads holding registers 0..9
one register at a time, then input registers 0..4 one register at a time.  It
then leaves the indicator in Success and prints the count `n`.  A run of
`detectModbusDevice` that returns a found list which is not empty ends with
Phase 4 run on that list. -/
theorem C15_detectModbusDevice_phase4 (o : Oracle) (uninit : Nat) (found : List Nat)
    (w : World) :
    (phase4 o found w).1 = found ∧
    (phase4 o found w).2.issued = w.issued + 15 * found.length ∧
    busEvents (phase4 o found w).2.trace =
      busEvents w.trace ++ dumpBus o w.serial1 w.issued found ∧
    (phase4 o found w).2.led.currentLEDStatus = .LED_SUCCESS ∧
    (∃ pre, (phase4 o found w).2.trace =
      pre ++ [.print (.detectSummary found.length), .print (.line .rule)]) ∧
    ((detectModbusDevice o uninit w).1 ≠ [] →
      ∃ w1, detectModbusDevice o uninit w = phase4 o (detectModbusDevice o uninit w).1 w1) := by
  obtain ⟨r1, r2⟩ := phase4_ran o found w
  obtain ⟨s1, _, s3⟩ := phase4_spec o found w
  refine ⟨s1, r1.issued, r1.bus, s3, r2, ?_⟩
  intro h
  rcases detectModbusDevice_phase4 o uninit w with ⟨_, h2⟩ | ⟨h1, _⟩
  · exact h2
  · exact absurd h1 h

set_option maxRecDepth 100000 in
/-- C13 fails on the code.  `scanModbusDevices` asks for the animated Scanning
indicator (its first action is `setLEDStatus(LED_SCANNING)` with the animate
flag set) and `updateLEDAnimation` has a breathing branch for that state, but
the scan never calls `updateLEDAnimation`: its 247 probes add no call of it to
the run.  The only call is the one `loop()` makes per round before the command
is dispatched, so a round of `loop()` that runs the scan command calls it once,
before the first probe, and not again until the scan has returned; by then the
state is Success or Warning, never Scanning.  On a silent bus: 247 probes, no
call of `updateLEDAnimation`, and between the probe of address 1 and the probe
of address 2 only the pause and the binding of address 2. -/
theorem C13_scan_never_ticks (o : Oracle) (breathe : Nat → Nat → Nat) (op : Operator)
    (uninit : Nat) (w : World) (now T : Nat) (s0 : LedState) :
    (ticks (scanModbusDevices o w).2.trace = ticks w.trace ∧
      (scanModbusDevices o w).2.issued = w.issued + 247 ∧
      (∃ l, (scanModbusDevices o w).2.trace = w.trace ++ .led .LED_SCANNING true :: l) ∧
      (scanModbusDevices o w).2.led.currentLEDStatus ≠ .LED_SCANNING) ∧
    (updateLEDAnimation breathe now (setLEDStatus .LED_SCANNING true T s0)).shown =
      .hsv 192 255 (breathe 200 (elapsedSince now T)) ∧
    ((loop o breathe (some ['2']) op uninit w).issued = w.issued + 247 ∧
      ∃ l, (loop o breathe (some ['2']) op uninit w).trace = w.trace ++ .tick :: l ∧
        ticks l = []) ∧
    ((scanModbusDevices silentBus readyWorld).2.issued = 247 ∧
      ticks (scanModbusDevices silentBus readyWorld).2.trace = [] ∧
      ((scanModbusDevices silentBus readyWorld).2.trace.drop 5).take 4 =
        [.transaction (scanReq 1 (some (9600, .SERIAL_8N1))) ku8MBResponseTimedOut,
          .delay 50, .modbusBegin 2,
          .transaction (scanReq 2 (some (9600, .SERIAL_8N1))) ku8MBResponseTimedOut]) := by
  refine ⟨?_, ?_, loop_scan o breathe op uninit w, ?_⟩
  · obtain ⟨_, r2, _, _, _, r6, r7⟩ := scanModbusDevices_spec o w
    refine ⟨scanModbusDevices_ticks o w, r2, r6, ?_⟩
    rw [r7]
    split_ifs <;> decide
  · simp [updateLEDAnimation, setLEDStatus, FastLED_show]
  · refine ⟨?_, ?_, ?_⟩
    · rw [(scanModbusDevices_spec silentBus readyWorld).2.1]; rfl
    · rw [scanModbusDevices_ticks]; rfl
    · decide

/-- C17 fails on the code.  Each of the six register functions sends its request
to the slave the `ModbusMaster` object is bound to at that moment, and prints the
`slaveId` it was given; so do `readSpecificRegisters` and `writeToRegister`,
which open `Serial1` but never bind the slave the operator typed.  After a full
scan the object is bound to 247: an operator who then asks for holding register 0
of slave 5 gets the answer of slave 247 under the heading of slave 5, and a write
meant for slave 5 goes to slave 247. -/
theorem C17_requests_go_to_bound_slave (o : Oracle) (slaveId address arg : Nat) (w : World) :
    (requests (readHoldingRegisters o slaveId address arg w).trace = requests w.trace ++
        [{ fn := .readHoldingRegisters, slave := w.slave, link := w.serial1,
           address := address, arg := arg }] ∧
      reportedSlaves (readHoldingRegisters o slaveId address arg w).trace =
        reportedSlaves w.trace ++ [slaveId]) ∧
    (requests (readInputRegisters o slaveId address arg w).trace = requests w.trace ++
        [{ fn := .readInputRegisters, slave := w.slave, link := w.serial1,
           address := address, arg := arg % 256 }] ∧
      reportedSlaves (readInputRegisters o slaveId address arg w).trace =
        reportedSlaves w.trace ++ [slaveId]) ∧
    (requests (readCoils o slaveId address arg w).trace = requests w.trace ++
        [{ fn := .readCoils, slave := w.slave, link := w.serial1,
           address := address, arg := arg }] ∧
      reportedSlaves (readCoils o slaveId address arg w).trace =
        reportedSlaves w.trace ++ [slaveId]) ∧
    (requests (readDiscreteInputs o slaveId address arg w).trace = requests w.trace ++
        [{ fn := .readDiscreteInputs, slave := w.slave, link := w.serial1,
           address := address, arg := arg }] ∧
      reportedSlaves (readDiscreteInputs o slaveId address arg w).trace =
        reportedSlaves w.trace ++ [slaveId]) ∧
    (requests (writeSingleRegister o slaveId address arg w).trace = requests w.trace ++
        [{ fn := .writeSingleRegister, slave := w.slave, link := w.serial1,
           address := address, arg := arg }] ∧
      reportedSlaves (writeSingleRegister o slaveId address arg w).trace =
        reportedSlaves w.trace ++ [slaveId]) ∧
    (requests (writeSingleCoil o slaveId address true w).trace = requests w.trace ++
        [{ fn := .writeSingleCoil, slave := w.slave, link := w.serial1,
           address := address, arg := 1 }] ∧
      reportedSlaves (writeSingleCoil o slaveId address true w).trace =
        reportedSlaves w.trace ++ [slaveId]) ∧
    (requests (readSpecificRegisters o readFrom5 w).trace = requests w.trace ++
        [{ fn := .readHoldingRegisters, slave := w.slave, link := some (9600, .SERIAL_8N1),
           address := 0, arg := 1 }] ∧
      reportedSlaves (readSpecificRegisters o readFrom5 w).trace =
        reportedSlaves w.trace ++ [5]) ∧
    (requests (writeToRegister o readFrom5 w).trace = requests w.trace ++
        [{ fn := .writeSingleRegister, slave := w.slave, link := some (9600, .SERIAL_8N1),
           address := 1, arg := 0 }] ∧
      reportedSlaves (writeToRegister o readFrom5 w).trace = reportedSlaves w.trace ++ [5]) ∧
    (scanModbusDevices o w).2.slave = 247 ∧
    requests (readSpecificRegisters deviceAt247 readFrom5 afterScanWorld).trace =
      [{ fn := .readHoldingRegisters, slave := 247, link := some (9600, .SERIAL_8N1),
         address := 0, arg := 1 }] ∧
    reportedSlaves (readSpecificRegisters deviceAt247 readFrom5 afterScanWorld).trace = [5] := by
  refine ⟨readHoldingRegisters_sends o slaveId address arg w,
    readInputRegisters_sends o slaveId address arg w,
    readCoils_sends o slaveId address arg w,
    readDiscreteInputs_sends o slaveId address arg w,
    writeSingleRegister_sends o slaveId address arg w,
    by simpa using writeSingleCoil_sends o slaveId address true w,
    ?_, ?_, scanModbusDevices_slave o w, by decide, by decide⟩
  · obtain ⟨s1, s2, s3⟩ := readSpecificRegisters_setup readFrom5 w
    have ht : toInt (readFrom5 1).text = 1 := by decide
    have h5 : toUint8 (toInt (readFrom5 0).text) = 5 := by decide
    have h0 : toUint16 (toInt (readFrom5 2).text) = 0 := by decide
    have h1 : toUint16 (toInt (readFrom5 3).text) = 1 := by decide
    simp only [readSpecificRegisters, ht, if_true, h5, h0, h1]
    obtain ⟨r1, r2⟩ := readHoldingRegisters_sends o 5 0 1 (serial1Begin MODBUS_BAUD .SERIAL_8N1
      (waitForInput (readFrom5 3).waited
      (println (.line .enterQuantity) (waitForInput (readFrom5 2).waited
        (println (.line .enterStartingAddress) (waitForInput (readFrom5 1).waited
          (println (.line .enterRegisterType) (waitForInput (readFrom5 0).waited
            (println (.line .enterSlaveIdShort)
              (println (.line .registerReadingSetup) w))))))))))
    rw [s1, s3] at r1
    rw [s2] at r2
    exact ⟨r1, r2⟩
  · obtain ⟨s1, s2, s3⟩ := writeToRegister_setup readFrom5 w
    have h5 : toUint8 (toInt (readFrom5 0).text) = 5 := by decide
    have h0 : toUint16 (toInt (readFrom5 1).text) = 1 := by decide
    have h1 : toUint16 (toInt (readFrom5 2).text) = 0 := by decide
    simp only [writeToRegister, h5, h0, h1]
    obtain ⟨r1, r2⟩ := writeSingleRegister_sends o 5 1 0 (serial1Begin MODBUS_BAUD .SERIAL_8N1
      (waitForInput (readFrom5 2).waited
      (println (.line .enterValue) (waitForInput (readFrom5 1).waited
        (println (.line .enterRegisterAddress) (waitForInput (readFrom5 0).waited
          (println (.line .enterSlaveIdShort)
            (println (.line .registerWritingSetup) w))))))))
    rw [s1, s3] at r1
    rw [s2] at r2
    exact ⟨r1, r2⟩

end ModbusScanner
